import Mathlib

/-!
# igps: area codes for location search and the alert check

A shallow embedding of `igps/page/logic/geo_calc.go` (the projection of a
geopoint, the area indices, the packed area codes and the flat distance) and
of the record classification of `igps/ds/gps.go`, and of the alert check of
`igps/alert.go` (`devMoved`, `getDevRecords`, `checkAlert`).

Conventions of the embedding:

* `int64` values are integers; every `+`, `-`, `*` and `/` on them goes through
  `wrap64`, the two's-complement wrap to 64 bits, and `/` truncates toward zero.
* `float64` values are rationals.  In `geo_calc.go` the four arithmetic
  operations on them are exact: rounding is not represented there.  In the
  margin computation of `checkAlert` every `float64` operation (conversion from
  `int64`, `Duration.Seconds`, `/`, `*`, `+`) is rounded by `round64`, the
  rounding to the nearest value with 53 significant bits, ties to even, without
  fusing a product with a sum; the exponent range of `float64` is not
  represented, a division by zero gives a value that is not finite.
  `math.Pi` is the decimal constant of the Go library.  `math.Cos` is not
  computable on rationals, so every function that reaches it takes the cosine as
  its first argument `cos`; theorems state what they need of it at the latitudes
  involved (`0 ≤ cos _ ≤ 1`), and `cosTaylor` is a concrete cosine for closed
  evaluations.
* `int64(math.Sqrt x)` is the integer square root of the integer part of `x`.
* A `time.Time` is its number of nanoseconds, a `time.Duration` a difference of
  two of them (the saturation of `Sub` at about 292 years is not represented);
  logging is not represented; `sendAlert` is represented by its call.
* `areaSize` is never `0` (Go panics on that division; every caller checks
  `dev.Indexed()`, that is `AreaSize > 0`, first).
-/

namespace Igps

/-! ## Machine integers -/

/-- Two's-complement wrap of an integer to the range of `int64`. -/
def wrap64 (x : Int) : Int :=
  (x + 9223372036854775808) % 18446744073709551616 - 9223372036854775808

/-- Addition of `int64`: `a + b`. -/
def add64 (a b : Int) : Int := wrap64 (a + b)

/-- Subtraction of `int64`: `a - b`. -/
def sub64 (a b : Int) : Int := wrap64 (a - b)

/-- Multiplication of `int64`: `a * b`. -/
def mul64 (a b : Int) : Int := wrap64 (a * b)

/-- Division of `int64`, `a / b`: the quotient truncated toward zero. -/
def div64 (a b : Int) : Int := wrap64 (Int.tdiv a b)

/-! ## Floating point -/

/-- The constant `math.Pi` of the Go library. -/
def mathPi : ℚ := 3.14159265358979323846264338327950288419716939937510582097494459

/-- Conversion `int64(f)` of a float: the fraction is discarded (truncation toward zero). -/
def int64OfFloat (f : ℚ) : Int := if 0 ≤ f then ⌊f⌋ else ⌈f⌉

/-- The conversion `int64(math.Sqrt(f))`: the integer part of the square root. -/
def int64Sqrt (f : ℚ) : Int := Int.ofNat (Nat.sqrt ⌊f⌋.toNat)

/-- Rounding of a real value to `float64`: the nearest value with 53 significant
bits, a tie going to the one with the even significand.  The exponent range is
not represented (no overflow to infinity, no subnormal values). -/
def round64 (x : ℚ) : ℚ :=
  if x = 0 then 0
  else
    let e := Int.log 2 |x| - 52
    let q := x / (2 : ℚ) ^ e
    let f := ⌊q⌋
    let m := if q - f < 1 / 2 then f
      else if 1 / 2 < q - f then f + 1
      else if f % 2 = 0 then f else f + 1
    (m : ℚ) * (2 : ℚ) ^ e

/-- The value `x'` is within the relative error `ε` of the value `x`. -/
def Rel (ε x' x : ℚ) : Prop := |x' - x| ≤ ε * |x|

/-- A concrete cosine: the Taylor polynomial of degree 20 (its error is below
`2e-17` on `[-π/2, π/2]`), used to evaluate the code at explicit points. -/
def cosTaylor (x : ℚ) : ℚ :=
  1 - x ^ 2 / 2 + x ^ 4 / 24 - x ^ 6 / 720 + x ^ 8 / 40320 - x ^ 10 / 3628800
    + x ^ 12 / 479001600 - x ^ 14 / 87178291200 + x ^ 16 / 20922789888000
    - x ^ 18 / 6402373705728000 + x ^ 20 / 2432902008176640000

/-! ## geo_calc.go -/

/-- Earth mean radius in meters. -/
def earth_r : ℚ := 6371009

/-- Circumference of Earth (K = 2*r*PI). -/
def earth_k : ℚ := 2 * earth_r * mathPi

/-- Distance of any point at the specified latitude from the Equator, in meters. -/
def distFromEq (lat : ℚ) : ℚ := earth_k / 360 * lat

/-- Distance of the specified geopoint from Greenwich, in meters. -/
def distFromGr (cos : ℚ → ℚ) (lat lng : ℚ) : ℚ :=
  let cr := cos (lat * mathPi / 180) * earth_r
  let crk := cr * 2 * mathPi
  crk / 360 * lng

/-- The distances and the indices of the area the geopoint falls in: `(dEq, dGr, cEq, cGr)`. -/
def areaDistancesAndIndices (cos : ℚ → ℚ) (areaSize : Int) (lat lng : ℚ) :
    Int × Int × Int × Int :=
  let dEq := int64OfFloat (distFromEq lat)
  let dGr := int64OfFloat (distFromGr cos lat lng)
  let cEq := div64 dEq areaSize
  let cGr := div64 dGr areaSize
  let cEq := if lat < 0 then sub64 cEq 1 else cEq
  let cGr := if lng < 0 then sub64 cGr 1 else cGr
  (dEq, dGr, cEq, cGr)

/-- Packs the area indices into one area code. -/
def packAreaIndices (cEq cGr : Int) : Int :=
  let cEq := add64 cEq (50 * 1000)
  let cGr := add64 cGr (50 * 1000)
  add64 (mul64 cEq 100000) cGr

/-- The area code to search with: the code of the area the geopoint falls in. -/
def AreaCodeForGeoPt (cos : ℚ → ℚ) (areaSize : Int) (lat lng : ℚ) : Int :=
  let r := areaDistancesAndIndices cos areaSize lat lng
  packAreaIndices r.2.2.1 r.2.2.2

/-- The area codes stored with the GPS record of a geopoint. -/
def AreaCodesForGeoPt (cos : ℚ → ℚ) (areaSize : Int) (lat lng : ℚ) : List Int :=
  let r := areaDistancesAndIndices cos areaSize lat lng
  let dEq := r.1
  let dGr := r.2.1
  let cEq := r.2.2.1
  let cGr := r.2.2.2
  let areaCodes := [packAreaIndices cEq cGr]
  let inEq := sub64 dEq (mul64 cEq areaSize)
  let inGr := sub64 dGr (mul64 cGr areaSize)
  let halfAreaSize := div64 areaSize 2
  let halfAreaSize2 := mul64 halfAreaSize halfAreaSize
  let areaCodes :=
    if inEq ≤ halfAreaSize then areaCodes ++ [packAreaIndices (sub64 cEq 1) cGr]
    else areaCodes ++ [packAreaIndices (add64 cEq 1) cGr]
  let areaCodes :=
    if inGr ≤ halfAreaSize then areaCodes ++ [packAreaIndices cEq (sub64 cGr 1)]
    else areaCodes ++ [packAreaIndices cEq (add64 cGr 1)]
  if inEq ≤ halfAreaSize then
    let y := inEq
    if inGr ≤ halfAreaSize then
      let x := inGr
      if add64 (mul64 x x) (mul64 y y) < halfAreaSize2 then
        areaCodes ++ [packAreaIndices (sub64 cEq 1) (sub64 cGr 1)]
      else areaCodes
    else
      let x := sub64 halfAreaSize inGr
      if add64 (mul64 x x) (mul64 y y) < halfAreaSize2 then
        areaCodes ++ [packAreaIndices (sub64 cEq 1) (add64 cGr 1)]
      else areaCodes
  else
    let y := sub64 halfAreaSize inEq
    if inGr ≤ halfAreaSize then
      let x := inGr
      if add64 (mul64 x x) (mul64 y y) < halfAreaSize2 then
        areaCodes ++ [packAreaIndices (add64 cEq 1) (sub64 cGr 1)]
      else areaCodes
    else
      let x := sub64 halfAreaSize inGr
      if add64 (mul64 x x) (mul64 y y) < halfAreaSize2 then
        areaCodes ++ [packAreaIndices (add64 cEq 1) (add64 cGr 1)]
      else areaCodes

/-- The distance between two geopoints in meters, by the Pythagorean theorem. -/
def Distance (cos : ℚ → ℚ) (lat lng lat2 lng2 : ℚ) : Int :=
  let dEq := distFromEq lat
  let dGr := distFromGr cos lat lng
  let dEq := dEq - distFromEq lat2
  let dGr := dGr - distFromGr cos lat2 lng2
  int64Sqrt (dEq * dEq + dGr * dGr)

/-- Validity of a geopoint (`appengine.GeoPoint.Valid`): latitude in `[-90, 90]`,
longitude in `[-180, 180]`. -/
def Valid (lat lng : ℚ) : Prop := -90 ≤ lat ∧ lat ≤ 90 ∧ -180 ≤ lng ∧ lng ≤ 180

/-- The corner test as the documentation of `AreaCodesForGeoPt` words it: the
position `(inEq, inGr)` inside the area is within half the area size of the
corner that the area shares with the two selected side neighbours. -/
def withinHalfOfSelectedCorner (areaSize inEq inGr : Int) : Prop :=
  let half := areaSize / 2
  let cornerEq := if inEq ≤ half then 0 else areaSize
  let cornerGr := if inGr ≤ half then 0 else areaSize
  (inEq - cornerEq) ^ 2 + (inGr - cornerGr) ^ 2 < half ^ 2

/-! ## ds/gps.go -/

/-- A GPS record: device, area codes (or an event indicator), geopoint and
timestamp (in nanoseconds). -/
structure GPS where
  DevKeyID : Int
  AreaCodes : List Int
  Lat : ℚ
  Lng : ℚ
  Created : Int

/-- Tells if the record is a track event (has a geopoint). -/
def GPS.Track (g : GPS) : Bool :=
  g.AreaCodes.length == 0 || decide (g.AreaCodes.headD 0 ≥ 0)

/-- Along one axis, the area index `c` and the in-cell offset `i` locate the
projected distance `t`: the area `[c*S, (c+1)*S]` contains `t`, and `c*S + i`
is `t` up to its discarded fraction. -/
def AxisCell (S : Int) (t : ℚ) (c i : Int) : Prop :=
  (c : ℚ) * S ≤ t ∧ t ≤ ((c : ℚ) + 1) * S ∧ (c : ℚ) * S + i - 1 < t ∧ t < (c : ℚ) * S + i + 1 ∧
    0 ≤ i ∧ i ≤ S ∧ -1000000001 ≤ c ∧ c ≤ 1000000000

/-! ## alert.go -/

/-- An alert (`ds.Alert`): the car device and the personal mobile device it pairs;
`PersMobDevID = 0` means that no personal mobile device is specified. -/
structure Alert where
  CarDevID : Int
  PersMobDevID : Int

/-- What a run of `checkAlert` does to the outside: a query of the record store
(`getDevRecords`) and a call of `sendAlert` with its alert message. -/
inductive Effect where
  | fetch (devKeyID : Int)
  | sendAlert (alertMsg : String)
  deriving DecidableEq

/-- The surroundings of one run of `checkAlert`.  `query d` is the outcome of the
datastore query for the latest records of device `d` (`none` is a failed query);
`nowCar`, `nowPersMob` and `nowTrack` are the clock readings of the three
`time.Since` calls, in nanoseconds like `GPS.Created`; `int64Indefinite` is the
value that the platform gives to `int64(f)` for a float that is not finite or is
out of the range of `int64` (Go leaves it to the implementation). -/
structure Env where
  cos : ℚ → ℚ
  query : Int → Option (List GPS)
  nowCar : Int
  nowPersMob : Int
  nowTrack : Int
  int64Indefinite : Int

/-- The outcome of a run of `checkAlert`: its effects in order, and whether it
ended in a run-time panic (index out of range, nil dereference). -/
structure Run where
  effects : List Effect
  panicked : Bool

/-- The constant `alertDuration` of `checkAlert`: 5 minutes, in nanoseconds. -/
def alertDuration : Int := 5 * 60000000000

/-- The alert message of a car that does not report: `"Car GPS device gone dark!"`. -/
def carGoneDark : String := "Car GPS device gone dark!"

/-- The alert message of a car that moves alone: `"Car is moving without you!"`. -/
def carMovingWithoutYou : String := "Car is moving without you!"

/-- The latest GPS records of a device; a failed query and an empty result are
both an error (`none`). -/
def getDevRecords (query : Int → Option (List GPS)) (devKeyID : Int) : Option (List GPS) :=
  match query devKeyID with
  | none => none
  | some rs => if rs.length = 0 then none else some rs

/-- The loop of `devMoved` on the records left, with the first and the last track
record seen so far, followed by the comparison of the first to the last. -/
def devMovedLoop (cos : ℚ → ℚ) : List GPS → Option GPS → Option GPS → Bool
  | [], first, last =>
    match first, last with
    | some f, some l => decide (Distance cos l.Lat l.Lng f.Lat f.Lng > 230)
    | _, _ => false
  | r :: rs, first, last =>
    if !r.Track then devMovedLoop cos rs first last
    else
      let first := if first.isNone then some r else first
      match last with
      | some l =>
        if Distance cos l.Lat l.Lng r.Lat r.Lng > 230 then true
        else devMovedLoop cos rs first (some r)
      | none => devMovedLoop cos rs first (some r)

/-- Tells if a device moved, based on its latest GPS records. -/
def devMoved (cos : ℚ → ℚ) (rs : List GPS) : Bool := devMovedLoop cos rs none none

/-- The loop of `checkAlert` that picks the first two track records `cg1`, `cg2`
of the car; the argument is `cg1` so far. -/
def firstTwoTracks : List GPS → Option GPS → Option GPS × Option GPS
  | [], cg1 => (cg1, none)
  | r :: rs, cg1 =>
    if r.Track then
      match cg1 with
      | none => firstTwoTracks rs (some r)
      | some c => (some c, some r)
    else firstTwoTracks rs cg1

/-- A float division `a / b`, rounded; `none` is a result that is not finite
(`b = 0`: an infinity or NaN). -/
def floatDiv (a b : ℚ) : Option ℚ := if b = 0 then none else some (round64 (a / b))

/-- The conversion `int64(f)` of a float that may be not finite or out of range. -/
def int64OfFloatOr (indefinite : Int) : Option ℚ → Int
  | none => indefinite
  | some f =>
    if -9223372036854775808 ≤ int64OfFloat f ∧ int64OfFloat f < 9223372036854775808
    then int64OfFloat f else indefinite

/-- The exact number of seconds of a duration given in nanoseconds. -/
def seconds (d : Int) : ℚ := (d : ℚ) / 1000000000

/-- The seconds of a duration as `Duration.Seconds` computes them in `float64`:
`sec := d / Second; nsec := d % Second; float64(sec) + float64(nsec)/1e9`. -/
def durationSeconds (d : Int) : ℚ :=
  let sec := Int.tdiv d 1000000000
  let nsec := Int.tmod d 1000000000
  round64 (round64 (sec : ℚ) + round64 (round64 (nsec : ℚ) / 1000000000))

/-- The distance check that ends `checkAlert`: the alert margin from the first two
track records `cg1`, `cg2` of the car and the first track record `pg1` of the
personal mobile, and whether the distance exceeds it. -/
def distExceedsMargin (env : Env) (persMobMoved : Bool) (cg1 cg2 pg1 : GPS) : Bool :=
  let Dd := Distance env.cos cg2.Lat cg2.Lng cg1.Lat cg1.Lng
  let Dt := cg1.Created - cg2.Created
  let cv := floatDiv (round64 (Dd : ℚ)) (durationSeconds Dt)
  let cpdt := |durationSeconds (cg1.Created - pg1.Created)|
  let dist := Distance env.cos cg1.Lat cg1.Lng pg1.Lat pg1.Lng
  let alertMargin : Int := 500
  let alertMargin :=
    if persMobMoved then
      add64 alertMargin (int64OfFloatOr env.int64Indefinite
        (cv.map fun v => round64 (round64 (v * cpdt) + round64 (cpdt * 6))))
    else alertMargin
  decide (dist > alertMargin)

/-- Checks the specified alert. -/
def checkAlert (env : Env) (a : Alert) : Run :=
  match getDevRecords env.query a.CarDevID with
  | none => ⟨[Effect.fetch a.CarDevID], false⟩
  | some [] => ⟨[Effect.fetch a.CarDevID], true⟩
  | some (c0 :: cs) =>
    if env.nowCar - c0.Created > alertDuration then
      ⟨[Effect.fetch a.CarDevID, Effect.sendAlert carGoneDark], false⟩
    else if a.PersMobDevID = 0 then ⟨[Effect.fetch a.CarDevID], false⟩
    else if !devMoved env.cos (c0 :: cs) then ⟨[Effect.fetch a.CarDevID], false⟩
    else
      match getDevRecords env.query a.PersMobDevID with
      | none => ⟨[Effect.fetch a.CarDevID, Effect.fetch a.PersMobDevID], false⟩
      | some [] => ⟨[Effect.fetch a.CarDevID, Effect.fetch a.PersMobDevID], true⟩
      | some (p0 :: ps) =>
        if env.nowPersMob - p0.Created > alertDuration then
          ⟨[Effect.fetch a.CarDevID, Effect.fetch a.PersMobDevID,
            Effect.sendAlert carMovingWithoutYou], false⟩
        else
          let persMobMoved := devMoved env.cos (p0 :: ps)
          match (p0 :: ps).find? (fun r => r.Track) with
          | none =>
            ⟨[Effect.fetch a.CarDevID, Effect.fetch a.PersMobDevID,
              Effect.sendAlert carMovingWithoutYou], false⟩
          | some pg1 =>
            if env.nowTrack - pg1.Created > alertDuration then
              ⟨[Effect.fetch a.CarDevID, Effect.fetch a.PersMobDevID,
                Effect.sendAlert carMovingWithoutYou], false⟩
            else
              match firstTwoTracks (c0 :: cs) none with
              | (some cg1, some cg2) =>
                if distExceedsMargin env persMobMoved cg1 cg2 pg1 then
                  ⟨[Effect.fetch a.CarDevID, Effect.fetch a.PersMobDevID,
                    Effect.sendAlert carMovingWithoutYou], false⟩
                else ⟨[Effect.fetch a.CarDevID, Effect.fetch a.PersMobDevID], false⟩
              | _ => ⟨[Effect.fetch a.CarDevID, Effect.fetch a.PersMobDevID], true⟩

/-- The result of `devMoved` on track records only: `f` is the first track record,
`l` the last one seen, the list holds the track records still to come. -/
def chainMoved (cos : ℚ → ℚ) (f : GPS) : GPS → List GPS → Bool
  | l, [] => decide (Distance cos l.Lat l.Lng f.Lat f.Lng > 230)
  | l, t :: ts => decide (Distance cos l.Lat l.Lng t.Lat t.Lng > 230) || chainMoved cos f t ts

/-- A window of a car that moves: two track records 420 m apart, one second apart. -/
def movingCarWindow : List GPS :=
  [⟨1, [], 359 / 100000, 359 / 100000, 400000000000⟩,
   ⟨1, [], 913 / 1000000, 913 / 1000000, 399000000000⟩]

/-- Surroundings in which device 1 is the moving car of `movingCarWindow`, every
other device has the query outcome `pers`, and every clock reading is `now`. -/
def carEnv (now : Int) (pers : Option (List GPS)) : Env :=
  ⟨cosTaylor, fun d => if d = 1 then some movingCarWindow else pers,
    now, now, now, -9223372036854775808⟩

/-- The alert margin that `checkAlert` computes in its distance check: 500 m,
increased only if the personal mobile also moved. -/
def alertMargin (env : Env) (persMobMoved : Bool) (cg1 cg2 pg1 : GPS) : Int :=
  let Dd := Distance env.cos cg2.Lat cg2.Lng cg1.Lat cg1.Lng
  let Dt := cg1.Created - cg2.Created
  let cv := floatDiv (round64 (Dd : ℚ)) (durationSeconds Dt)
  let cpdt := |durationSeconds (cg1.Created - pg1.Created)|
  let alertMargin : Int := 500
  if persMobMoved then
    add64 alertMargin (int64OfFloatOr env.int64Indefinite
      (cv.map fun v => round64 (round64 (v * cpdt) + round64 (cpdt * 6))))
  else alertMargin

/-- The widening term `cv*cpdt + cpdt*6` of the alert margin as `checkAlert`
computes it in `float64`; `none` is a value that is not finite. -/
def wideningTerm (cos : ℚ → ℚ) (cg1 cg2 pg1 : GPS) : Option ℚ :=
  let Dd := Distance cos cg2.Lat cg2.Lng cg1.Lat cg1.Lng
  let Dt := cg1.Created - cg2.Created
  let cv := floatDiv (round64 (Dd : ℚ)) (durationSeconds Dt)
  let cpdt := |durationSeconds (cg1.Created - pg1.Created)|
  cv.map fun v => round64 (round64 (v * cpdt) + round64 (cpdt * 6))

/-- The asset speed in the words of the specification: the distance of the two
most recent track records `c1`, `c2` of the asset by the seconds between them. -/
def assetSpeed (cos : ℚ → ℚ) (c1 c2 : GPS) : ℚ :=
  (Distance cos c1.Lat c1.Lng c2.Lat c2.Lng : ℚ) / seconds (c1.Created - c2.Created)

/-- The time gap in the words of the specification: the seconds between the most
recent track record `c1` of the asset and `p1` of the companion. -/
def timeGap (c1 p1 : GPS) : ℚ := |seconds (c1.Created - p1.Created)|

/-- Surroundings in which device 1 has the window `car`, every other device the
window `pers`, and every clock reading is `now`. -/
def sceneEnv (car pers : List GPS) (now : Int) : Env :=
  ⟨cosTaylor, fun d => if d = 1 then some car else some pers, now, now, now,
    -9223372036854775808⟩

/-- A window of a car on the Equator that moved 300 m in 30 s (10 m/s). -/
def steadyCarWindow : List GPS :=
  [⟨1, [], 0, 0, 430000000000⟩, ⟨1, [], 0, 27 / 10000, 400000000000⟩]

/-- A window of a moving personal mobile whose newest track record, 30 s after
the one of `steadyCarWindow`, is 1000 m from it. -/
def persWindow1000 : List GPS :=
  [⟨2, [], 0, 9 / 1000, 460000000000⟩, ⟨2, [], 0, 0, 459000000000⟩]

/-- A window of a moving personal mobile whose newest track record, 30 s after
the one of `steadyCarWindow`, is 900 m from it. -/
def persWindow900 : List GPS :=
  [⟨2, [], 0, 81 / 10000, 460000000000⟩, ⟨2, [], 0, 0, 459000000000⟩]

/-- A window of a personal mobile with a single track record, 900 m from the
newest one of `steadyCarWindow`. -/
def persWindowStill : List GPS := [⟨2, [], 0, 81 / 10000, 460000000000⟩]

/-- A window of a car that does not move: a single track record. -/
def stillCarWindow : List GPS := [⟨1, [], 0, 0, 430000000000⟩]

/-- A window of a car whose newest record is a Start record and whose two track
records, 420 m and 1 ns apart, are about 347 days older. -/
def burstCarWindow : List GPS :=
  [⟨1, [-1], 0, 0, 30000000000000001⟩,
   ⟨1, [], 359 / 100000, 359 / 100000, 1⟩,
   ⟨1, [], 913 / 1000000, 913 / 1000000, 0⟩]

/-- A window of a car whose two track records, 420 m apart, have the same timestamp. -/
def twinCarWindow : List GPS :=
  [⟨1, [], 359 / 100000, 359 / 100000, 430000000000⟩,
   ⟨1, [], 913 / 1000000, 913 / 1000000, 430000000000⟩]

/-- A window of a moving personal mobile whose newest track record, written at
time `t`, is at the place of the newest track record of `burstCarWindow` and of
`twinCarWindow`. -/
def persWindowNear (t : Int) : List GPS :=
  [⟨2, [], 359 / 100000, 359 / 100000, t⟩,
   ⟨2, [], 913 / 1000000, 913 / 1000000, t - 1000000000⟩]

/-- A window of a moving personal mobile whose newest track record, 30 s after
the one of `steadyCarWindow`, is 300 m from it. -/
def persWindow300 : List GPS :=
  [⟨2, [], 0, 27 / 10000, 460000000000⟩, ⟨2, [], 0, 0, 459000000000⟩]

/-- A window of a car on the Equator that moved 237 m in 7 s. -/
def slowCarWindow : List GPS :=
  [⟨1, [], 0, 0, 430000000000⟩, ⟨1, [], 0, 2135 / 1000000, 423000000000⟩]

/-- A window of a moving personal mobile whose newest track record, 21 s after
the one of `slowCarWindow`, is 1337 m from it. -/
def persWindow1337 : List GPS :=
  [⟨2, [], 0, 12028 / 1000000, 451000000000⟩, ⟨2, [], 0, 0, 450000000000⟩]

/-! ## Evaluation lemmas -/

theorem wrap64_of_range {x : Int} (h1 : -9223372036854775808 ≤ x)
    (h2 : x < 9223372036854775808) : wrap64 x = x := by
  unfold wrap64; omega

theorem int64OfFloat_nonneg {f : ℚ} {z : Int} (h0 : 0 ≤ f) (h1 : (z : ℚ) ≤ f)
    (h2 : f < z + 1) : int64OfFloat f = z := by
  unfold int64OfFloat
  rw [if_pos h0]
  exact Int.floor_eq_iff.mpr ⟨h1, h2⟩

theorem int64OfFloat_neg {f : ℚ} {z : Int} (h0 : f < 0) (h1 : (z : ℚ) - 1 < f)
    (h2 : f ≤ z) : int64OfFloat f = z := by
  unfold int64OfFloat
  rw [if_neg (not_le.mpr h0)]
  exact Int.ceil_eq_iff.mpr ⟨h1, h2⟩

theorem int64Sqrt_eq {f : ℚ} {z : ℕ} (h1 : ((z : ℚ) * z) ≤ f)
    (h2 : f < ((z : ℚ) + 1) * (z + 1)) : int64Sqrt f = (z : Int) := by
  unfold int64Sqrt
  have hf : 0 ≤ f := le_trans (by positivity) h1
  have h0 : 0 ≤ ⌊f⌋ := Int.floor_nonneg.mpr hf
  have hz : z = Nat.sqrt ⌊f⌋.toNat := by
    rw [Nat.eq_sqrt]
    constructor
    · have : ((z * z : ℕ) : Int) ≤ ⌊f⌋ := by
        rw [Int.le_floor]; push_cast; exact h1
      omega
    · have : ⌊f⌋ < (((z + 1) * (z + 1) : ℕ) : Int) := by
        rw [Int.floor_lt]; push_cast; exact h2
      omega
  rw [← hz]; rfl

theorem int64Sqrt_le_iff {f : ℚ} (hf : 0 ≤ f) (n : ℕ) :
    int64Sqrt f ≤ (n : Int) ↔ f < ((n : ℚ) + 1) * (n + 1) := by
  unfold int64Sqrt
  have h0 : 0 ≤ ⌊f⌋ := Int.floor_nonneg.mpr hf
  constructor
  · intro h
    have h' : Nat.sqrt ⌊f⌋.toNat < n + 1 := by
      have : (Nat.sqrt ⌊f⌋.toNat : Int) ≤ n := h
      omega
    rw [Nat.sqrt_lt] at h'
    have : ⌊f⌋ < (((n + 1) * (n + 1) : ℕ) : Int) := by omega
    rw [Int.floor_lt] at this
    push_cast at this; exact this
  · intro h
    have : ⌊f⌋ < (((n + 1) * (n + 1) : ℕ) : Int) := by
      rw [Int.floor_lt]; push_cast; exact h
    have h' : Nat.sqrt ⌊f⌋.toNat < n + 1 := by
      rw [Nat.sqrt_lt]; omega
    show ((Nat.sqrt ⌊f⌋.toNat : ℕ) : Int) ≤ n
    omega

theorem packAreaIndices_of_range {cEq cGr : Int}
    (h1 : -100000000 ≤ cEq) (h2 : cEq < 100000000)
    (h3 : -100000000 ≤ cGr) (h4 : cGr < 100000000) :
    packAreaIndices cEq cGr = (cEq + 50000) * 100000 + (cGr + 50000) := by
  have e1 : wrap64 (cEq + 50 * 1000) = cEq + 50000 := by
    rw [wrap64_of_range] <;> omega
  have e2 : wrap64 (cGr + 50 * 1000) = cGr + 50000 := by
    rw [wrap64_of_range] <;> omega
  have e3 : wrap64 ((cEq + 50000) * 100000) = (cEq + 50000) * 100000 := by
    rw [wrap64_of_range] <;> omega
  simp only [packAreaIndices, add64, mul64, e1, e2, e3]
  rw [wrap64_of_range] <;> omega

/-! ## The index and the in-cell offset along one axis -/

theorem tdiv_nonneg_facts {S d : Int} (hS : 0 < S) (hd : 0 ≤ d) :
    Int.tdiv d S * S ≤ d ∧ d < Int.tdiv d S * S + S ∧ 0 ≤ Int.tdiv d S ∧ Int.tdiv d S ≤ d := by
  rw [Int.tdiv_eq_ediv hd (le_of_lt hS)]
  have h1 := Int.ediv_add_emod' d S
  have h2 := Int.emod_nonneg d (ne_of_gt hS)
  have h3 := Int.emod_lt_of_pos d hS
  have h4 := Int.ediv_nonneg hd (le_of_lt hS)
  have h5 := Int.ediv_le_self S hd
  refine ⟨by omega, by omega, h4, h5⟩

theorem axis_index_nonneg {S d : Int} (hS : 0 < S) (hS' : S < 9223372036854775808)
    (hd0 : 0 ≤ d) (hd1 : d ≤ 1000000000) :
    div64 d S * S + sub64 d (mul64 (div64 d S) S) = d ∧
    0 ≤ sub64 d (mul64 (div64 d S) S) ∧ sub64 d (mul64 (div64 d S) S) < S ∧
    0 ≤ div64 d S ∧ div64 d S ≤ d := by
  obtain ⟨h1, h2, h3, h4⟩ := tdiv_nonneg_facts hS hd0
  have e1 : div64 d S = Int.tdiv d S := by
    unfold div64; rw [wrap64_of_range] <;> omega
  have e2 : mul64 (Int.tdiv d S) S = Int.tdiv d S * S := by
    unfold mul64; rw [wrap64_of_range] <;> omega
  have e3 : sub64 d (Int.tdiv d S * S) = d - Int.tdiv d S * S := by
    unfold sub64; rw [wrap64_of_range] <;> omega
  rw [e1, e2, e3]
  refine ⟨by omega, by omega, by omega, h3, h4⟩

theorem axis_index_neg {S d : Int} (hS : 0 < S) (hS' : S < 9223372036854775808)
    (hd0 : d ≤ 0) (hd1 : -1000000000 ≤ d) :
    sub64 (div64 d S) 1 * S + sub64 d (mul64 (sub64 (div64 d S) 1) S) = d ∧
    0 < sub64 d (mul64 (sub64 (div64 d S) 1) S) ∧
    sub64 d (mul64 (sub64 (div64 d S) 1) S) ≤ S ∧
    d - 1 ≤ sub64 (div64 d S) 1 ∧ sub64 (div64 d S) 1 ≤ -1 := by
  have hd' : 0 ≤ -d := by omega
  obtain ⟨h1, h2, h3, h4⟩ := tdiv_nonneg_facts hS hd'
  have ht : Int.tdiv d S = -(Int.tdiv (-d) S) := by
    rw [Int.neg_tdiv, neg_neg]
  generalize Int.tdiv (-d) S = q at h1 h2 h3 h4 ht
  have hq : q * S = 0 ∨ S ≤ -d := by
    rcases h3.eq_or_lt with h | h
    · left; rw [← h]; ring
    · right
      have : S ≤ q * S := by nlinarith
      omega
  have hqS : 0 ≤ q * S := by positivity
  have e1 : div64 d S = -q := by
    unfold div64; rw [ht, wrap64_of_range] <;> omega
  have e2 : sub64 (-q) 1 = -q - 1 := by
    unfold sub64; rw [wrap64_of_range] <;> omega
  have e0 : (-q - 1) * S = -(q * S) - S := by ring
  have e3 : mul64 (-q - 1) S = -(q * S) - S := by
    unfold mul64; rw [e0, wrap64_of_range] <;> omega
  have e4 : sub64 d (-(q * S) - S) = d + q * S + S := by
    unfold sub64; rw [wrap64_of_range] <;> omega
  rw [e1, e2, e3, e4, e0]
  refine ⟨by omega, by omega, by omega, by omega, by omega⟩

theorem int64OfFloat_of_nonneg {t : ℚ} (h : 0 ≤ t) :
    0 ≤ int64OfFloat t ∧ ((int64OfFloat t : Int) : ℚ) ≤ t ∧ t < (int64OfFloat t : Int) + 1 := by
  unfold int64OfFloat
  rw [if_pos h]
  exact ⟨Int.floor_nonneg.mpr h, Int.floor_le t, Int.lt_floor_add_one t⟩

theorem int64OfFloat_of_nonpos {t : ℚ} (h : t ≤ 0) :
    int64OfFloat t ≤ 0 ∧ ((int64OfFloat t : Int) : ℚ) - 1 < t ∧ t ≤ (int64OfFloat t : Int) := by
  unfold int64OfFloat
  by_cases h0 : 0 ≤ t
  · have e : t = 0 := le_antisymm h h0
    subst e
    simp
  · rw [if_neg h0]
    refine ⟨Int.ceil_le.mpr (by simpa using h), ?_, Int.le_ceil t⟩
    have := Int.ceil_lt_add_one t
    linarith

theorem axis_cell {S : Int} (hS : 0 < S) (hS' : S < 9223372036854775808) {t : ℚ}
    (neg : Prop) [Decidable neg] (hneg : neg → t ≤ 0) (hpos : ¬ neg → 0 ≤ t)
    (hlo : -1000000000 ≤ t) (hhi : t ≤ 1000000000) :
    AxisCell S t
      (if neg then sub64 (div64 (int64OfFloat t) S) 1 else div64 (int64OfFloat t) S)
      (sub64 (int64OfFloat t)
        (mul64 (if neg then sub64 (div64 (int64OfFloat t) S) 1
          else div64 (int64OfFloat t) S) S)) := by
  have hSq : (0 : ℚ) < S := by exact_mod_cast hS
  by_cases hn : neg
  · simp only [if_pos hn]
    obtain ⟨d0, d1, d2⟩ := int64OfFloat_of_nonpos (hneg hn)
    have d3 : -1000000000 ≤ int64OfFloat t := by
      have : ((-1000000000 : Int) : ℚ) ≤ (int64OfFloat t : Int) := by
        push_cast; linarith
      exact_mod_cast this
    obtain ⟨a1, a2, a3, a4, a5⟩ := axis_index_neg hS hS' d0 d3
    generalize sub64 (div64 (int64OfFloat t) S) 1 = c at a1 a2 a3 a4 a5
    generalize sub64 (int64OfFloat t) (mul64 c S) = i at a1 a2 a3
    have q1 : (c : ℚ) * S + i = (int64OfFloat t : Int) := by exact_mod_cast a1
    have q2 : (1 : ℚ) ≤ i := by exact_mod_cast a2
    have q3 : (i : ℚ) ≤ S := by exact_mod_cast a3
    refine ⟨by linarith, by linarith, by linarith, by linarith, by omega, a3, by omega, by omega⟩
  · simp only [if_neg hn]
    obtain ⟨d0, d1, d2⟩ := int64OfFloat_of_nonneg (hpos hn)
    have d3 : int64OfFloat t ≤ 1000000000 := by
      have : ((int64OfFloat t : Int) : ℚ) ≤ ((1000000000 : Int) : ℚ) := by
        push_cast; linarith
      exact_mod_cast this
    obtain ⟨a1, a2, a3, a4, a5⟩ := axis_index_nonneg hS hS' d0 d3
    generalize div64 (int64OfFloat t) S = c at a1 a2 a3 a4 a5
    generalize sub64 (int64OfFloat t) (mul64 c S) = i at a1 a2 a3
    have q1 : (c : ℚ) * S + i = (int64OfFloat t : Int) := by exact_mod_cast a1
    have q2 : (0 : ℚ) ≤ i := by exact_mod_cast a2
    have q3 : (i : ℚ) + 1 ≤ S := by exact_mod_cast a3
    refine ⟨by linarith, by linarith, by linarith, by linarith, a2, by omega, by omega, by omega⟩

/-! ## Projections of a valid point -/

theorem earth_k_bounds : (111195 : ℚ) < earth_k / 360 ∧ earth_k / 360 < 111196 := by
  constructor <;> norm_num [earth_k, earth_r, mathPi]

theorem distFromGr_eq (cos : ℚ → ℚ) (lat lng : ℚ) :
    distFromGr cos lat lng = cos (lat * mathPi / 180) * (earth_k / 360) * lng := by
  simp only [distFromGr, earth_k]; ring

theorem distFromEq_facts {lat : ℚ} (h1 : -90 ≤ lat) (h2 : lat ≤ 90) :
    (lat < 0 → distFromEq lat ≤ 0) ∧ (¬ lat < 0 → 0 ≤ distFromEq lat) ∧
    -1000000000 ≤ distFromEq lat ∧ distFromEq lat ≤ 1000000000 := by
  obtain ⟨k1, k2⟩ := earth_k_bounds
  unfold distFromEq
  generalize earth_k / 360 = k at k1 k2
  refine ⟨fun h => ?_, fun h => ?_, ?_, ?_⟩
  · nlinarith
  · have : 0 ≤ lat := not_lt.mp h
    nlinarith
  · nlinarith
  · nlinarith

theorem distFromGr_facts {cos : ℚ → ℚ} {lat lng : ℚ} (h1 : -180 ≤ lng) (h2 : lng ≤ 180)
    (c1 : 0 ≤ cos (lat * mathPi / 180)) (c2 : cos (lat * mathPi / 180) ≤ 1) :
    (lng < 0 → distFromGr cos lat lng ≤ 0) ∧ (¬ lng < 0 → 0 ≤ distFromGr cos lat lng) ∧
    -1000000000 ≤ distFromGr cos lat lng ∧ distFromGr cos lat lng ≤ 1000000000 := by
  obtain ⟨k1, k2⟩ := earth_k_bounds
  rw [distFromGr_eq]
  generalize earth_k / 360 = k at k1 k2
  generalize cos (lat * mathPi / 180) = c at c1 c2
  have m1 : 0 ≤ c * k := by nlinarith
  have m2 : c * k ≤ 111196 := by nlinarith
  generalize c * k = m at m1 m2
  refine ⟨fun h => ?_, fun h => ?_, ?_, ?_⟩
  · nlinarith
  · have : 0 ≤ lng := not_lt.mp h
    nlinarith
  · nlinarith
  · nlinarith

/-- The indices and in-cell offsets that the code computes for a valid point
locate its two projected distances. -/
theorem point_cells {cos : ℚ → ℚ} {S : Int} {lat lng : ℚ} (hS : 0 < S)
    (hS' : S < 9223372036854775808) (hv : Valid lat lng)
    (c1 : 0 ≤ cos (lat * mathPi / 180)) (c2 : cos (lat * mathPi / 180) ≤ 1) :
    AxisCell S (distFromEq lat) (areaDistancesAndIndices cos S lat lng).2.2.1
      (sub64 (areaDistancesAndIndices cos S lat lng).1
        (mul64 (areaDistancesAndIndices cos S lat lng).2.2.1 S)) ∧
    AxisCell S (distFromGr cos lat lng) (areaDistancesAndIndices cos S lat lng).2.2.2
      (sub64 (areaDistancesAndIndices cos S lat lng).2.1
        (mul64 (areaDistancesAndIndices cos S lat lng).2.2.2 S)) := by
  obtain ⟨v1, v2, v3, v4⟩ := hv
  obtain ⟨a1, a2, a3, a4⟩ := distFromEq_facts v1 v2
  obtain ⟨b1, b2, b3, b4⟩ := distFromGr_facts v3 v4 c1 c2
  exact ⟨axis_cell hS hS' (lat < 0) a1 a2 a3 a4, axis_cell hS hS' (lng < 0) b1 b2 b3 b4⟩

theorem axis_offset {S : Int} (hS : 0 < S) (hS' : S < 9223372036854775808) {t : ℚ}
    (neg : Prop) [Decidable neg] (hneg : neg → t ≤ 0) (hpos : ¬ neg → 0 ≤ t)
    (hlo : -1000000000 ≤ t) (hhi : t ≤ 1000000000) :
    sub64 (int64OfFloat t)
        (mul64 (if neg then sub64 (div64 (int64OfFloat t) S) 1
          else div64 (int64OfFloat t) S) S)
      = int64OfFloat t
        - (if neg then sub64 (div64 (int64OfFloat t) S) 1 else div64 (int64OfFloat t) S) * S ∧
    -1000000001 ≤ (if neg then sub64 (div64 (int64OfFloat t) S) 1
      else div64 (int64OfFloat t) S) ∧
    (if neg then sub64 (div64 (int64OfFloat t) S) 1 else div64 (int64OfFloat t) S)
      ≤ 1000000000 := by
  by_cases hn : neg
  · simp only [if_pos hn]
    obtain ⟨d0, d1, d2⟩ := int64OfFloat_of_nonpos (hneg hn)
    have d3 : -1000000000 ≤ int64OfFloat t := by
      have : ((-1000000000 : Int) : ℚ) ≤ (int64OfFloat t : Int) := by
        push_cast; linarith
      exact_mod_cast this
    obtain ⟨a1, a2, a3, a4, a5⟩ := axis_index_neg hS hS' d0 d3
    refine ⟨by linarith, by omega, by omega⟩
  · simp only [if_neg hn]
    obtain ⟨d0, d1, d2⟩ := int64OfFloat_of_nonneg (hpos hn)
    have d3 : int64OfFloat t ≤ 1000000000 := by
      have : ((int64OfFloat t : Int) : ℚ) ≤ ((1000000000 : Int) : ℚ) := by
        push_cast; linarith
      exact_mod_cast this
    obtain ⟨a1, a2, a3, a4, a5⟩ := axis_index_nonneg hS hS' d0 d3
    refine ⟨by linarith, by omega, by omega⟩

/-- For a valid point the in-cell offsets of `AreaCodesForGeoPt` are computed
without overflow, and its indices are small. -/
theorem point_offsets {cos : ℚ → ℚ} {S : Int} {lat lng : ℚ} (hS : 0 < S)
    (hS' : S < 9223372036854775808) (hv : Valid lat lng)
    (c1 : 0 ≤ cos (lat * mathPi / 180)) (c2 : cos (lat * mathPi / 180) ≤ 1) :
    (sub64 (areaDistancesAndIndices cos S lat lng).1
        (mul64 (areaDistancesAndIndices cos S lat lng).2.2.1 S)
      = (areaDistancesAndIndices cos S lat lng).1
        - (areaDistancesAndIndices cos S lat lng).2.2.1 * S ∧
      -1000000001 ≤ (areaDistancesAndIndices cos S lat lng).2.2.1 ∧
      (areaDistancesAndIndices cos S lat lng).2.2.1 ≤ 1000000000) ∧
    (sub64 (areaDistancesAndIndices cos S lat lng).2.1
        (mul64 (areaDistancesAndIndices cos S lat lng).2.2.2 S)
      = (areaDistancesAndIndices cos S lat lng).2.1
        - (areaDistancesAndIndices cos S lat lng).2.2.2 * S ∧
      -1000000001 ≤ (areaDistancesAndIndices cos S lat lng).2.2.2 ∧
      (areaDistancesAndIndices cos S lat lng).2.2.2 ≤ 1000000000) := by
  obtain ⟨v1, v2, v3, v4⟩ := hv
  obtain ⟨a1, a2, a3, a4⟩ := distFromEq_facts v1 v2
  obtain ⟨b1, b2, b3, b4⟩ := distFromGr_facts v3 v4 c1 c2
  exact ⟨axis_offset hS hS' (lat < 0) a1 a2 a3 a4, axis_offset hS hS' (lng < 0) b1 b2 b3 b4⟩

theorem axis_floor {S : Int} (hS : 0 < S) (hS' : S < 9223372036854775808) {t : ℚ}
    (neg : Prop) [Decidable neg] (hneg : neg → t ≤ 0) (hpos : ¬ neg → 0 ≤ t)
    (hlo : -1000000000 ≤ t) (hhi : t ≤ 1000000000) :
    (¬ neg →
      (if neg then sub64 (div64 (int64OfFloat t) S) 1 else div64 (int64OfFloat t) S)
        = ⌊((int64OfFloat t : Int) : ℚ) / S⌋) ∧
    (neg →
      (if neg then sub64 (div64 (int64OfFloat t) S) 1 else div64 (int64OfFloat t) S)
        = ⌈((int64OfFloat t : Int) : ℚ) / S⌉ - 1 ∧
      ((if neg then sub64 (div64 (int64OfFloat t) S) 1 else div64 (int64OfFloat t) S)
        = ⌊((int64OfFloat t : Int) : ℚ) / S⌋ ↔ ¬ S ∣ int64OfFloat t) ∧
      ((if neg then sub64 (div64 (int64OfFloat t) S) 1 else div64 (int64OfFloat t) S) = -1
        ↔ -S < int64OfFloat t ∧ int64OfFloat t ≤ 0)) := by
  have hSq : (0 : ℚ) < S := by exact_mod_cast hS
  constructor
  · intro hn
    simp only [if_neg hn]
    obtain ⟨d0, d1, d2⟩ := int64OfFloat_of_nonneg (hpos hn)
    have d3 : int64OfFloat t ≤ 1000000000 := by
      have : ((int64OfFloat t : Int) : ℚ) ≤ ((1000000000 : Int) : ℚ) := by
        push_cast; linarith
      exact_mod_cast this
    obtain ⟨a1, a2, a3, a4, a5⟩ := axis_index_nonneg hS hS' d0 d3
    generalize div64 (int64OfFloat t) S = c at a1 a2 a3 a4 a5
    generalize sub64 (int64OfFloat t) (mul64 c S) = i at a1 a2 a3
    generalize int64OfFloat t = d at a1
    symm
    rw [Int.floor_eq_iff, le_div_iff₀ hSq, div_lt_iff₀ hSq]
    have q1 : (c : ℚ) * S + i = d := by exact_mod_cast a1
    have q2 : (0 : ℚ) ≤ i := by exact_mod_cast a2
    have q3 : (i : ℚ) < S := by exact_mod_cast a3
    constructor <;> nlinarith
  · intro hn
    simp only [if_pos hn]
    obtain ⟨d0, d1, d2⟩ := int64OfFloat_of_nonpos (hneg hn)
    have d3 : -1000000000 ≤ int64OfFloat t := by
      have : ((-1000000000 : Int) : ℚ) ≤ (int64OfFloat t : Int) := by
        push_cast; linarith
      exact_mod_cast this
    obtain ⟨a1, a2, a3, a4, a5⟩ := axis_index_neg hS hS' d0 d3
    generalize sub64 (div64 (int64OfFloat t) S) 1 = c at a1 a2 a3 a4 a5
    generalize sub64 (int64OfFloat t) (mul64 c S) = i at a1 a2 a3
    generalize int64OfFloat t = d at a1 d0 d3
    have q1 : (c : ℚ) * S + i = d := by exact_mod_cast a1
    have q2 : (0 : ℚ) < i := by exact_mod_cast a2
    have q3 : (i : ℚ) ≤ S := by exact_mod_cast a3
    refine ⟨?_, ?_, ?_⟩
    · have : ⌈(d : ℚ) / S⌉ = c + 1 := by
        rw [Int.ceil_eq_iff, lt_div_iff₀ hSq, div_le_iff₀ hSq]
        push_cast
        constructor <;> nlinarith
      omega
    · constructor
      · intro h hdvd
        have h' := h.symm
        rw [Int.floor_eq_iff, le_div_iff₀ hSq, div_lt_iff₀ hSq] at h'
        have : (i : ℚ) < S := by nlinarith [h'.2]
        have i1 : i < S := by exact_mod_cast this
        obtain ⟨k, hk⟩ := hdvd
        have : i = S * (k - c) := by rw [← a1] at hk; linarith
        have hk0 : 0 < k - c := by
          by_contra hc
          have : k - c ≤ 0 := by omega
          nlinarith
        nlinarith
      · intro hnd
        symm
        rw [Int.floor_eq_iff, le_div_iff₀ hSq, div_lt_iff₀ hSq]
        have : i ≠ S := by
          intro hi
          apply hnd
          exact ⟨c + 1, by rw [← a1, hi]; ring⟩
        have i1 : i < S := lt_of_le_of_ne a3 this
        have : (i : ℚ) < S := by exact_mod_cast i1
        constructor <;> nlinarith
    · constructor
      · intro hc
        subst hc
        constructor <;> linarith
      · intro ⟨h1, h2⟩
        by_contra hc
        have : c ≤ -2 := by omega
        nlinarith

theorem axis_offset_range {S : Int} (hS : 0 < S) (hS' : S < 9223372036854775808) {t : ℚ}
    (neg : Prop) [Decidable neg] (hneg : neg → t ≤ 0) (hpos : ¬ neg → 0 ≤ t)
    (hlo : -1000000000 ≤ t) (hhi : t ≤ 1000000000) :
    (¬ neg →
      0 ≤ sub64 (int64OfFloat t)
        (mul64 (if neg then sub64 (div64 (int64OfFloat t) S) 1
          else div64 (int64OfFloat t) S) S) ∧
      sub64 (int64OfFloat t)
        (mul64 (if neg then sub64 (div64 (int64OfFloat t) S) 1
          else div64 (int64OfFloat t) S) S) < S) ∧
    (neg →
      0 < sub64 (int64OfFloat t)
        (mul64 (if neg then sub64 (div64 (int64OfFloat t) S) 1
          else div64 (int64OfFloat t) S) S) ∧
      sub64 (int64OfFloat t)
        (mul64 (if neg then sub64 (div64 (int64OfFloat t) S) 1
          else div64 (int64OfFloat t) S) S) ≤ S ∧
      (sub64 (int64OfFloat t)
        (mul64 (if neg then sub64 (div64 (int64OfFloat t) S) 1
          else div64 (int64OfFloat t) S) S) = S ↔ S ∣ int64OfFloat t)) := by
  constructor
  · intro hn
    simp only [if_neg hn]
    obtain ⟨d0, d1, d2⟩ := int64OfFloat_of_nonneg (hpos hn)
    have d3 : int64OfFloat t ≤ 1000000000 := by
      have : ((int64OfFloat t : Int) : ℚ) ≤ ((1000000000 : Int) : ℚ) := by
        push_cast; linarith
      exact_mod_cast this
    obtain ⟨a1, a2, a3, a4, a5⟩ := axis_index_nonneg hS hS' d0 d3
    exact ⟨a2, a3⟩
  · intro hn
    simp only [if_pos hn]
    obtain ⟨d0, d1, d2⟩ := int64OfFloat_of_nonpos (hneg hn)
    have d3 : -1000000000 ≤ int64OfFloat t := by
      have : ((-1000000000 : Int) : ℚ) ≤ (int64OfFloat t : Int) := by
        push_cast; linarith
      exact_mod_cast this
    obtain ⟨a1, a2, a3, a4, a5⟩ := axis_index_neg hS hS' d0 d3
    refine ⟨a2, a3, ?_⟩
    generalize sub64 (div64 (int64OfFloat t) S) 1 = c at a1 a2 a3 a4 a5
    generalize sub64 (int64OfFloat t) (mul64 c S) = i at a1 a2 a3
    generalize int64OfFloat t = d at a1 d0 d3
    constructor
    · intro hi
      exact ⟨c + 1, by rw [← a1, hi]; ring⟩
    · intro ⟨k, hk⟩
      have e : i = S * (k - c) := by rw [← a1] at hk; linarith
      have hk0 : 0 < k - c := by
        by_contra hc
        have : k - c ≤ 0 := by omega
        nlinarith
      have hk1 : k - c < 2 := by
        by_contra hc
        have : 2 ≤ k - c := by omega
        nlinarith
      have : k - c = 1 := by omega
      rw [e, this]; ring

/-- The codes that `AreaCodesForGeoPt` always returns: the own area and the
selected side neighbour along each axis. -/
theorem codes_mem (cos : ℚ → ℚ) (S : Int) (lat lng : ℚ) :
    packAreaIndices (areaDistancesAndIndices cos S lat lng).2.2.1
        (areaDistancesAndIndices cos S lat lng).2.2.2 ∈ AreaCodesForGeoPt cos S lat lng ∧
    packAreaIndices
        (if sub64 (areaDistancesAndIndices cos S lat lng).1
            (mul64 (areaDistancesAndIndices cos S lat lng).2.2.1 S) ≤ div64 S 2
          then sub64 (areaDistancesAndIndices cos S lat lng).2.2.1 1
          else add64 (areaDistancesAndIndices cos S lat lng).2.2.1 1)
        (areaDistancesAndIndices cos S lat lng).2.2.2 ∈ AreaCodesForGeoPt cos S lat lng ∧
    packAreaIndices (areaDistancesAndIndices cos S lat lng).2.2.1
        (if sub64 (areaDistancesAndIndices cos S lat lng).2.1
            (mul64 (areaDistancesAndIndices cos S lat lng).2.2.2 S) ≤ div64 S 2
          then sub64 (areaDistancesAndIndices cos S lat lng).2.2.2 1
          else add64 (areaDistancesAndIndices cos S lat lng).2.2.2 1)
        ∈ AreaCodesForGeoPt cos S lat lng := by
  unfold AreaCodesForGeoPt
  simp only []
  split_ifs <;> simp

/-! ## Two close points select linked areas -/

theorem axis_link_up {S h : Int} (hS : S = 2 * h) (hh : 6 ≤ h) {tA tB : ℚ}
    {cA iA cB iB : Int} (UA : AxisCell S tA cA iA) (UB : AxisCell S tB cB iB)
    (hc : cB = cA + 1) (hd : tB - tA < (h : ℚ) + 1) :
    (h < iA ∧ iB ≤ h) ∨ ((h < iA ∨ iB ≤ h) ∧ (h : ℚ) - 1 < tB - tA) := by
  obtain ⟨a1, a2, a3, a4, a5, a6, a7, a8⟩ := UA
  obtain ⟨b1, b2, b3, b4, b5, b6, b7, b8⟩ := UB
  have eS : (S : ℚ) = 2 * h := by exact_mod_cast hS
  have eh : (6 : ℚ) ≤ h := by exact_mod_cast hh
  have ec : (cB : ℚ) = cA + 1 := by exact_mod_cast hc
  rw [ec] at b1 b2 b3 b4
  rw [eS] at a1 a2 a3 a4 b1 b2 b3 b4
  by_cases hA : iA ≤ h
  · by_cases hB : iB ≤ h
    · right
      have qA : (iA : ℚ) ≤ h := by exact_mod_cast hA
      exact ⟨Or.inr hB, by linarith⟩
    · exfalso
      have qA : (iA : ℚ) ≤ h := by exact_mod_cast hA
      have qB : (h : ℚ) + 1 ≤ iB := by exact_mod_cast (show h + 1 ≤ iB by omega)
      linarith
  · by_cases hB : iB ≤ h
    · left; exact ⟨by omega, hB⟩
    · right
      have qB : (h : ℚ) + 1 ≤ iB := by exact_mod_cast (show h + 1 ≤ iB by omega)
      exact ⟨Or.inl (by omega), by linarith⟩

theorem axis_cell_le_succ {S h : Int} (hS : S = 2 * h) (hh : 6 ≤ h) {tA tB : ℚ}
    {cA iA cB iB : Int} (UA : AxisCell S tA cA iA) (UB : AxisCell S tB cB iB)
    (hd : tB - tA < (h : ℚ) + 1) : cB ≤ cA + 1 := by
  obtain ⟨a1, a2, a3, a4, a5, a6, a7, a8⟩ := UA
  obtain ⟨b1, b2, b3, b4, b5, b6, b7, b8⟩ := UB
  have eS : (S : ℚ) = 2 * h := by exact_mod_cast hS
  have eh : (6 : ℚ) ≤ h := by exact_mod_cast hh
  by_contra hc
  have hc' : cA + 2 ≤ cB := by omega
  have qc : (cA : ℚ) + 2 ≤ cB := by exact_mod_cast hc'
  have hSpos : (0 : ℚ) < S := by linarith
  have : ((cA : ℚ) + 2) * S ≤ (cB : ℚ) * S := by nlinarith
  nlinarith

theorem axis_link {S h : Int} (hS : S = 2 * h) (hh : 6 ≤ h) {tA tB : ℚ}
    {cA iA cB iB : Int} (UA : AxisCell S tA cA iA) (UB : AxisCell S tB cB iB)
    (hd : (tA - tB) ^ 2 < ((h : ℚ) + 1) ^ 2) :
    cA = cB ∨
    ((if iA ≤ h then cA - 1 else cA + 1) = cB ∧ (if iB ≤ h then cB - 1 else cB + 1) = cA) ∨
    (((if iA ≤ h then cA - 1 else cA + 1) = cB ∨ (if iB ≤ h then cB - 1 else cB + 1) = cA) ∧
      ((h : ℚ) - 1) ^ 2 < (tA - tB) ^ 2) := by
  have eh : (6 : ℚ) ≤ h := by exact_mod_cast hh
  have d1 : tB - tA < (h : ℚ) + 1 := by
    by_contra hc; push_neg at hc; nlinarith
  have d2 : tA - tB < (h : ℚ) + 1 := by
    by_contra hc; push_neg at hc; nlinarith
  have c1 := axis_cell_le_succ hS hh UA UB d1
  have c2 := axis_cell_le_succ hS hh UB UA d2
  have hcases : cA = cB ∨ cB = cA + 1 ∨ cA = cB + 1 := by omega
  rcases hcases with hc | hc | hc
  · left; exact hc
  · right
    rcases axis_link_up hS hh UA UB hc d1 with ⟨x1, x2⟩ | ⟨x1, x2⟩
    · left
      rw [if_neg (by omega), if_pos x2]
      exact ⟨hc.symm, by omega⟩
    · right
      refine ⟨?_, by nlinarith⟩
      rcases x1 with x1 | x1
      · left; rw [if_neg (by omega)]; exact hc.symm
      · right; rw [if_pos x1]; omega
  · right
    rcases axis_link_up hS hh UB UA hc d2 with ⟨x1, x2⟩ | ⟨x1, x2⟩
    · left
      rw [if_pos x2, if_neg (by omega)]
      exact ⟨by omega, hc.symm⟩
    · right
      refine ⟨?_, by nlinarith⟩
      rcases x1 with x1 | x1
      · right; rw [if_neg (by omega)]; exact hc.symm
      · left; rw [if_pos x1]; omega

theorem div64_two {S h : Int} (hS : S = 2 * h) (hh : 0 ≤ h) (hS' : S < 9223372036854775808) :
    div64 S 2 = h := by
  unfold div64
  rw [Int.tdiv_eq_ediv (by omega) (by decide), wrap64_of_range] <;> omega

/-- Two valid points whose projections are less than `h + 1` apart, `h` half
the (even) area size, store a common area code. -/
theorem coverage_of_close {cos : ℚ → ℚ} {S h : Int} {latA lngA latB lngB : ℚ}
    (hS : S = 2 * h) (hh : 6 ≤ h) (hS' : S < 9223372036854775808)
    (hvA : Valid latA lngA) (hvB : Valid latB lngB)
    (cA1 : 0 ≤ cos (latA * mathPi / 180)) (cA2 : cos (latA * mathPi / 180) ≤ 1)
    (cB1 : 0 ≤ cos (latB * mathPi / 180)) (cB2 : cos (latB * mathPi / 180) ≤ 1)
    (hd : (distFromEq latA - distFromEq latB) ^ 2
        + (distFromGr cos latA lngA - distFromGr cos latB lngB) ^ 2 < ((h : ℚ) + 1) ^ 2) :
    ∃ c, c ∈ AreaCodesForGeoPt cos S latA lngA ∧ c ∈ AreaCodesForGeoPt cos S latB lngB := by
  have hSpos : 0 < S := by omega
  obtain ⟨EA, GA⟩ := point_cells hSpos hS' hvA cA1 cA2
  obtain ⟨EB, GB⟩ := point_cells hSpos hS' hvB cB1 cB2
  obtain ⟨mA1, mA2, mA3⟩ := codes_mem cos S latA lngA
  obtain ⟨mB1, mB2, mB3⟩ := codes_mem cos S latB lngB
  rw [div64_two hS (by omega) hS'] at mA2 mA3 mB2 mB3
  generalize AreaCodesForGeoPt cos S latA lngA = LA at mA1 mA2 mA3
  generalize AreaCodesForGeoPt cos S latB lngB = LB at mB1 mB2 mB3
  generalize (areaDistancesAndIndices cos S latA lngA).2.2.1 = cEA at EA mA1 mA2 mA3
  generalize (areaDistancesAndIndices cos S latA lngA).2.2.2 = cGA at GA mA1 mA2 mA3
  generalize (areaDistancesAndIndices cos S latB lngB).2.2.1 = cEB at EB mB1 mB2 mB3
  generalize (areaDistancesAndIndices cos S latB lngB).2.2.2 = cGB at GB mB1 mB2 mB3
  generalize sub64 (areaDistancesAndIndices cos S latA lngA).1 (mul64 cEA S) = iEA at EA mA2
  generalize sub64 (areaDistancesAndIndices cos S latA lngA).2.1 (mul64 cGA S) = iGA at GA mA3
  generalize sub64 (areaDistancesAndIndices cos S latB lngB).1 (mul64 cEB S) = iEB at EB mB2
  generalize sub64 (areaDistancesAndIndices cos S latB lngB).2.1 (mul64 cGB S) = iGB at GB mB3
  have s1 : sub64 cEA 1 = cEA - 1 := by
    unfold sub64; rw [wrap64_of_range] <;> have := EA.2.2.2.2.2.2 <;> omega
  have s2 : add64 cEA 1 = cEA + 1 := by
    unfold add64; rw [wrap64_of_range] <;> have := EA.2.2.2.2.2.2 <;> omega
  have s3 : sub64 cGA 1 = cGA - 1 := by
    unfold sub64; rw [wrap64_of_range] <;> have := GA.2.2.2.2.2.2 <;> omega
  have s4 : add64 cGA 1 = cGA + 1 := by
    unfold add64; rw [wrap64_of_range] <;> have := GA.2.2.2.2.2.2 <;> omega
  have s5 : sub64 cEB 1 = cEB - 1 := by
    unfold sub64; rw [wrap64_of_range] <;> have := EB.2.2.2.2.2.2 <;> omega
  have s6 : add64 cEB 1 = cEB + 1 := by
    unfold add64; rw [wrap64_of_range] <;> have := EB.2.2.2.2.2.2 <;> omega
  have s7 : sub64 cGB 1 = cGB - 1 := by
    unfold sub64; rw [wrap64_of_range] <;> have := GB.2.2.2.2.2.2 <;> omega
  have s8 : add64 cGB 1 = cGB + 1 := by
    unfold add64; rw [wrap64_of_range] <;> have := GB.2.2.2.2.2.2 <;> omega
  rw [s1, s2] at mA2
  rw [s3, s4] at mA3
  rw [s5, s6] at mB2
  rw [s7, s8] at mB3
  have dE : (distFromEq latA - distFromEq latB) ^ 2 < ((h : ℚ) + 1) ^ 2 := by
    nlinarith [sq_nonneg (distFromGr cos latA lngA - distFromGr cos latB lngB)]
  have dG : (distFromGr cos latA lngA - distFromGr cos latB lngB) ^ 2 < ((h : ℚ) + 1) ^ 2 := by
    nlinarith [sq_nonneg (distFromEq latA - distFromEq latB)]
  have lE := axis_link hS hh EA EB dE
  have lG := axis_link hS hh GA GB dG
  generalize (if iEA ≤ h then cEA - 1 else cEA + 1) = nEA at lE mA2
  generalize (if iGA ≤ h then cGA - 1 else cGA + 1) = nGA at lG mA3
  generalize (if iEB ≤ h then cEB - 1 else cEB + 1) = nEB at lE mB2
  generalize (if iGB ≤ h then cGB - 1 else cGB + 1) = nGB at lG mB3
  have eh : (6 : ℚ) ≤ h := by exact_mod_cast hh
  rcases lE with e | ⟨e1, e2⟩ | ⟨e, ge⟩
  · rcases lG with g | ⟨g1, g2⟩ | ⟨g, gg⟩
    · exact ⟨_, mA1, by rw [e, g]; exact mB1⟩
    · exact ⟨_, mA3, by rw [e, g1]; exact mB1⟩
    · rcases g with g | g
      · exact ⟨_, mA3, by rw [e, g]; exact mB1⟩
      · exact ⟨_, mA1, by rw [e, ← g]; exact mB3⟩
  · rcases lG with g | ⟨g1, g2⟩ | ⟨g, gg⟩
    · exact ⟨_, mA2, by rw [e1, g]; exact mB1⟩
    · exact ⟨_, mA2, by rw [e1, ← g2]; exact mB3⟩
    · rcases g with g | g
      · exact ⟨_, mA3, by rw [← e2, g]; exact mB2⟩
      · exact ⟨_, mA2, by rw [e1, ← g]; exact mB3⟩
  · rcases lG with g | ⟨g1, g2⟩ | ⟨g, gg⟩
    · rcases e with e | e
      · exact ⟨_, mA2, by rw [e, g]; exact mB1⟩
      · exact ⟨_, mA1, by rw [← e, g]; exact mB2⟩
    · rcases e with e | e
      · exact ⟨_, mA2, by rw [e, ← g2]; exact mB3⟩
      · exact ⟨_, mA3, by rw [← e, g1]; exact mB2⟩
    · exfalso
      nlinarith

/-! ## The code at explicit points (area size 200) -/

theorem adi_p190 : areaDistancesAndIndices cosTaylor 200 (1713 / 1000000) (1713 / 1000000)
    = (190, 190, 0, 0) := by
  have h1 : int64OfFloat (distFromEq (1713 / 1000000)) = 190 := by
    apply int64OfFloat_nonneg <;> norm_num [distFromEq, earth_k, earth_r, mathPi]
  have h2 : int64OfFloat (distFromGr cosTaylor (1713 / 1000000) (1713 / 1000000)) = 190 := by
    apply int64OfFloat_nonneg <;> norm_num [distFromGr, cosTaylor, earth_r, mathPi]
  have e1 : ¬ ((1713 / 1000000 : ℚ) < 0) := by norm_num
  have e2 : ¬ ((1713 / 1000000 : ℚ) < 0) := by norm_num
  simp only [areaDistancesAndIndices, h1, h2, if_neg e1, if_neg e2]
  decide

theorem adi_p205 : areaDistancesAndIndices cosTaylor 200 (1848 / 1000000) (1848 / 1000000)
    = (205, 205, 1, 1) := by
  have h1 : int64OfFloat (distFromEq (1848 / 1000000)) = 205 := by
    apply int64OfFloat_nonneg <;> norm_num [distFromEq, earth_k, earth_r, mathPi]
  have h2 : int64OfFloat (distFromGr cosTaylor (1848 / 1000000) (1848 / 1000000)) = 205 := by
    apply int64OfFloat_nonneg <;> norm_num [distFromGr, cosTaylor, earth_r, mathPi]
  have e1 : ¬ ((1848 / 1000000 : ℚ) < 0) := by norm_num
  have e2 : ¬ ((1848 / 1000000 : ℚ) < 0) := by norm_num
  simp only [areaDistancesAndIndices, h1, h2, if_neg e1, if_neg e2]
  decide

theorem adi_p198 : areaDistancesAndIndices cosTaylor 200 (1785 / 1000000) (1785 / 1000000)
    = (198, 198, 0, 0) := by
  have h1 : int64OfFloat (distFromEq (1785 / 1000000)) = 198 := by
    apply int64OfFloat_nonneg <;> norm_num [distFromEq, earth_k, earth_r, mathPi]
  have h2 : int64OfFloat (distFromGr cosTaylor (1785 / 1000000) (1785 / 1000000)) = 198 := by
    apply int64OfFloat_nonneg <;> norm_num [distFromGr, cosTaylor, earth_r, mathPi]
  have e1 : ¬ ((1785 / 1000000 : ℚ) < 0) := by norm_num
  have e2 : ¬ ((1785 / 1000000 : ℚ) < 0) := by norm_num
  simp only [areaDistancesAndIndices, h1, h2, if_neg e1, if_neg e2]
  decide

theorem adi_p302 : areaDistancesAndIndices cosTaylor 200 (272 / 100000) (272 / 100000)
    = (302, 302, 1, 1) := by
  have h1 : int64OfFloat (distFromEq (272 / 100000)) = 302 := by
    apply int64OfFloat_nonneg <;> norm_num [distFromEq, earth_k, earth_r, mathPi]
  have h2 : int64OfFloat (distFromGr cosTaylor (272 / 100000) (272 / 100000)) = 302 := by
    apply int64OfFloat_nonneg <;> norm_num [distFromGr, cosTaylor, earth_r, mathPi]
  have e1 : ¬ ((272 / 100000 : ℚ) < 0) := by norm_num
  have e2 : ¬ ((272 / 100000 : ℚ) < 0) := by norm_num
  simp only [areaDistancesAndIndices, h1, h2, if_neg e1, if_neg e2]
  decide

theorem adi_p101 : areaDistancesAndIndices cosTaylor 200 (913 / 1000000) (913 / 1000000)
    = (101, 101, 0, 0) := by
  have h1 : int64OfFloat (distFromEq (913 / 1000000)) = 101 := by
    apply int64OfFloat_nonneg <;> norm_num [distFromEq, earth_k, earth_r, mathPi]
  have h2 : int64OfFloat (distFromGr cosTaylor (913 / 1000000) (913 / 1000000)) = 101 := by
    apply int64OfFloat_nonneg <;> norm_num [distFromGr, cosTaylor, earth_r, mathPi]
  have e1 : ¬ ((913 / 1000000 : ℚ) < 0) := by norm_num
  have e2 : ¬ ((913 / 1000000 : ℚ) < 0) := by norm_num
  simp only [areaDistancesAndIndices, h1, h2, if_neg e1, if_neg e2]
  decide

theorem adi_p399 : areaDistancesAndIndices cosTaylor 200 (359 / 100000) (359 / 100000)
    = (399, 399, 1, 1) := by
  have h1 : int64OfFloat (distFromEq (359 / 100000)) = 399 := by
    apply int64OfFloat_nonneg <;> norm_num [distFromEq, earth_k, earth_r, mathPi]
  have h2 : int64OfFloat (distFromGr cosTaylor (359 / 100000) (359 / 100000)) = 399 := by
    apply int64OfFloat_nonneg <;> norm_num [distFromGr, cosTaylor, earth_r, mathPi]
  have e1 : ¬ ((359 / 100000 : ℚ) < 0) := by norm_num
  have e2 : ¬ ((359 / 100000 : ℚ) < 0) := by norm_num
  simp only [areaDistancesAndIndices, h1, h2, if_neg e1, if_neg e2]
  decide

theorem adi_south : areaDistancesAndIndices cosTaylor 200 (-1 / 1000000) (0)
    = (0, 0, -1, 0) := by
  have h1 : int64OfFloat (distFromEq (-1 / 1000000)) = 0 := by
    apply int64OfFloat_neg <;> norm_num [distFromEq, earth_k, earth_r, mathPi]
  have h2 : int64OfFloat (distFromGr cosTaylor (-1 / 1000000) (0)) = 0 := by
    apply int64OfFloat_nonneg <;> norm_num [distFromGr, cosTaylor, earth_r, mathPi]
  have e1 : (-1 / 1000000 : ℚ) < 0 := by norm_num
  have e2 : ¬ ((0 : ℚ) < 0) := by norm_num
  simp only [areaDistancesAndIndices, h1, h2, if_pos e1, if_neg e2]
  decide

theorem adi_east : areaDistancesAndIndices cosTaylor 200 (0) (100)
    = (0, 11119508, 0, 55597) := by
  have h1 : int64OfFloat (distFromEq (0)) = 0 := by
    apply int64OfFloat_nonneg <;> norm_num [distFromEq, earth_k, earth_r, mathPi]
  have h2 : int64OfFloat (distFromGr cosTaylor (0) (100)) = 11119508 := by
    apply int64OfFloat_nonneg <;> norm_num [distFromGr, cosTaylor, earth_r, mathPi]
  have e1 : ¬ ((0 : ℚ) < 0) := by norm_num
  have e2 : ¬ ((100 : ℚ) < 0) := by norm_num
  simp only [areaDistancesAndIndices, h1, h2, if_neg e1, if_neg e2]
  decide

theorem adi_pole : areaDistancesAndIndices cosTaylor 200 (-90) (0)
    = (-10007557, 0, -50038, 0) := by
  have h1 : int64OfFloat (distFromEq (-90)) = -10007557 := by
    apply int64OfFloat_neg <;> norm_num [distFromEq, earth_k, earth_r, mathPi]
  have h2 : int64OfFloat (distFromGr cosTaylor (-90) (0)) = 0 := by
    apply int64OfFloat_nonneg <;> norm_num [distFromGr, cosTaylor, earth_r, mathPi]
  have e1 : (-90 : ℚ) < 0 := by norm_num
  have e2 : ¬ ((0 : ℚ) < 0) := by norm_num
  simp only [areaDistancesAndIndices, h1, h2, if_pos e1, if_neg e2]
  decide

theorem dist_p205_p190 : Distance cosTaylor (1848 / 1000000) (1848 / 1000000) (1713 / 1000000) (1713 / 1000000) = 21 := by
  unfold Distance
  exact int64Sqrt_eq (z := 21) (by norm_num [distFromEq, distFromGr, cosTaylor, earth_k, earth_r, mathPi]) (by norm_num [distFromEq, distFromGr, cosTaylor, earth_k, earth_r, mathPi])

theorem dist_p198_p250 : Distance cosTaylor (1785 / 1000000) (1785 / 1000000) (225 / 100000) (225 / 100000) = 73 := by
  unfold Distance
  exact int64Sqrt_eq (z := 73) (by norm_num [distFromEq, distFromGr, cosTaylor, earth_k, earth_r, mathPi]) (by norm_num [distFromEq, distFromGr, cosTaylor, earth_k, earth_r, mathPi])

theorem dist_p302_p250 : Distance cosTaylor (272 / 100000) (272 / 100000) (225 / 100000) (225 / 100000) = 73 := by
  unfold Distance
  exact int64Sqrt_eq (z := 73) (by norm_num [distFromEq, distFromGr, cosTaylor, earth_k, earth_r, mathPi]) (by norm_num [distFromEq, distFromGr, cosTaylor, earth_k, earth_r, mathPi])

theorem dist_p399_p101 : Distance cosTaylor (359 / 100000) (359 / 100000) (913 / 1000000) (913 / 1000000) = 420 := by
  unfold Distance
  exact int64Sqrt_eq (z := 420) (by norm_num [distFromEq, distFromGr, cosTaylor, earth_k, earth_r, mathPi]) (by norm_num [distFromEq, distFromGr, cosTaylor, earth_k, earth_r, mathPi])

theorem codes_p190 : AreaCodesForGeoPt cosTaylor 200 (1713 / 1000000) (1713 / 1000000)
    = [packAreaIndices 0 0, packAreaIndices 1 0, packAreaIndices 0 1] := by
  simp only [AreaCodesForGeoPt, adi_p190]
  decide

theorem codes_p198 : AreaCodesForGeoPt cosTaylor 200 (1785 / 1000000) (1785 / 1000000)
    = [packAreaIndices 0 0, packAreaIndices 1 0, packAreaIndices 0 1] := by
  simp only [AreaCodesForGeoPt, adi_p198]
  decide

theorem codes_p302 : AreaCodesForGeoPt cosTaylor 200 (272 / 100000) (272 / 100000)
    = [packAreaIndices 1 1, packAreaIndices 2 1, packAreaIndices 1 2, packAreaIndices 2 2] := by
  simp only [AreaCodesForGeoPt, adi_p302]
  decide

theorem codes_p101 : AreaCodesForGeoPt cosTaylor 200 (913 / 1000000) (913 / 1000000)
    = [packAreaIndices 0 0, packAreaIndices 1 0, packAreaIndices 0 1, packAreaIndices 1 1] := by
  simp only [AreaCodesForGeoPt, adi_p101]
  decide

theorem codes_pole : AreaCodesForGeoPt cosTaylor 200 (-90) 0
    = [-3750000, -3850000, -3750001, -3850001] := by
  simp only [AreaCodesForGeoPt, adi_pole]
  decide

/-! ## Claims -/

/-- C1, the code at a failing input.  With area size 200 the valid points
A = (0.001848, 0.001848) and B = (0.001713, 0.001713) are 21 m apart, which is
within half the area size, yet the code `AreaCodeForGeoPt` of A that a search
filters by is not among the codes `AreaCodesForGeoPt` stores with B. -/
theorem C1_search_misses_record_within_half :
    Valid (1848 / 1000000) (1848 / 1000000) ∧ Valid (1713 / 1000000) (1713 / 1000000) ∧
    Distance cosTaylor (1848 / 1000000) (1848 / 1000000) (1713 / 1000000) (1713 / 1000000)
      ≤ 200 / 2 ∧
    AreaCodeForGeoPt cosTaylor 200 (1848 / 1000000) (1848 / 1000000)
      ∉ AreaCodesForGeoPt cosTaylor 200 (1713 / 1000000) (1713 / 1000000) := by
  refine ⟨?_, ?_, ?_, ?_⟩
  · unfold Valid; norm_num
  · unfold Valid; norm_num
  · rw [dist_p205_p190]; decide
  · simp only [AreaCodeForGeoPt, adi_p205, codes_p190]
    decide

/-- C2: for every area size S that is a multiple of 100 with 100 <= S <= 10000
and all valid points A, B with Distance(A, B) <= S/2, the lists
`AreaCodesForGeoPt S A` and `AreaCodesForGeoPt S B` have a code in common.  The
cosine is any function with values in [0, 1] at the two latitudes. -/
theorem C2_candidate_coverage (cos : ℚ → ℚ) (S : Int) (latA lngA latB lngB : ℚ)
    (hm : S % 100 = 0) (hlo : 100 ≤ S) (hhi : S ≤ 10000)
    (hvA : Valid latA lngA) (hvB : Valid latB lngB)
    (cA1 : 0 ≤ cos (latA * mathPi / 180)) (cA2 : cos (latA * mathPi / 180) ≤ 1)
    (cB1 : 0 ≤ cos (latB * mathPi / 180)) (cB2 : cos (latB * mathPi / 180) ≤ 1)
    (hd : Distance cos latA lngA latB lngB ≤ S / 2) :
    ∃ c, c ∈ AreaCodesForGeoPt cos S latA lngA ∧ c ∈ AreaCodesForGeoPt cos S latB lngB := by
  have hS : S = 2 * (S / 2) := by omega
  have hh : 6 ≤ S / 2 := by omega
  have hn : (((S / 2).toNat : ℕ) : Int) = S / 2 := Int.toNat_of_nonneg (by omega)
  have hq : (((S / 2).toNat : ℕ) : ℚ) = ((S / 2 : Int) : ℚ) := by
    rw [← Int.cast_natCast, hn]
  unfold Distance at hd
  simp only [] at hd
  rw [← hn, int64Sqrt_le_iff (add_nonneg (mul_self_nonneg _) (mul_self_nonneg _))] at hd
  rw [hq] at hd
  refine coverage_of_close hS hh (by omega) hvA hvB cA1 cA2 cB1 cB2 ?_
  nlinarith

/-- C2 at area size 200 with A = (0.001848, 0.001848) and B = (0.001713, 0.001713),
which are 21 m apart. -/
theorem C2_candidate_coverage_witness :
    ∃ c, c ∈ AreaCodesForGeoPt cosTaylor 200 (1848 / 1000000) (1848 / 1000000) ∧
      c ∈ AreaCodesForGeoPt cosTaylor 200 (1713 / 1000000) (1713 / 1000000) :=
  C2_candidate_coverage cosTaylor 200 (1848 / 1000000) (1848 / 1000000) (1713 / 1000000)
    (1713 / 1000000) (by decide) (by decide) (by decide)
    (by unfold Valid; norm_num) (by unfold Valid; norm_num)
    (by norm_num [cosTaylor, mathPi]) (by norm_num [cosTaylor, mathPi])
    (by norm_num [cosTaylor, mathPi]) (by norm_num [cosTaylor, mathPi])
    (by rw [dist_p205_p190]; decide)

/-- C3, the code at a failing input.  With area size 200 the valid points
A = (0.001785, 0.001785) and B = (0.00272, 0.00272) are both 73 m (within half
the area size) from C = (0.00225, 0.00225), yet no code stored with A is a code
stored with B. -/
theorem C3_common_location_without_shared_code :
    Valid (1785 / 1000000) (1785 / 1000000) ∧ Valid (272 / 100000) (272 / 100000) ∧
    Valid (225 / 100000) (225 / 100000) ∧
    Distance cosTaylor (1785 / 1000000) (1785 / 1000000) (225 / 100000) (225 / 100000)
      ≤ 200 / 2 ∧
    Distance cosTaylor (272 / 100000) (272 / 100000) (225 / 100000) (225 / 100000)
      ≤ 200 / 2 ∧
    ∀ c ∈ AreaCodesForGeoPt cosTaylor 200 (1785 / 1000000) (1785 / 1000000),
      c ∉ AreaCodesForGeoPt cosTaylor 200 (272 / 100000) (272 / 100000) := by
  refine ⟨?_, ?_, ?_, ?_, ?_, ?_⟩
  · unfold Valid; norm_num
  · unfold Valid; norm_num
  · unfold Valid; norm_num
  · rw [dist_p198_p250]; decide
  · rw [dist_p302_p250]; decide
  · rw [codes_p198, codes_p302]
    decide

/-- C4, the code at a failing input.  With area size 200 the valid points
A = (0.00359, 0.00359) and B = (0.000913, 0.000913) have their area indices
(1, 1) and (0, 0) inside the packing range and the search code of A is among
the codes stored with B, yet their distance, 420 m, exceeds
(0.5 + sqrt 2) * 200 (about 382.8 m). -/
theorem C4_match_beyond_false_positive_bound :
    Valid (359 / 100000) (359 / 100000) ∧ Valid (913 / 1000000) (913 / 1000000) ∧
    (areaDistancesAndIndices cosTaylor 200 (359 / 100000) (359 / 100000)).2.2 = (1, 1) ∧
    (areaDistancesAndIndices cosTaylor 200 (913 / 1000000) (913 / 1000000)).2.2 = (0, 0) ∧
    AreaCodeForGeoPt cosTaylor 200 (359 / 100000) (359 / 100000)
      ∈ AreaCodesForGeoPt cosTaylor 200 (913 / 1000000) (913 / 1000000) ∧
    ¬ (((Distance cosTaylor (359 / 100000) (359 / 100000) (913 / 1000000) (913 / 1000000)
        : Int) : ℝ) ≤ (0.5 + Real.sqrt 2) * 200) := by
  refine ⟨?_, ?_, ?_, ?_, ?_, ?_⟩
  · unfold Valid; norm_num
  · unfold Valid; norm_num
  · rw [adi_p399]
  · rw [adi_p101]
  · simp only [AreaCodeForGeoPt, adi_p399, codes_p101]
    decide
  · rw [dist_p399_p101]
    have h : Real.sqrt 2 < 3 / 2 := by
      rw [Real.sqrt_lt' (by norm_num)]; norm_num
    push_cast
    intro hle
    linarith

/-- C5, the code at a failing input.  With the even area size 200 the valid
point (0.001713, 0.001713) lies at the position (190, 190) inside its area,
about 14 m from the north-east corner it shares with the two selected side
neighbours, yet `AreaCodesForGeoPt` returns only three codes (no diagonal one). -/
theorem C5_corner_test_misses_north_east :
    Valid (1713 / 1000000) (1713 / 1000000) ∧
    (let r := areaDistancesAndIndices cosTaylor 200 (1713 / 1000000) (1713 / 1000000)
     sub64 r.1 (mul64 r.2.2.1 200) = 190 ∧ sub64 r.2.1 (mul64 r.2.2.2 200) = 190) ∧
    withinHalfOfSelectedCorner 200 190 190 ∧
    (AreaCodesForGeoPt cosTaylor 200 (1713 / 1000000) (1713 / 1000000)).length = 3 := by
  refine ⟨?_, ?_, ?_, ?_⟩
  · unfold Valid; norm_num
  · rw [adi_p190]; decide
  · unfold withinHalfOfSelectedCorner; decide
  · rw [codes_p190]; rfl

/-- C6 fails on the code: with area size 200 the valid point (-0.000001, 0) has
the truncated distance dEq = 0, whose floor quotient by 200 is 0, yet
`areaDistancesAndIndices` returns the index cEq = -1. -/
theorem C6_index_floor_counterexample :
    Valid (-1 / 1000000) 0 ∧
    (areaDistancesAndIndices cosTaylor 200 (-1 / 1000000) 0).1 = 0 ∧
    (areaDistancesAndIndices cosTaylor 200 (-1 / 1000000) 0).2.2.1 = -1 ∧
    ⌊(((areaDistancesAndIndices cosTaylor 200 (-1 / 1000000) 0).1 : Int) : ℚ) / 200⌋ = 0 := by
  refine ⟨?_, ?_, ?_, ?_⟩
  · unfold Valid; norm_num
  · rw [adi_south]
  · rw [adi_south]
  · rw [adi_south]; norm_num

/-- C6 as amended: for every area size S > 0 and every valid point, the index
cEq returned by `areaDistancesAndIndices` is floor(dEq / S) of the truncated
distance dEq it returns when lat >= 0, and ceil(dEq / S) - 1 when lat < 0,
which is floor(dEq / S) unless dEq is a multiple of S; so for a negative
latitude the index -1 covers the truncated distances in (-S, 0].  The same holds
of cGr, dGr and lng.  The area picked always holds the projected distance before
its truncation: cEq*S <= distFromEq <= (cEq+1)*S, and likewise along the other
axis. -/
theorem C6_index_floor_or_ceiling (cos : ℚ → ℚ) (S : Int) (lat lng : ℚ) (hS : 0 < S)
    (hS' : S < 9223372036854775808) (hv : Valid lat lng)
    (c1 : 0 ≤ cos (lat * mathPi / 180)) (c2 : cos (lat * mathPi / 180) ≤ 1) :
    (¬ lat < 0 → (areaDistancesAndIndices cos S lat lng).2.2.1
      = ⌊(((areaDistancesAndIndices cos S lat lng).1 : Int) : ℚ) / S⌋) ∧
    (lat < 0 →
      (areaDistancesAndIndices cos S lat lng).2.2.1
        = ⌈(((areaDistancesAndIndices cos S lat lng).1 : Int) : ℚ) / S⌉ - 1 ∧
      ((areaDistancesAndIndices cos S lat lng).2.2.1
        = ⌊(((areaDistancesAndIndices cos S lat lng).1 : Int) : ℚ) / S⌋
          ↔ ¬ S ∣ (areaDistancesAndIndices cos S lat lng).1) ∧
      ((areaDistancesAndIndices cos S lat lng).2.2.1 = -1
        ↔ -S < (areaDistancesAndIndices cos S lat lng).1
          ∧ (areaDistancesAndIndices cos S lat lng).1 ≤ 0)) ∧
    (¬ lng < 0 → (areaDistancesAndIndices cos S lat lng).2.2.2
      = ⌊(((areaDistancesAndIndices cos S lat lng).2.1 : Int) : ℚ) / S⌋) ∧
    (lng < 0 →
      (areaDistancesAndIndices cos S lat lng).2.2.2
        = ⌈(((areaDistancesAndIndices cos S lat lng).2.1 : Int) : ℚ) / S⌉ - 1 ∧
      ((areaDistancesAndIndices cos S lat lng).2.2.2
        = ⌊(((areaDistancesAndIndices cos S lat lng).2.1 : Int) : ℚ) / S⌋
          ↔ ¬ S ∣ (areaDistancesAndIndices cos S lat lng).2.1) ∧
      ((areaDistancesAndIndices cos S lat lng).2.2.2 = -1
        ↔ -S < (areaDistancesAndIndices cos S lat lng).2.1
          ∧ (areaDistancesAndIndices cos S lat lng).2.1 ≤ 0)) ∧
    (((areaDistancesAndIndices cos S lat lng).2.2.1 : ℚ) * S ≤ distFromEq lat ∧
      distFromEq lat ≤ (((areaDistancesAndIndices cos S lat lng).2.2.1 : ℚ) + 1) * S) ∧
    (((areaDistancesAndIndices cos S lat lng).2.2.2 : ℚ) * S ≤ distFromGr cos lat lng ∧
      distFromGr cos lat lng ≤ (((areaDistancesAndIndices cos S lat lng).2.2.2 : ℚ) + 1) * S) := by
  obtain ⟨p1, p2⟩ := point_cells hS hS' hv c1 c2
  obtain ⟨v1, v2, v3, v4⟩ := hv
  obtain ⟨a1, a2, a3, a4⟩ := distFromEq_facts v1 v2
  obtain ⟨b1, b2, b3, b4⟩ := distFromGr_facts v3 v4 c1 c2
  obtain ⟨f1, f2⟩ := axis_floor hS hS' (lat < 0) a1 a2 a3 a4
  obtain ⟨g1, g2⟩ := axis_floor hS hS' (lng < 0) b1 b2 b3 b4
  exact ⟨f1, f2, g1, g2, ⟨p1.1, p1.2.1⟩, ⟨p2.1, p2.2.1⟩⟩

/-- C6 as amended, at area size 200 and the point (-0.000001, 0): the truncated
distance is 0 and the index is ceil(0 / 200) - 1 = -1. -/
theorem C6_index_floor_or_ceiling_witness :
    (areaDistancesAndIndices cosTaylor 200 (-1 / 1000000) 0).2.2.1
      = ⌈(((areaDistancesAndIndices cosTaylor 200 (-1 / 1000000) 0).1 : Int) : ℚ)
          / (200 : Int)⌉ - 1 :=
  ((C6_index_floor_or_ceiling cosTaylor 200 (-1 / 1000000) 0 (by decide) (by decide)
    (by unfold Valid; norm_num) (by norm_num [cosTaylor, mathPi])
    (by norm_num [cosTaylor, mathPi])).2.1 (by norm_num)).1

/-- C7 fails on the code: with area size 200 the valid point (-0.000001, 0) gets
the in-cell offset inEq = dEq - cEq*200 = 200, which is not below the area
size. -/
theorem C7_offset_range_counterexample :
    Valid (-1 / 1000000) 0 ∧
    (let r := areaDistancesAndIndices cosTaylor 200 (-1 / 1000000) 0
     sub64 r.1 (mul64 r.2.2.1 200) = 200) := by
  refine ⟨?_, ?_⟩
  · unfold Valid; norm_num
  · rw [adi_south]; decide

/-- C7 as amended: for every area size S > 0 and every valid point, the in-cell
offsets inEq = dEq - cEq*S and inGr = dGr - cGr*S computed in
`AreaCodesForGeoPt` satisfy 0 <= inEq < S when lat >= 0 and 0 < inEq <= S when
lat < 0, where inEq = S exactly when dEq is a multiple of S; likewise inGr with
lng. -/
theorem C7_offset_range (cos : ℚ → ℚ) (S : Int) (lat lng : ℚ) (hS : 0 < S)
    (hS' : S < 9223372036854775808) (hv : Valid lat lng)
    (c1 : 0 ≤ cos (lat * mathPi / 180)) (c2 : cos (lat * mathPi / 180) ≤ 1) :
    (¬ lat < 0 →
      0 ≤ sub64 (areaDistancesAndIndices cos S lat lng).1
        (mul64 (areaDistancesAndIndices cos S lat lng).2.2.1 S) ∧
      sub64 (areaDistancesAndIndices cos S lat lng).1
        (mul64 (areaDistancesAndIndices cos S lat lng).2.2.1 S) < S) ∧
    (lat < 0 →
      0 < sub64 (areaDistancesAndIndices cos S lat lng).1
        (mul64 (areaDistancesAndIndices cos S lat lng).2.2.1 S) ∧
      sub64 (areaDistancesAndIndices cos S lat lng).1
        (mul64 (areaDistancesAndIndices cos S lat lng).2.2.1 S) ≤ S ∧
      (sub64 (areaDistancesAndIndices cos S lat lng).1
        (mul64 (areaDistancesAndIndices cos S lat lng).2.2.1 S) = S
          ↔ S ∣ (areaDistancesAndIndices cos S lat lng).1)) ∧
    (¬ lng < 0 →
      0 ≤ sub64 (areaDistancesAndIndices cos S lat lng).2.1
        (mul64 (areaDistancesAndIndices cos S lat lng).2.2.2 S) ∧
      sub64 (areaDistancesAndIndices cos S lat lng).2.1
        (mul64 (areaDistancesAndIndices cos S lat lng).2.2.2 S) < S) ∧
    (lng < 0 →
      0 < sub64 (areaDistancesAndIndices cos S lat lng).2.1
        (mul64 (areaDistancesAndIndices cos S lat lng).2.2.2 S) ∧
      sub64 (areaDistancesAndIndices cos S lat lng).2.1
        (mul64 (areaDistancesAndIndices cos S lat lng).2.2.2 S) ≤ S ∧
      (sub64 (areaDistancesAndIndices cos S lat lng).2.1
        (mul64 (areaDistancesAndIndices cos S lat lng).2.2.2 S) = S
          ↔ S ∣ (areaDistancesAndIndices cos S lat lng).2.1)) ∧
    sub64 (areaDistancesAndIndices cos S lat lng).1
        (mul64 (areaDistancesAndIndices cos S lat lng).2.2.1 S)
      = (areaDistancesAndIndices cos S lat lng).1
        - (areaDistancesAndIndices cos S lat lng).2.2.1 * S ∧
    sub64 (areaDistancesAndIndices cos S lat lng).2.1
        (mul64 (areaDistancesAndIndices cos S lat lng).2.2.2 S)
      = (areaDistancesAndIndices cos S lat lng).2.1
        - (areaDistancesAndIndices cos S lat lng).2.2.2 * S := by
  obtain ⟨⟨e1, _, _⟩, ⟨e2, _, _⟩⟩ := point_offsets hS hS' hv c1 c2
  obtain ⟨v1, v2, v3, v4⟩ := hv
  obtain ⟨a1, a2, a3, a4⟩ := distFromEq_facts v1 v2
  obtain ⟨b1, b2, b3, b4⟩ := distFromGr_facts v3 v4 c1 c2
  obtain ⟨f1, f2⟩ := axis_offset_range hS hS' (lat < 0) a1 a2 a3 a4
  obtain ⟨g1, g2⟩ := axis_offset_range hS hS' (lng < 0) b1 b2 b3 b4
  exact ⟨f1, f2, g1, g2, e1, e2⟩

/-- C7 as amended, at area size 200 and the point (-0.000001, 0): the offset
inEq is positive and at most 200. -/
theorem C7_offset_range_witness :
    0 < sub64 (areaDistancesAndIndices cosTaylor 200 (-1 / 1000000) 0).1
        (mul64 (areaDistancesAndIndices cosTaylor 200 (-1 / 1000000) 0).2.2.1 200) ∧
    sub64 (areaDistancesAndIndices cosTaylor 200 (-1 / 1000000) 0).1
        (mul64 (areaDistancesAndIndices cosTaylor 200 (-1 / 1000000) 0).2.2.1 200) ≤ 200 :=
  have h := (C7_offset_range cosTaylor 200 (-1 / 1000000) 0 (by decide) (by decide)
    (by unfold Valid; norm_num) (by norm_num [cosTaylor, mathPi])
    (by norm_num [cosTaylor, mathPi])).2.1 (by norm_num)
  ⟨h.1, h.2.1⟩

/-- C8: on the supported range (all four indices in `[-50000, 50000)`)
`packAreaIndices` is collision-free: equal codes come from equal index pairs. -/
theorem C8_packAreaIndices_collision_free (eq mer eq' mer' : Int)
    (h1 : -50000 ≤ eq) (h2 : eq < 50000) (h3 : -50000 ≤ mer) (h4 : mer < 50000)
    (h5 : -50000 ≤ eq') (h6 : eq' < 50000) (h7 : -50000 ≤ mer') (h8 : mer' < 50000)
    (h : packAreaIndices eq mer = packAreaIndices eq' mer') : eq = eq' ∧ mer = mer' := by
  rw [packAreaIndices_of_range (by omega) (by omega) (by omega) (by omega),
    packAreaIndices_of_range (by omega) (by omega) (by omega) (by omega)] at h
  omega

/-- C8 at the index pairs (3, -7) and (3, -7). -/
theorem C8_packAreaIndices_collision_free_witness :
    packAreaIndices 3 (-7) = packAreaIndices 3 (-7) ∧ ((3 : Int) = 3 ∧ (-7 : Int) = -7) :=
  ⟨rfl, C8_packAreaIndices_collision_free 3 (-7) 3 (-7) (by decide) (by decide) (by decide)
    (by decide) (by decide) (by decide) (by decide) (by decide) rfl⟩

/-- C9, the code at failing inputs.  Area size 200 is what the device form gives
for the admitted search precision 100.  At the valid point (0, 100) the shifted
index cGr + 50000 is 105597, outside `[0, 100000)`, and the code of its area
(0, 55597) is also the code of the distinct area (1, -44403); at the valid point
(-90, 0) every returned code is negative, so a record that stores them is not
classified as a Track record. -/
theorem C9_packing_range_exceeded_at_precision_100 :
    (200 : Int) = 2 * 100 ∧ Valid 0 100 ∧ Valid (-90) 0 ∧
    (areaDistancesAndIndices cosTaylor 200 0 100).2.2.2 + 50000 = 105597 ∧
    AreaCodeForGeoPt cosTaylor 200 0 100 = packAreaIndices 1 (-44403) ∧
    (∀ c ∈ AreaCodesForGeoPt cosTaylor 200 (-90) 0, c < 0) ∧
    (∀ d t : Int, GPS.Track ⟨d, AreaCodesForGeoPt cosTaylor 200 (-90) 0, -90, 0, t⟩ = false) := by
  refine ⟨by decide, ?_, ?_, ?_, ?_, ?_, ?_⟩
  · unfold Valid; norm_num
  · unfold Valid; norm_num
  · rw [adi_east]; decide
  · simp only [AreaCodeForGeoPt, adi_east]
    decide
  · rw [codes_pole]; decide
  · intro d t
    simp only [GPS.Track, codes_pole]
    decide

/-- C10: for every area size S > 0 and every point, the first element of
`AreaCodesForGeoPt` is the code `AreaCodeForGeoPt` of the same point. -/
theorem C10_primary_code_first (cos : ℚ → ℚ) (areaSize : Int) (lat lng : ℚ)
    (_hS : 0 < areaSize) :
    (AreaCodesForGeoPt cos areaSize lat lng).head?
      = some (AreaCodeForGeoPt cos areaSize lat lng) := by
  unfold AreaCodesForGeoPt AreaCodeForGeoPt
  simp only []
  split_ifs <;> rfl

/-- C10 at area size 200 and the point (0.001713, 0.001713). -/
theorem C10_primary_code_first_witness :
    (0 : Int) < 200 ∧
    (AreaCodesForGeoPt cosTaylor 200 (1713 / 1000000) (1713 / 1000000)).head?
      = some (AreaCodeForGeoPt cosTaylor 200 (1713 / 1000000) (1713 / 1000000)) :=
  ⟨by decide, C10_primary_code_first cosTaylor 200 (1713 / 1000000) (1713 / 1000000) (by decide)⟩

/-! ## Distance -/

theorem Distance_comm (cos : ℚ → ℚ) (lat lng lat2 lng2 : ℚ) :
    Distance cos lat lng lat2 lng2 = Distance cos lat2 lng2 lat lng := by
  unfold Distance
  simp only []
  congr 1
  ring

theorem Distance_self (cos : ℚ → ℚ) (lat lng : ℚ) : Distance cos lat lng lat lng = 0 := by
  unfold Distance
  simp only [sub_self, mul_zero, add_zero]
  exact int64Sqrt_eq (z := 0) (by norm_num) (by norm_num)

/-! ## devMoved -/

theorem devMovedLoop_some (cos : ℚ → ℚ) (f : GPS) (rs : List GPS) (l : GPS) :
    devMovedLoop cos rs (some f) (some l) = chainMoved cos f l (rs.filter fun r => r.Track) := by
  induction rs generalizing l with
  | nil => simp [devMovedLoop, chainMoved]
  | cons r rs ih =>
    by_cases ht : r.Track = true
    · simp only [devMovedLoop, ht, List.filter_cons_of_pos, chainMoved]
      by_cases hd : Distance cos l.Lat l.Lng r.Lat r.Lng > 230
      · simp [hd]
      · simp [hd, ih]
    · simp only [Bool.not_eq_true] at ht
      simp [devMovedLoop, ht, ih]

theorem devMoved_eq (cos : ℚ → ℚ) (rs : List GPS) :
    devMoved cos rs =
      match rs.filter fun r => r.Track with
      | [] => false
      | t :: ts => chainMoved cos t t ts := by
  unfold devMoved
  induction rs with
  | nil => simp [devMovedLoop]
  | cons r rs ih =>
    by_cases ht : r.Track = true
    · simp [devMovedLoop, ht, devMovedLoop_some]
    · simp only [Bool.not_eq_true] at ht
      simp [devMovedLoop, ht, ih]

theorem chainMoved_iff (cos : ℚ → ℚ) (f : GPS) (ts : List GPS) (l : GPS) :
    chainMoved cos f l ts = true ↔
      (∃ l1 a b l2, l :: ts = l1 ++ a :: b :: l2 ∧
        Distance cos a.Lat a.Lng b.Lat b.Lng > 230) ∨
      (∃ x, (l :: ts).getLast? = some x ∧ Distance cos x.Lat x.Lng f.Lat f.Lng > 230) := by
  induction ts generalizing l with
  | nil =>
    simp only [chainMoved, decide_eq_true_eq]
    constructor
    · intro h; right; exact ⟨l, by simp, h⟩
    · rintro (⟨l1, a, b, l2, he, _⟩ | ⟨x, hx, hd⟩)
      · exfalso
        have := congrArg List.length he
        simp at this
        omega
      · simp at hx; subst hx; exact hd
  | cons t ts ih =>
    simp only [chainMoved, Bool.or_eq_true, decide_eq_true_eq, ih]
    constructor
    · rintro (h | ⟨l1, a, b, l2, he, hd⟩ | ⟨x, hx, hd⟩)
      · left; exact ⟨[], l, t, ts, rfl, h⟩
      · left; exact ⟨l :: l1, a, b, l2, by rw [he]; rfl, hd⟩
      · right; exact ⟨x, by rw [List.getLast?_cons_cons]; exact hx, hd⟩
    · rintro (⟨l1, a, b, l2, he, hd⟩ | ⟨x, hx, hd⟩)
      · cases l1 with
        | nil =>
          simp only [List.nil_append, List.cons.injEq] at he
          obtain ⟨h1, h2, h3⟩ := he
          subst h1 h2
          left; exact hd
        | cons c l1 =>
          simp only [List.cons_append, List.cons.injEq] at he
          right; left; exact ⟨l1, a, b, l2, he.2, hd⟩
      · right; right
        exact ⟨x, by rw [List.getLast?_cons_cons] at hx; exact hx, hd⟩

/-! ## Claims on the shape of the code list, Distance and devMoved -/

/-- C11: for every area size S > 0 and every point whose area indices lie inside
the packing range `[-50000, 50000)` (so in particular strictly inside it),
`AreaCodesForGeoPt` returns exactly 3 or exactly 4 codes: the code of the own
area, of one side neighbour per axis and optionally of the diagonal neighbour
they select; and no code occurs twice. -/
theorem C11_codes_shape_nodup (cos : ℚ → ℚ) (S : Int) (lat lng : ℚ) (_hS : 0 < S)
    (h1 : -50000 ≤ (areaDistancesAndIndices cos S lat lng).2.2.1)
    (h2 : (areaDistancesAndIndices cos S lat lng).2.2.1 < 50000)
    (h3 : -50000 ≤ (areaDistancesAndIndices cos S lat lng).2.2.2)
    (h4 : (areaDistancesAndIndices cos S lat lng).2.2.2 < 50000) :
    ∃ nEq nGr : Int,
      (nEq = (areaDistancesAndIndices cos S lat lng).2.2.1 - 1 ∨
        nEq = (areaDistancesAndIndices cos S lat lng).2.2.1 + 1) ∧
      (nGr = (areaDistancesAndIndices cos S lat lng).2.2.2 - 1 ∨
        nGr = (areaDistancesAndIndices cos S lat lng).2.2.2 + 1) ∧
      (AreaCodesForGeoPt cos S lat lng =
          [packAreaIndices (areaDistancesAndIndices cos S lat lng).2.2.1
              (areaDistancesAndIndices cos S lat lng).2.2.2,
            packAreaIndices nEq (areaDistancesAndIndices cos S lat lng).2.2.2,
            packAreaIndices (areaDistancesAndIndices cos S lat lng).2.2.1 nGr] ∨
        AreaCodesForGeoPt cos S lat lng =
          [packAreaIndices (areaDistancesAndIndices cos S lat lng).2.2.1
              (areaDistancesAndIndices cos S lat lng).2.2.2,
            packAreaIndices nEq (areaDistancesAndIndices cos S lat lng).2.2.2,
            packAreaIndices (areaDistancesAndIndices cos S lat lng).2.2.1 nGr,
            packAreaIndices nEq nGr]) ∧
      ((AreaCodesForGeoPt cos S lat lng).length = 3 ∨
        (AreaCodesForGeoPt cos S lat lng).length = 4) ∧
      (AreaCodesForGeoPt cos S lat lng).Nodup := by
  unfold AreaCodesForGeoPt
  simp only []
  generalize (areaDistancesAndIndices cos S lat lng).2.2.1 = cEq at h1 h2
  generalize (areaDistancesAndIndices cos S lat lng).2.2.2 = cGr at h3 h4
  have s1 : sub64 cEq 1 = cEq - 1 := by unfold sub64; rw [wrap64_of_range] <;> omega
  have s2 : add64 cEq 1 = cEq + 1 := by unfold add64; rw [wrap64_of_range] <;> omega
  have s3 : sub64 cGr 1 = cGr - 1 := by unfold sub64; rw [wrap64_of_range] <;> omega
  have s4 : add64 cGr 1 = cGr + 1 := by unfold add64; rw [wrap64_of_range] <;> omega
  have p0 := @packAreaIndices_of_range (cEq) (cGr)
    (by omega) (by omega) (by omega) (by omega)
  have p1 := @packAreaIndices_of_range (cEq - 1) (cGr)
    (by omega) (by omega) (by omega) (by omega)
  have p2 := @packAreaIndices_of_range (cEq + 1) (cGr)
    (by omega) (by omega) (by omega) (by omega)
  have p3 := @packAreaIndices_of_range (cEq) (cGr - 1)
    (by omega) (by omega) (by omega) (by omega)
  have p4 := @packAreaIndices_of_range (cEq) (cGr + 1)
    (by omega) (by omega) (by omega) (by omega)
  have p5 := @packAreaIndices_of_range (cEq - 1) (cGr - 1)
    (by omega) (by omega) (by omega) (by omega)
  have p6 := @packAreaIndices_of_range (cEq - 1) (cGr + 1)
    (by omega) (by omega) (by omega) (by omega)
  have p7 := @packAreaIndices_of_range (cEq + 1) (cGr - 1)
    (by omega) (by omega) (by omega) (by omega)
  have p8 := @packAreaIndices_of_range (cEq + 1) (cGr + 1)
    (by omega) (by omega) (by omega) (by omega)
  simp only [s1, s2, s3, s4]
  generalize sub64 (areaDistancesAndIndices cos S lat lng).1 (mul64 cEq S) = inEq
  generalize sub64 (areaDistancesAndIndices cos S lat lng).2.1 (mul64 cGr S) = inGr
  generalize div64 S 2 = half
  refine ⟨if inEq ≤ half then cEq - 1 else cEq + 1,
    if inGr ≤ half then cGr - 1 else cGr + 1, ?_, ?_, ?_, ?_, ?_⟩
  · split_ifs <;> simp
  · split_ifs <;> simp
  · split_ifs <;> simp
  · split_ifs <;> simp
  · split_ifs <;>
      simp only [List.cons_append, List.nil_append, List.nodup_cons, List.mem_cons,
        List.mem_singleton, List.not_mem_nil, List.nodup_nil, p0, p1, p2, p3, p4, p5, p6,
        p7, p8, or_false, not_false_eq_true, and_true] <;>
      clear p0 p1 p2 p3 p4 p5 p6 p7 p8 s1 s2 s3 s4 <;>
      omega

/-- C11 at area size 200 and the point (0.001713, 0.001713), whose area is (0, 0). -/
theorem C11_codes_shape_nodup_witness :
    ((AreaCodesForGeoPt cosTaylor 200 (1713 / 1000000) (1713 / 1000000)).length = 3 ∨
      (AreaCodesForGeoPt cosTaylor 200 (1713 / 1000000) (1713 / 1000000)).length = 4) ∧
    (AreaCodesForGeoPt cosTaylor 200 (1713 / 1000000) (1713 / 1000000)).Nodup :=
  (C11_codes_shape_nodup cosTaylor 200 (1713 / 1000000) (1713 / 1000000) (by decide)
    (by rw [adi_p190]; decide) (by rw [adi_p190]; decide) (by rw [adi_p190]; decide)
    (by rw [adi_p190]; decide)).elim fun _ h => h.elim fun _ h => h.2.2.2

/-- C12: `Distance` is symmetric in its two points. -/
theorem C12_distance_symmetric (cos : ℚ → ℚ) (lat lng lat2 lng2 : ℚ) :
    Distance cos lat lng lat2 lng2 = Distance cos lat2 lng2 lat lng :=
  Distance_comm cos lat lng lat2 lng2

/-- C13: the `Distance` of a point to itself is zero. -/
theorem C13_distance_self_zero (cos : ℚ → ℚ) (lat lng : ℚ) :
    Distance cos lat lng lat lng = 0 :=
  Distance_self cos lat lng

/-- C14: `devMoved rs` is true if and only if two track records that are
consecutive among the track records of `rs` are at Distance > 230, or the first
and the last track record of `rs` are at Distance > 230 (230 itself does not
count). -/
theorem C14_devMoved_characterisation (cos : ℚ → ℚ) (rs : List GPS) :
    devMoved cos rs = true ↔
      (∃ l1 a b l2, (rs.filter fun r => r.Track) = l1 ++ a :: b :: l2 ∧
        Distance cos a.Lat a.Lng b.Lat b.Lng > 230) ∨
      (∃ f l, (rs.filter fun r => r.Track).head? = some f ∧
        (rs.filter fun r => r.Track).getLast? = some l ∧
        Distance cos f.Lat f.Lng l.Lat l.Lng > 230) := by
  rw [devMoved_eq]
  generalize (rs.filter fun r => r.Track) = ts
  cases ts with
  | nil => simp
  | cons t ts =>
    simp only [chainMoved_iff, List.head?_cons, Option.some.injEq]
    constructor
    · rintro (h | ⟨x, hx, hd⟩)
      · left; exact h
      · right; exact ⟨t, x, rfl, hx, by rw [Distance_comm]; exact hd⟩
    · rintro (h | ⟨f, l, hf, hl, hd⟩)
      · left; exact h
      · right; subst hf; exact ⟨l, hl, by rw [Distance_comm]; exact hd⟩

/-- C15: a window with zero or exactly one track record (and any number of
Start/Stop records) is never reported as moved. -/
theorem C15_devMoved_needs_two_tracks (cos : ℚ → ℚ) (rs : List GPS)
    (h : (rs.filter fun r => r.Track).length = 0 ∨ (rs.filter fun r => r.Track).length = 1) :
    devMoved cos rs = false := by
  rw [devMoved_eq]
  generalize (rs.filter fun r => r.Track) = ts at h
  match ts, h with
  | [], _ => rfl
  | [t], _ => simp [chainMoved, Distance_self]
  | _ :: _ :: _, h => simp at h

/-- C15 at a window of a Start record, one track record and a Stop record. -/
theorem C15_devMoved_needs_two_tracks_witness :
    devMoved cosTaylor [⟨1, [-1], 0, 0, 3⟩, ⟨1, [], 1, 2, 2⟩, ⟨1, [-2], 0, 0, 1⟩] = false :=
  C15_devMoved_needs_two_tracks cosTaylor _ (Or.inr (by decide))

/-- C16: `devMoved` ignores the records that are not track records: it gives the
same result on the window with these records removed. -/
theorem C16_devMoved_ignores_events (cos : ℚ → ℚ) (rs : List GPS) :
    devMoved cos rs = devMoved cos (rs.filter fun r => r.Track) := by
  rw [devMoved_eq, devMoved_eq, List.filter_filter]
  simp

/-! ## checkAlert -/

theorem devMoved_movingCarWindow : devMoved cosTaylor movingCarWindow = true := by
  simp [devMoved, devMovedLoop, movingCarWindow, GPS.Track, dist_p399_p101]

theorem getDevRecords_cons {query : Int → Option (List GPS)} {d : Int} {r : GPS}
    {rs : List GPS} (h : query d = some (r :: rs)) : getDevRecords query d = some (r :: rs) := by
  simp [getDevRecords, h]

theorem getDevRecords_nil {query : Int → Option (List GPS)} {d : Int}
    (h : query d = some []) : getDevRecords query d = none := by
  simp [getDevRecords, h]

/-- C17: for every non-empty window `c0 :: cs` of the car and whatever the
personal mobile device and its records are, `checkAlert` sends the alert
"Car GPS device gone dark!" if and only if the time elapsed since `c0.Created`
exceeds 5 minutes, and it sends nothing else in that case. -/
theorem C17_gone_dark_iff_car_stale (env : Env) (a : Alert) (c0 : GPS) (cs : List GPS)
    (hq : env.query a.CarDevID = some (c0 :: cs)) :
    (Effect.sendAlert carGoneDark ∈ (checkAlert env a).effects ↔
      env.nowCar - c0.Created > alertDuration) ∧
    (env.nowCar - c0.Created > alertDuration →
      (checkAlert env a).effects = [Effect.fetch a.CarDevID, Effect.sendAlert carGoneDark]) := by
  have hne : carGoneDark ≠ carMovingWithoutYou := by decide
  unfold checkAlert
  rw [getDevRecords_cons hq]
  simp only []
  by_cases hs : env.nowCar - c0.Created > alertDuration
  · simp [hs]
  · simp only [hs, if_false, iff_false, false_implies, and_true]
    split_ifs
    · simp
    · simp
    · split
      · simp
      · simp
      · split_ifs
        · simp [hne]
        · split
          · simp [hne]
          · split_ifs
            · simp [hne]
            · split
              · split_ifs <;> simp [hne]
              · simp

/-- C17 at the car of `movingCarWindow`, read 6 minutes after its newest record. -/
theorem C17_gone_dark_iff_car_stale_witness :
    (Effect.sendAlert carGoneDark ∈ (checkAlert (carEnv 760000000000 none) ⟨1, 2⟩).effects ↔
      (760000000000 : Int) - 400000000000 > alertDuration) ∧
    ((760000000000 : Int) - 400000000000 > alertDuration →
      (checkAlert (carEnv 760000000000 none) ⟨1, 2⟩).effects
        = [Effect.fetch 1, Effect.sendAlert carGoneDark]) :=
  C17_gone_dark_iff_car_stale (carEnv 760000000000 none) ⟨1, 2⟩
    ⟨1, [], 359 / 100000, 359 / 100000, 400000000000⟩
    [⟨1, [], 913 / 1000000, 913 / 1000000, 399000000000⟩] rfl

theorem checkAlert_of_empty_pers (env : Env) (a : Alert) (c0 : GPS) (cs : List GPS)
    (hq : env.query a.CarDevID = some (c0 :: cs))
    (hlive : env.nowCar - c0.Created ≤ alertDuration)
    (hmoved : devMoved env.cos (c0 :: cs) = true)
    (hpers : a.PersMobDevID ≠ 0)
    (hempty : env.query a.PersMobDevID = some []) :
    checkAlert env a = ⟨[Effect.fetch a.CarDevID, Effect.fetch a.PersMobDevID], false⟩ := by
  unfold checkAlert
  rw [getDevRecords_cons hq]
  simp only []
  rw [if_neg (not_lt.mpr hlive), if_neg hpers, getDevRecords_nil hempty]
  simp [hmoved]

/-- C18 fails on the code: the car of `movingCarWindow` is live and moved, the
personal mobile device 2 is specified and the record store returns no records
for it, yet `checkAlert` sends no "Car is moving without you!" alert. -/
theorem C18_empty_companion_window_counterexample :
    (carEnv 400000000001 (some [])).query 1 = some movingCarWindow ∧
    movingCarWindow ≠ [] ∧
    (400000000001 : Int) - 400000000000 ≤ alertDuration ∧
    devMoved (carEnv 400000000001 (some [])).cos movingCarWindow = true ∧
    (2 : Int) ≠ 0 ∧
    (carEnv 400000000001 (some [])).query 2 = some [] ∧
    Effect.sendAlert carMovingWithoutYou
      ∉ (checkAlert (carEnv 400000000001 (some [])) ⟨1, 2⟩).effects := by
  refine ⟨rfl, by simp [movingCarWindow], by decide, devMoved_movingCarWindow, by decide, rfl, ?_⟩
  rw [checkAlert_of_empty_pers (carEnv 400000000001 (some [])) ⟨1, 2⟩
    ⟨1, [], 359 / 100000, 359 / 100000, 400000000000⟩
    [⟨1, [], 913 / 1000000, 913 / 1000000, 399000000000⟩] rfl (by decide)
    devMoved_movingCarWindow (by decide) rfl]
  decide

/-- C18 as amended: when the window `c0 :: cs` of the car is live and moved and a
personal mobile device is specified for which the record store returns no
records, `checkAlert` queries both devices and sends no alert. -/
theorem C18_empty_companion_window_no_alert (env : Env) (a : Alert) (c0 : GPS)
    (cs : List GPS) (hq : env.query a.CarDevID = some (c0 :: cs))
    (hlive : env.nowCar - c0.Created ≤ alertDuration)
    (hmoved : devMoved env.cos (c0 :: cs) = true)
    (hpers : a.PersMobDevID ≠ 0)
    (hempty : env.query a.PersMobDevID = some []) :
    checkAlert env a = ⟨[Effect.fetch a.CarDevID, Effect.fetch a.PersMobDevID], false⟩ :=
  checkAlert_of_empty_pers env a c0 cs hq hlive hmoved hpers hempty

/-- C18 as amended, at the car of `movingCarWindow` and an empty window of device 2. -/
theorem C18_empty_companion_window_no_alert_witness :
    checkAlert (carEnv 400000000001 (some [])) ⟨1, 2⟩
      = ⟨[Effect.fetch 1, Effect.fetch 2], false⟩ :=
  C18_empty_companion_window_no_alert (carEnv 400000000001 (some [])) ⟨1, 2⟩
    ⟨1, [], 359 / 100000, 359 / 100000, 400000000000⟩
    [⟨1, [], 913 / 1000000, 913 / 1000000, 399000000000⟩] rfl (by decide)
    devMoved_movingCarWindow (by decide) rfl

/-- C19: when the window `c0 :: cs` of the car is live and moved, a personal
mobile device is specified and the newest record `p0` of its window is more than
5 minutes old, `checkAlert` sends the alert "Car is moving without you!",
whatever the records of that window are. -/
theorem C19_silent_companion_alert (env : Env) (a : Alert) (c0 : GPS) (cs : List GPS)
    (p0 : GPS) (ps : List GPS) (hq : env.query a.CarDevID = some (c0 :: cs))
    (hlive : env.nowCar - c0.Created ≤ alertDuration)
    (hmoved : devMoved env.cos (c0 :: cs) = true)
    (hpers : a.PersMobDevID ≠ 0)
    (hp : env.query a.PersMobDevID = some (p0 :: ps))
    (hstale : env.nowPersMob - p0.Created > alertDuration) :
    checkAlert env a = ⟨[Effect.fetch a.CarDevID, Effect.fetch a.PersMobDevID,
      Effect.sendAlert carMovingWithoutYou], false⟩ := by
  unfold checkAlert
  rw [getDevRecords_cons hq]
  simp only []
  rw [if_neg (not_lt.mpr hlive), if_neg hpers, getDevRecords_cons hp]
  simp [hmoved, hstale]

/-- C19 at the car of `movingCarWindow` and a window of device 2 whose only
record is more than 6 minutes old. -/
theorem C19_silent_companion_alert_witness :
    checkAlert (carEnv 400000000001 (some [⟨2, [], 0, 0, 0⟩])) ⟨1, 2⟩
      = ⟨[Effect.fetch 1, Effect.fetch 2, Effect.sendAlert carMovingWithoutYou], false⟩ :=
  C19_silent_companion_alert (carEnv 400000000001 (some [⟨2, [], 0, 0, 0⟩])) ⟨1, 2⟩
    ⟨1, [], 359 / 100000, 359 / 100000, 400000000000⟩
    [⟨1, [], 913 / 1000000, 913 / 1000000, 399000000000⟩] ⟨2, [], 0, 0, 0⟩ [] rfl
    (by decide) devMoved_movingCarWindow (by decide) rfl (by decide)

/-- C20: when the window `c0 :: cs` of the car is live and moved, a personal
mobile device is specified and the newest record `p0` of its window is at most
5 minutes old, but the window has no track record or its first track record is
more than 5 minutes old, `checkAlert` sends the alert "Car is moving without
you!"; recent Start/Stop records do not prevent it. -/
theorem C20_recent_track_fix_required (env : Env) (a : Alert) (c0 : GPS) (cs : List GPS)
    (p0 : GPS) (ps : List GPS) (hq : env.query a.CarDevID = some (c0 :: cs))
    (hlive : env.nowCar - c0.Created ≤ alertDuration)
    (hmoved : devMoved env.cos (c0 :: cs) = true)
    (hpers : a.PersMobDevID ≠ 0)
    (hp : env.query a.PersMobDevID = some (p0 :: ps))
    (hplive : env.nowPersMob - p0.Created ≤ alertDuration)
    (hfix : (∀ r ∈ p0 :: ps, r.Track = false) ∨
      ∃ pg1, (p0 :: ps).find? (fun r => r.Track) = some pg1 ∧
        env.nowTrack - pg1.Created > alertDuration) :
    checkAlert env a = ⟨[Effect.fetch a.CarDevID, Effect.fetch a.PersMobDevID,
      Effect.sendAlert carMovingWithoutYou], false⟩ := by
  unfold checkAlert
  rw [getDevRecords_cons hq]
  simp only []
  rw [if_neg (not_lt.mpr hlive), if_neg hpers, getDevRecords_cons hp]
  simp only [hmoved, Bool.not_true, Bool.false_eq_true, if_false]
  rw [if_neg (not_lt.mpr hplive)]
  rcases hfix with hnone | ⟨pg1, hf, hold⟩
  · have hf : (p0 :: ps).find? (fun r => r.Track) = none := by
      rw [List.find?_eq_none]
      intro r hr
      simp [hnone r hr]
    rw [hf]
  · rw [hf]
    simp [hold]

/-- C20 at the car of `movingCarWindow` and a window of device 2 that holds only
a Start record written 1 ns before the check. -/
theorem C20_recent_track_fix_required_witness :
    checkAlert (carEnv 400000000001 (some [⟨2, [-1], 0, 0, 400000000000⟩])) ⟨1, 2⟩
      = ⟨[Effect.fetch 1, Effect.fetch 2, Effect.sendAlert carMovingWithoutYou], false⟩ :=
  C20_recent_track_fix_required (carEnv 400000000001 (some [⟨2, [-1], 0, 0, 400000000000⟩]))
    ⟨1, 2⟩ ⟨1, [], 359 / 100000, 359 / 100000, 400000000000⟩
    [⟨1, [], 913 / 1000000, 913 / 1000000, 399000000000⟩]
    ⟨2, [-1], 0, 0, 400000000000⟩ [] rfl (by decide) devMoved_movingCarWindow (by decide) rfl
    (by decide) (Or.inl (by decide))

/-! ## The distance check of checkAlert -/

theorem firstTwoTracks_some (c : GPS) (rs : List GPS) :
    firstTwoTracks rs (some c) = (some c, (rs.filter fun r => r.Track).head?) := by
  induction rs with
  | nil => simp [firstTwoTracks]
  | cons r rs ih =>
    by_cases ht : r.Track = true
    · simp [firstTwoTracks, ht]
    · simp only [Bool.not_eq_true] at ht
      simp [firstTwoTracks, ht, ih]

theorem firstTwoTracks_none (rs : List GPS) :
    firstTwoTracks rs none =
      match rs.filter fun r => r.Track with
      | [] => (none, none)
      | t :: ts => (some t, ts.head?) := by
  induction rs with
  | nil => simp [firstTwoTracks]
  | cons r rs ih =>
    by_cases ht : r.Track = true
    · simp [firstTwoTracks, ht, firstTwoTracks_some]
    · simp only [Bool.not_eq_true] at ht
      simp [firstTwoTracks, ht, ih]

theorem devMoved_two_tracks {cos : ℚ → ℚ} {rs : List GPS} (h : devMoved cos rs = true) :
    ∃ t1 t2 ts, (rs.filter fun r => r.Track) = t1 :: t2 :: ts := by
  rw [devMoved_eq] at h
  generalize (rs.filter fun r => r.Track) = l at h
  match l, h with
  | [], h => simp at h
  | [t], h => simp [chainMoved, Distance_self] at h
  | t1 :: t2 :: ts, _ => exact ⟨t1, t2, ts, rfl⟩

theorem firstTwoTracks_of_moved {cos : ℚ → ℚ} {rs : List GPS} (h : devMoved cos rs = true) :
    ∃ cg1 cg2, firstTwoTracks rs none = (some cg1, some cg2) := by
  obtain ⟨t1, t2, ts, ht⟩ := devMoved_two_tracks h
  exact ⟨t1, t2, by rw [firstTwoTracks_none, ht]; rfl⟩

/-- What `checkAlert` does once it has reached its distance check. -/
theorem checkAlert_at_distance_check (env : Env) (a : Alert) (c0 : GPS) (cs : List GPS)
    (p0 : GPS) (ps : List GPS) (pg1 cg1 cg2 : GPS)
    (hq : env.query a.CarDevID = some (c0 :: cs))
    (hlive : env.nowCar - c0.Created ≤ alertDuration)
    (hpers : a.PersMobDevID ≠ 0)
    (hmoved : devMoved env.cos (c0 :: cs) = true)
    (hp : env.query a.PersMobDevID = some (p0 :: ps))
    (hplive : env.nowPersMob - p0.Created ≤ alertDuration)
    (hfind : (p0 :: ps).find? (fun r => r.Track) = some pg1)
    (hfresh : env.nowTrack - pg1.Created ≤ alertDuration)
    (htwo : firstTwoTracks (c0 :: cs) none = (some cg1, some cg2)) :
    checkAlert env a =
      if distExceedsMargin env (devMoved env.cos (p0 :: ps)) cg1 cg2 pg1 then
        ⟨[Effect.fetch a.CarDevID, Effect.fetch a.PersMobDevID,
          Effect.sendAlert carMovingWithoutYou], false⟩
      else ⟨[Effect.fetch a.CarDevID, Effect.fetch a.PersMobDevID], false⟩ := by
  unfold checkAlert
  rw [getDevRecords_cons hq]
  simp only []
  rw [if_neg (not_lt.mpr hlive), if_neg hpers, getDevRecords_cons hp]
  simp only [hmoved, Bool.not_true, Bool.false_eq_true, if_false]
  rw [if_neg (not_lt.mpr hplive), hfind]
  simp only []
  rw [if_neg (not_lt.mpr hfresh), htwo]

/-! ## Rounding to float64 -/

theorem round64_zero : round64 0 = 0 := by simp [round64]

theorem nearest_abs_le (q : ℚ) :
    |(((if q - ⌊q⌋ < 1 / 2 then ⌊q⌋
      else if 1 / 2 < q - ⌊q⌋ then ⌊q⌋ + 1
      else if ⌊q⌋ % 2 = 0 then ⌊q⌋ else ⌊q⌋ + 1 : Int) : ℚ)) - q| ≤ 1 / 2 := by
  have h1 := Int.floor_le q
  have h2 := Int.lt_floor_add_one q
  rw [abs_le]
  split_ifs <;> push_cast <;> constructor <;> linarith

theorem round64_err (x : ℚ) : |round64 x - x| ≤ |x| / 9007199254740992 := by
  unfold round64
  by_cases hx : x = 0
  · simp [hx]
  rw [if_neg hx]
  have hpos : 0 < |x| := abs_pos.mpr hx
  have hlog := Int.zpow_log_le_self (b := 2) (by norm_num) hpos
  simp only []
  set e := Int.log 2 |x| - 52 with he
  have hp : (0 : ℚ) < (2 : ℚ) ^ e := by positivity
  have hn := nearest_abs_le (x / (2 : ℚ) ^ e)
  set m : Int := (if x / (2 : ℚ) ^ e - ⌊x / (2 : ℚ) ^ e⌋ < 1 / 2 then ⌊x / (2 : ℚ) ^ e⌋
      else if 1 / 2 < x / (2 : ℚ) ^ e - ⌊x / (2 : ℚ) ^ e⌋ then ⌊x / (2 : ℚ) ^ e⌋ + 1
      else if ⌊x / (2 : ℚ) ^ e⌋ % 2 = 0 then ⌊x / (2 : ℚ) ^ e⌋ else ⌊x / (2 : ℚ) ^ e⌋ + 1) with hm
  have e1 : (m : ℚ) * (2 : ℚ) ^ e - x = ((m : ℚ) - x / (2 : ℚ) ^ e) * (2 : ℚ) ^ e := by
    field_simp
  rw [e1, abs_mul, abs_of_pos hp]
  have e2 : (2 : ℚ) ^ (Int.log 2 |x|) = (2 : ℚ) ^ e * 4503599627370496 := by
    have : Int.log 2 |x| = e + 52 := by omega
    rw [this, zpow_add₀ (by norm_num)]
    norm_num
  have h3 : (2 : ℚ) ^ e * 4503599627370496 ≤ |x| := by
    rw [← e2]; exact_mod_cast hlog
  calc |(m : ℚ) - x / (2 : ℚ) ^ e| * (2 : ℚ) ^ e ≤ 1 / 2 * (2 : ℚ) ^ e :=
        mul_le_mul_of_nonneg_right hn hp.le
    _ ≤ |x| / 9007199254740992 := by linarith

theorem round64_eq (x : ℚ) (k m : Int) (h1 : (2 : ℚ) ^ k ≤ |x|) (h2 : |x| < (2 : ℚ) ^ (k + 1))
    (h3 : |x / (2 : ℚ) ^ (k - 52) - m| < 1 / 2) :
    round64 x = (m : ℚ) * (2 : ℚ) ^ (k - 52) := by
  have hk : (0 : ℚ) < (2 : ℚ) ^ k := by positivity
  have hpos : 0 < |x| := lt_of_lt_of_le hk h1
  have hx : x ≠ 0 := abs_pos.mp hpos
  have hlog : Int.log 2 |x| = k := by
    apply le_antisymm
    · have := (Int.lt_zpow_iff_log_lt (b := 2) (by norm_num) hpos (x := k + 1)).mp
        (by exact_mod_cast h2)
      omega
    · exact (Int.zpow_le_iff_le_log (b := 2) (by norm_num) hpos).mp (by exact_mod_cast h1)
  unfold round64
  rw [if_neg hx, hlog]
  simp only []
  have f1 := Int.floor_le (x / (2 : ℚ) ^ (k - 52))
  have f2 := Int.lt_floor_add_one (x / (2 : ℚ) ^ (k - 52))
  rw [abs_lt] at h3
  congr 1
  norm_cast
  split_ifs with a b c
  · have t1 : ((⌊x / (2 : ℚ) ^ (k - 52)⌋ : Int) : ℚ) - m < 1 := by linarith [h3.1, h3.2]
    have t2 : (m : ℚ) - (⌊x / (2 : ℚ) ^ (k - 52)⌋ : Int) < 1 := by linarith [h3.1, h3.2]
    have g1 : ⌊x / (2 : ℚ) ^ (k - 52)⌋ - m < 1 := by exact_mod_cast t1
    have g2 : m - ⌊x / (2 : ℚ) ^ (k - 52)⌋ < 1 := by exact_mod_cast t2
    omega
  · have t1 : ((⌊x / (2 : ℚ) ^ (k - 52)⌋ : Int) : ℚ) + 1 - m < 1 := by linarith [h3.1, h3.2]
    have t2 : (m : ℚ) - ((⌊x / (2 : ℚ) ^ (k - 52)⌋ : Int) + 1) < 1 := by linarith [h3.1, h3.2]
    have g1 : ⌊x / (2 : ℚ) ^ (k - 52)⌋ + 1 - m < 1 := by exact_mod_cast t1
    have g2 : m - (⌊x / (2 : ℚ) ^ (k - 52)⌋ + 1) < 1 := by exact_mod_cast t2
    omega
  · exfalso
    have e : x / (2 : ℚ) ^ (k - 52) - ⌊x / (2 : ℚ) ^ (k - 52)⌋ = 1 / 2 := by linarith
    have t1 : (m : ℚ) - (⌊x / (2 : ℚ) ^ (k - 52)⌋ : Int) < 1 := by linarith [h3.1, h3.2]
    have t2 : (0 : ℚ) < (m : ℚ) - (⌊x / (2 : ℚ) ^ (k - 52)⌋ : Int) := by linarith [h3.1, h3.2]
    have g1 : m - ⌊x / (2 : ℚ) ^ (k - 52)⌋ < 1 := by exact_mod_cast t1
    have g2 : 0 < m - ⌊x / (2 : ℚ) ^ (k - 52)⌋ := by exact_mod_cast t2
    omega
  · exfalso
    have e : x / (2 : ℚ) ^ (k - 52) - ⌊x / (2 : ℚ) ^ (k - 52)⌋ = 1 / 2 := by linarith
    have t1 : (m : ℚ) - (⌊x / (2 : ℚ) ^ (k - 52)⌋ : Int) < 1 := by linarith [h3.1, h3.2]
    have t2 : (0 : ℚ) < (m : ℚ) - (⌊x / (2 : ℚ) ^ (k - 52)⌋ : Int) := by linarith [h3.1, h3.2]
    have g1 : m - ⌊x / (2 : ℚ) ^ (k - 52)⌋ < 1 := by exact_mod_cast t1
    have g2 : 0 < m - ⌊x / (2 : ℚ) ^ (k - 52)⌋ := by exact_mod_cast t2
    omega

theorem round64_of_pos (x : ℚ) (k m : Int) (h1 : (2 : ℚ) ^ k ≤ x) (h2 : x < (2 : ℚ) ^ (k + 1))
    (h3 : (m : ℚ) - 1 / 2 < x / (2 : ℚ) ^ (k - 52))
    (h4 : x / (2 : ℚ) ^ (k - 52) < (m : ℚ) + 1 / 2) :
    round64 x = (m : ℚ) * (2 : ℚ) ^ (k - 52) := by
  have hk : (0 : ℚ) < (2 : ℚ) ^ k := by positivity
  have hx : 0 < x := lt_of_lt_of_le hk h1
  apply round64_eq
  · rwa [abs_of_pos hx]
  · rwa [abs_of_pos hx]
  · rw [abs_lt]; constructor <;> linarith

theorem round64_of_neg (x : ℚ) (k m : Int) (h1 : (2 : ℚ) ^ k ≤ -x) (h2 : -x < (2 : ℚ) ^ (k + 1))
    (h3 : (m : ℚ) - 1 / 2 < x / (2 : ℚ) ^ (k - 52))
    (h4 : x / (2 : ℚ) ^ (k - 52) < (m : ℚ) + 1 / 2) :
    round64 x = (m : ℚ) * (2 : ℚ) ^ (k - 52) := by
  have hk : (0 : ℚ) < (2 : ℚ) ^ k := by positivity
  have hx : x < 0 := by linarith
  apply round64_eq
  · rwa [abs_of_neg hx]
  · rwa [abs_of_neg hx]
  · rw [abs_lt]; constructor <;> linarith

theorem rel_refl (x : ℚ) : Rel 0 x x := by simp [Rel]

theorem rel_mono {ε ε' x' x : ℚ} (h : Rel ε x' x) (he : ε ≤ ε') : Rel ε' x' x :=
  le_trans h (mul_le_mul_of_nonneg_right he (abs_nonneg x))

theorem rel_abs_le {ε x' x : ℚ} (h : Rel ε x' x) : |x'| ≤ (1 + ε) * |x| := by
  have h1 : |x'| ≤ |x' - x| + |x| := by
    have := abs_add (x' - x) x
    simpa using this
  unfold Rel at h
  linarith

theorem rel_abs_ge {ε x' x : ℚ} (h : Rel ε x' x) : (1 - ε) * |x| ≤ |x'| := by
  have h1 : |x| ≤ |x' - x| + |x'| := by
    have := abs_add (x - x') x'
    rw [abs_sub_comm] at this
    simpa using this
  unfold Rel at h
  linarith

theorem rel_round {ε x' x : ℚ} (h : Rel ε x' x) (he : ε ≤ 1) :
    Rel (ε + 1 / 4503599627370496) (round64 x') x := by
  have h1 := round64_err x'
  have h2 := rel_abs_le h
  have h3 : |round64 x' - x| ≤ |round64 x' - x'| + |x' - x| := by
    have := abs_add (round64 x' - x') (x' - x)
    simpa using this
  have h4 := abs_nonneg x
  unfold Rel at h ⊢
  nlinarith

theorem rel_mul {ε₁ ε₂ a' a b' b : ℚ} (ha : Rel ε₁ a' a) (hb : Rel ε₂ b' b) (h1 : 0 ≤ ε₁) :
    Rel (ε₁ + ε₂ + ε₁ * ε₂) (a' * b') (a * b) := by
  have hb' := rel_abs_le hb
  have e : a' * b' - a * b = (a' - a) * b' + a * (b' - b) := by ring
  unfold Rel at ha hb ⊢
  rw [e, abs_mul a b]
  have t1 : |(a' - a) * b'| ≤ (ε₁ * |a|) * ((1 + ε₂) * |b|) := by
    rw [abs_mul]
    exact mul_le_mul ha hb' (abs_nonneg _) (mul_nonneg h1 (abs_nonneg _))
  have t2 : |a * (b' - b)| ≤ |a| * (ε₂ * |b|) := by
    rw [abs_mul]
    exact mul_le_mul_of_nonneg_left hb (abs_nonneg _)
  have t3 := abs_add ((a' - a) * b') (a * (b' - b))
  nlinarith

theorem rel_mul_const {ε a' a : ℚ} (ha : Rel ε a' a) (c : ℚ) : Rel ε (a' * c) (a * c) := by
  unfold Rel at ha ⊢
  have e : a' * c - a * c = (a' - a) * c := by ring
  rw [e, abs_mul, abs_mul, ← mul_assoc]
  exact mul_le_mul_of_nonneg_right ha (abs_nonneg c)

theorem rel_div_const {ε a' a : ℚ} (ha : Rel ε a' a) (c : ℚ) : Rel ε (a' / c) (a / c) := by
  rw [div_eq_mul_inv, div_eq_mul_inv]
  exact rel_mul_const ha _

theorem rel_ne_zero {ε b' b : ℚ} (hb : Rel ε b' b) (h2 : ε < 1) (h0 : b ≠ 0) : b' ≠ 0 := by
  have h := rel_abs_ge hb
  have hp : 0 < |b| := abs_pos.mpr h0
  have : 0 < |b'| := lt_of_lt_of_le (mul_pos (by linarith) hp) h
  exact abs_pos.mp this

theorem rel_div {ε₁ ε₂ a' a b' b : ℚ} (ha : Rel ε₁ a' a) (hb : Rel ε₂ b' b) (h1 : 0 ≤ ε₁)
    (h2 : ε₂ < 1) (h0 : b ≠ 0) :
    Rel ((ε₁ + ε₂) / (1 - ε₂)) (a' / b') (a / b) := by
  have hb0 := rel_ne_zero hb h2 h0
  have hge := rel_abs_ge hb
  have hp : 0 < |b| := abs_pos.mpr h0
  have hp' : 0 < |b'| := abs_pos.mpr hb0
  have e : a' / b' - a / b = ((a' - a) * b - a * (b' - b)) / (b' * b) := by
    field_simp
    ring
  unfold Rel at ha hb ⊢
  rw [e, abs_div, abs_mul b' b, abs_div a b, div_le_iff₀ (mul_pos hp' hp)]
  have t1 : |(a' - a) * b - a * (b' - b)| ≤ (ε₁ + ε₂) * (|a| * |b|) := by
    have := abs_sub ((a' - a) * b) (a * (b' - b))
    rw [abs_mul, abs_mul] at this
    have u1 : |a' - a| * |b| ≤ ε₁ * |a| * |b| := mul_le_mul_of_nonneg_right ha hp.le
    have u2 : |a| * |b' - b| ≤ |a| * (ε₂ * |b|) := mul_le_mul_of_nonneg_left hb (abs_nonneg _)
    nlinarith
  have t2 : (ε₁ + ε₂) * (|a| * |b|) ≤ (ε₁ + ε₂) / (1 - ε₂) * (|a| / |b|) * (|b'| * |b|) := by
    have e2 : (ε₁ + ε₂) / (1 - ε₂) * (|a| / |b|) * (|b'| * |b|)
        = (ε₁ + ε₂) / (1 - ε₂) * |a| * |b'| := by
      have hne : (1 - ε₂) ≠ 0 := by linarith
      have hne' : |b| ≠ 0 := hp.ne'
      field_simp
      ring
    rw [e2, div_mul_eq_mul_div, div_mul_eq_mul_div, le_div_iff₀ (by linarith)]
    have u3 : 0 ≤ (ε₁ + ε₂) * |a| := by
      have hε₂ : 0 ≤ ε₂ := by
        by_contra hneg
        push_neg at hneg
        have := abs_nonneg (b' - b)
        nlinarith
      exact mul_nonneg (by linarith) (abs_nonneg _)
    nlinarith
  exact le_trans t1 t2

theorem rel_add {ε a' a b' b : ℚ} (ha : Rel ε a' a) (hb : Rel ε b' b) (hs : 0 ≤ a * b) :
    Rel ε (a' + b') (a + b) := by
  have e : a' + b' - (a + b) = (a' - a) + (b' - b) := by ring
  have h1 : |a + b| = |a| + |b| := by
    rcases le_total 0 a with h | h
    · rcases le_total 0 b with h' | h'
      · rw [abs_of_nonneg h, abs_of_nonneg h', abs_of_nonneg (add_nonneg h h')]
      · rcases eq_or_lt_of_le h with h'' | h''
        · simp [← h'']
        · have : b = 0 := by nlinarith
          simp [this]
    · rcases le_total 0 b with h' | h'
      · rcases eq_or_lt_of_le h with h'' | h''
        · simp [h'']
        · have : b = 0 := by nlinarith
          simp [this]
      · rw [abs_of_nonpos h, abs_of_nonpos h', abs_of_nonpos (add_nonpos h h')]
        ring
  unfold Rel at ha hb ⊢
  rw [e, h1]
  have := abs_add (a' - a) (b' - b)
  linarith

theorem rel_abs {ε a' a : ℚ} (ha : Rel ε a' a) : Rel ε |a'| |a| := by
  unfold Rel at ha ⊢
  rw [abs_abs]
  exact le_trans (abs_abs_sub_abs_le_abs_sub a' a) ha

theorem seconds_split (d : Int) :
    seconds d = ((Int.tdiv d 1000000000 : Int) : ℚ)
      + ((Int.tmod d 1000000000 : Int) : ℚ) / 1000000000 := by
  have h := Int.tdiv_add_tmod d 1000000000
  have h' : (1000000000 : ℚ) * ((Int.tdiv d 1000000000 : Int) : ℚ)
      + ((Int.tmod d 1000000000 : Int) : ℚ) = (d : ℚ) := by exact_mod_cast h
  unfold seconds
  rw [← h']
  field_simp
  ring

theorem tdiv_tmod_same_sign (d : Int) :
    (0 : ℚ) ≤ ((Int.tdiv d 1000000000 : Int) : ℚ)
      * (((Int.tmod d 1000000000 : Int) : ℚ) / 1000000000) := by
  rcases le_total 0 d with h | h
  · have h1 : 0 ≤ Int.tdiv d 1000000000 := Int.tdiv_nonneg h (by decide)
    have h2 : 0 ≤ Int.tmod d 1000000000 := Int.tmod_nonneg _ h
    have h1' : (0 : ℚ) ≤ ((Int.tdiv d 1000000000 : Int) : ℚ) := by exact_mod_cast h1
    have h2' : (0 : ℚ) ≤ ((Int.tmod d 1000000000 : Int) : ℚ) := by exact_mod_cast h2
    positivity
  · obtain ⟨e, rfl⟩ : ∃ e, d = -e := ⟨-d, by ring⟩
    have he : 0 ≤ e := by omega
    have h1 : 0 ≤ Int.tdiv e 1000000000 := Int.tdiv_nonneg he (by decide)
    have h2 : 0 ≤ Int.tmod e 1000000000 := Int.tmod_nonneg _ he
    have e1 : Int.tdiv (-e) 1000000000 = -Int.tdiv e 1000000000 := Int.neg_tdiv _ _
    have e2 : Int.tmod (-e) 1000000000 = -Int.tmod e 1000000000 := by
      rw [Int.tmod_def, Int.tmod_def, e1]; ring
    rw [e1, e2]
    have h1' : (0 : ℚ) ≤ ((Int.tdiv e 1000000000 : Int) : ℚ) := by exact_mod_cast h1
    have h2' : (0 : ℚ) ≤ ((Int.tmod e 1000000000 : Int) : ℚ) := by exact_mod_cast h2
    push_cast
    have : (-((Int.tdiv e 1000000000 : Int) : ℚ)) * (-((Int.tmod e 1000000000 : Int) : ℚ) / 1000000000)
        = ((Int.tdiv e 1000000000 : Int) : ℚ) * (((Int.tmod e 1000000000 : Int) : ℚ) / 1000000000) := by
      ring
    rw [this]
    positivity

/-- The seconds of a duration as computed by `Duration.Seconds` are within
`3 / 2^52` of the exact quotient. -/
theorem durationSeconds_rel (d : Int) :
    Rel (3 / 4503599627370496) (durationSeconds d) (seconds d) := by
  unfold durationSeconds
  rw [seconds_split]
  simp only []
  have a1 := rel_round (rel_refl ((Int.tdiv d 1000000000 : Int) : ℚ)) (by norm_num)
  have b1 := rel_round (rel_refl ((Int.tmod d 1000000000 : Int) : ℚ)) (by norm_num)
  have b2 := rel_round (rel_div_const b1 1000000000) (by norm_num)
  have s1 := rel_add (rel_mono a1 (by norm_num : (0 : ℚ) + 1 / 4503599627370496
      ≤ 2 / 4503599627370496)) (rel_mono b2 (by norm_num)) (tdiv_tmod_same_sign d)
  exact rel_mono (rel_round s1 (by norm_num)) (by norm_num)

/-- The widening term as computed in float64 is within `3 / 2^50` of its exact value. -/
theorem widening_rel (D : ℚ) (dt dp : Int) (hD : 0 ≤ D) (hdt : 0 < dt) :
    durationSeconds dt ≠ 0 ∧
    Rel (3 / 1125899906842624)
      (round64 (round64 (round64 (round64 D / durationSeconds dt) * |durationSeconds dp|)
        + round64 (|durationSeconds dp| * 6)))
      (D / seconds dt * |seconds dp| + |seconds dp| * 6) := by
  have hs : 0 < seconds dt := by
    unfold seconds
    have : (0 : ℚ) < (dt : ℚ) := by exact_mod_cast hdt
    positivity
  have s1 := durationSeconds_rel dt
  have g1 := rel_abs (durationSeconds_rel dp)
  have d1 := rel_round (rel_refl D) (by norm_num)
  have c1 := rel_mono (rel_div d1 s1 (by norm_num) (by norm_num) hs.ne')
    (by norm_num : _ ≤ (5 : ℚ) / 4503599627370496)
  have c2 := rel_round c1 (by norm_num)
  have p1 := rel_mono (rel_mul c2 g1 (by norm_num))
    (by norm_num : _ ≤ (10 : ℚ) / 4503599627370496)
  have p2 := rel_round p1 (by norm_num)
  have x1 := rel_round (rel_mul_const g1 6) (by norm_num)
  have hsame : 0 ≤ D / seconds dt * |seconds dp| * (|seconds dp| * 6) := by
    have := abs_nonneg (seconds dp)
    have := div_nonneg hD hs.le
    positivity
  have w1 := rel_add (rel_mono p2 (by norm_num : _ ≤ (11 : ℚ) / 4503599627370496))
    (rel_mono x1 (by norm_num)) hsame
  exact ⟨rel_ne_zero s1 (by norm_num) hs.ne',
    rel_mono (rel_round w1 (by norm_num)) (by norm_num)⟩

theorem round64_exact_pos (x : ℚ) (k m : Int) (h1 : (2 : ℚ) ^ k ≤ x) (h2 : x < (2 : ℚ) ^ (k + 1))
    (h3 : x = (m : ℚ) * (2 : ℚ) ^ (k - 52)) : round64 x = x := by
  have hp : (0 : ℚ) < (2 : ℚ) ^ (k - 52) := by positivity
  have e : x / (2 : ℚ) ^ (k - 52) = m := by rw [h3]; field_simp
  rw [round64_of_pos x k m h1 h2 (by rw [e]; linarith) (by rw [e]; linarith)]
  exact h3.symm

theorem round64_exact_neg (x : ℚ) (k m : Int) (h1 : (2 : ℚ) ^ k ≤ -x) (h2 : -x < (2 : ℚ) ^ (k + 1))
    (h3 : x = (m : ℚ) * (2 : ℚ) ^ (k - 52)) : round64 x = x := by
  have hp : (0 : ℚ) < (2 : ℚ) ^ (k - 52) := by positivity
  have e : x / (2 : ℚ) ^ (k - 52) = m := by rw [h3]; field_simp
  rw [round64_of_neg x k m h1 h2 (by rw [e]; linarith) (by rw [e]; linarith)]
  exact h3.symm

theorem durationSeconds_zero : durationSeconds 0 = 0 := by
  simp [durationSeconds, round64_zero]

/-- The seconds of a whole number `n` of seconds that `float64` holds exactly. -/
theorem durationSeconds_whole (n : Int) (h : round64 (n : ℚ) = n) :
    durationSeconds (n * 1000000000) = n := by
  have e1 : Int.tdiv (n * 1000000000) 1000000000 = n :=
    Int.mul_tdiv_cancel n (by decide)
  have e2 : Int.tmod (n * 1000000000) 1000000000 = 0 := by
    rw [Int.tmod_def, e1]; ring
  unfold durationSeconds
  simp only [e1, e2, Int.cast_zero, round64_zero, zero_div, add_zero, h]

theorem round64_7 : round64 7 = 7 :=
  round64_exact_pos 7 2 7881299347898368 (by norm_num) (by norm_num) (by norm_num)

theorem round64_21 : round64 21 = 21 :=
  round64_exact_pos 21 4 5910974510923776 (by norm_num) (by norm_num) (by norm_num)

theorem round64_neg_21 : round64 (-21) = -21 :=
  round64_exact_neg (-21) 4 (-5910974510923776) (by norm_num) (by norm_num) (by norm_num)

theorem round64_237 : round64 237 = 237 :=
  round64_exact_pos 237 7 8338696185053184 (by norm_num) (by norm_num) (by norm_num)

theorem round64_126 : round64 126 = 126 :=
  round64_exact_pos 126 6 8866461766385664 (by norm_num) (by norm_num) (by norm_num)

theorem round64_30 : round64 30 = 30 :=
  round64_exact_pos 30 4 8444249301319680 (by norm_num) (by norm_num) (by norm_num)

theorem round64_neg_30 : round64 (-30) = -30 :=
  round64_exact_neg (-30) 4 (-8444249301319680) (by norm_num) (by norm_num) (by norm_num)

theorem round64_300 : round64 300 = 300 :=
  round64_exact_pos 300 8 5277655813324800 (by norm_num) (by norm_num) (by norm_num)

theorem round64_10 : round64 10 = 10 :=
  round64_exact_pos 10 3 5629499534213120 (by norm_num) (by norm_num) (by norm_num)

theorem round64_180 : round64 180 = 180 :=
  round64_exact_pos 180 7 6333186975989760 (by norm_num) (by norm_num) (by norm_num)

theorem round64_480 : round64 480 = 480 :=
  round64_exact_pos 480 8 8444249301319680 (by norm_num) (by norm_num) (by norm_num)

/-- The quotient 237 / 7 in `float64`: 33.857142857142854. -/
theorem round64_237_div_7 :
    round64 (237 / 7) = 4764969248601819 / 140737488355328 := by
  rw [round64_of_pos (237 / 7) 5 4764969248601819 (by norm_num) (by norm_num) (by norm_num)
    (by norm_num)]
  norm_num

/-- The product 33.857142857142854 * 21 in `float64`: 710.9999999999999. -/
theorem round64_speed_times_21 :
    round64 (4764969248601819 / 140737488355328 * 21)
      = 6254022138789887 / 8796093022208 := by
  rw [round64_of_pos (4764969248601819 / 140737488355328 * 21) 9 6254022138789887
    (by norm_num) (by norm_num) (by norm_num) (by norm_num)]
  norm_num

/-- The sum 710.9999999999999 + 126 in `float64`: 836.9999999999999. -/
theorem round64_sum_836 :
    round64 (6254022138789887 / 8796093022208 + 126)
      = 7362329859588095 / 8796093022208 := by
  rw [round64_of_pos (6254022138789887 / 8796093022208 + 126) 9 7362329859588095
    (by norm_num) (by norm_num) (by norm_num) (by norm_num)]
  norm_num

/-! ## The alert margin -/

theorem distExceedsMargin_eq (env : Env) (b : Bool) (cg1 cg2 pg1 : GPS) :
    distExceedsMargin env b cg1 cg2 pg1 =
      decide (Distance env.cos cg1.Lat cg1.Lng pg1.Lat pg1.Lng > alertMargin env b cg1 cg2 pg1) :=
  rfl

theorem alertMargin_false (env : Env) (cg1 cg2 pg1 : GPS) :
    alertMargin env false cg1 cg2 pg1 = 500 := by
  simp [alertMargin]

theorem alertMargin_eq_widening (env : Env) (cg1 cg2 pg1 : GPS) :
    alertMargin env true cg1 cg2 pg1
      = add64 500 (int64OfFloatOr env.int64Indefinite (wideningTerm env.cos cg1 cg2 pg1)) :=
  rfl

theorem Distance_nonneg (cos : ℚ → ℚ) (lat lng lat2 lng2 : ℚ) :
    0 ≤ Distance cos lat lng lat2 lng2 := by
  unfold Distance int64Sqrt
  exact Int.ofNat_nonneg _

theorem widening_nonneg (cos : ℚ → ℚ) (c1 c2 p1 : GPS) (h : c1.Created > c2.Created) :
    0 ≤ assetSpeed cos c1 c2 * timeGap c1 p1 + 6 * timeGap c1 p1 := by
  have h1 : (0 : ℚ) ≤ (Distance cos c1.Lat c1.Lng c2.Lat c2.Lng : ℚ) := by
    exact_mod_cast Distance_nonneg cos _ _ _ _
  have h2 : (0 : ℚ) < seconds (c1.Created - c2.Created) := by
    unfold seconds
    have : (0 : ℚ) < ((c1.Created - c2.Created : Int) : ℚ) := by
      exact_mod_cast (show 0 < c1.Created - c2.Created by omega)
    positivity
  have h3 : 0 ≤ timeGap c1 p1 := abs_nonneg _
  have h4 : 0 ≤ assetSpeed cos c1 c2 := div_nonneg h1 (le_of_lt h2)
  positivity

/-- With distinct timestamps in newest-first order the widening term is finite
in `float64` and within `3 / 2^50` of its exact value. -/
theorem wideningTerm_rel (cos : ℚ → ℚ) (cg1 cg2 pg1 : GPS) (h : cg1.Created > cg2.Created) :
    ∃ w' : ℚ, wideningTerm cos cg1 cg2 pg1 = some w' ∧
      Rel (3 / 1125899906842624) w'
        (assetSpeed cos cg1 cg2 * timeGap cg1 pg1 + 6 * timeGap cg1 pg1) := by
  have hD : (0 : ℚ) ≤ (Distance cos cg2.Lat cg2.Lng cg1.Lat cg1.Lng : ℚ) := by
    exact_mod_cast Distance_nonneg cos _ _ _ _
  obtain ⟨hne, hrel⟩ := widening_rel (Distance cos cg2.Lat cg2.Lng cg1.Lat cg1.Lng : ℚ)
    (cg1.Created - cg2.Created) (cg1.Created - pg1.Created) hD (by omega)
  have e : (Distance cos cg2.Lat cg2.Lng cg1.Lat cg1.Lng : ℚ)
        / seconds (cg1.Created - cg2.Created) * |seconds (cg1.Created - pg1.Created)|
        + |seconds (cg1.Created - pg1.Created)| * 6
      = assetSpeed cos cg1 cg2 * timeGap cg1 pg1 + 6 * timeGap cg1 pg1 := by
    unfold assetSpeed timeGap
    rw [Distance_comm]
    ring
  rw [e] at hrel
  refine ⟨_, ?_, hrel⟩
  simp only [wideningTerm, floatDiv, if_neg hne, Option.map_some']

theorem rel_bounds {ε w' w : ℚ} (h : Rel ε w' w) (hw : 0 ≤ w) :
    w * (1 - ε) ≤ w' ∧ w' ≤ w * (1 + ε) := by
  unfold Rel at h
  rw [abs_of_nonneg hw, abs_le] at h
  constructor <;> linarith [h.1, h.2]

/-- With distinct timestamps and a widening term of at most `9 * 10^18` the
widened margin is 500 plus the integer part of the widening term as computed in
`float64`. -/
theorem alertMargin_true (env : Env) (cg1 cg2 pg1 : GPS) (h : cg1.Created > cg2.Created)
    (hr : assetSpeed env.cos cg1 cg2 * timeGap cg1 pg1 + 6 * timeGap cg1 pg1
      ≤ 9000000000000000000) :
    ∃ w' : ℚ, wideningTerm env.cos cg1 cg2 pg1 = some w' ∧
      Rel (3 / 1125899906842624) w'
        (assetSpeed env.cos cg1 cg2 * timeGap cg1 pg1 + 6 * timeGap cg1 pg1) ∧
      alertMargin env true cg1 cg2 pg1 = 500 + ⌊w'⌋ := by
  obtain ⟨w', hw, hrel⟩ := wideningTerm_rel env.cos cg1 cg2 pg1 h
  refine ⟨w', hw, hrel, ?_⟩
  have h0 := widening_nonneg env.cos cg1 cg2 pg1 h
  generalize assetSpeed env.cos cg1 cg2 * timeGap cg1 pg1 + 6 * timeGap cg1 pg1 = w
    at h0 hr hrel
  obtain ⟨b1, b2⟩ := rel_bounds hrel h0
  have p0 : 0 ≤ w' := le_trans (mul_nonneg h0 (by norm_num)) b1
  have p1 : w' < 9223372036854775308 := by nlinarith
  have f1 : int64OfFloat w' = ⌊w'⌋ := by unfold int64OfFloat; rw [if_pos p0]
  have f2 : 0 ≤ ⌊w'⌋ := Int.floor_nonneg.mpr p0
  have f3 : ⌊w'⌋ < 9223372036854775308 := by
    rw [Int.floor_lt]; push_cast; exact p1
  rw [alertMargin_eq_widening, hw]
  simp only [int64OfFloatOr, f1]
  rw [if_pos ⟨by omega, by omega⟩]
  unfold add64
  rw [wrap64_of_range] <;> omega

/-- With equal timestamps of the two track records of the car the speed is not
finite and the margin is 500 plus the `int64` of a value that is not finite. -/
theorem alertMargin_twin (env : Env) (cg1 cg2 pg1 : GPS) (h : cg1.Created = cg2.Created) :
    alertMargin env true cg1 cg2 pg1 = add64 500 env.int64Indefinite := by
  simp [alertMargin, floatDiv, durationSeconds_zero, h, int64OfFloatOr]

/-! ## The alert check at explicit windows -/

theorem dist_eq_300 : Distance cosTaylor 0 0 0 (27 / 10000) = 300 := by
  unfold Distance
  exact int64Sqrt_eq (z := 300)
    (by norm_num [distFromEq, distFromGr, cosTaylor, earth_k, earth_r, mathPi])
    (by norm_num [distFromEq, distFromGr, cosTaylor, earth_k, earth_r, mathPi])

theorem dist_eq_900 : Distance cosTaylor 0 0 0 (81 / 10000) = 900 := by
  unfold Distance
  exact int64Sqrt_eq (z := 900)
    (by norm_num [distFromEq, distFromGr, cosTaylor, earth_k, earth_r, mathPi])
    (by norm_num [distFromEq, distFromGr, cosTaylor, earth_k, earth_r, mathPi])

theorem dist_eq_1000 : Distance cosTaylor 0 0 0 (9 / 1000) = 1000 := by
  unfold Distance
  exact int64Sqrt_eq (z := 1000)
    (by norm_num [distFromEq, distFromGr, cosTaylor, earth_k, earth_r, mathPi])
    (by norm_num [distFromEq, distFromGr, cosTaylor, earth_k, earth_r, mathPi])

theorem devMoved_steadyCarWindow : devMoved cosTaylor steadyCarWindow = true := by
  simp [devMoved, devMovedLoop, steadyCarWindow, GPS.Track, dist_eq_300]

theorem devMoved_persWindow1000 : devMoved cosTaylor persWindow1000 = true := by
  simp [devMoved, devMovedLoop, persWindow1000, GPS.Track, Distance_comm cosTaylor 0 (9 / 1000),
    dist_eq_1000]

theorem devMoved_persWindow900 : devMoved cosTaylor persWindow900 = true := by
  simp [devMoved, devMovedLoop, persWindow900, GPS.Track, Distance_comm cosTaylor 0 (81 / 10000),
    dist_eq_900]

theorem devMoved_persWindow300 : devMoved cosTaylor persWindow300 = true := by
  simp [devMoved, devMovedLoop, persWindow300, GPS.Track, Distance_comm cosTaylor 0 (27 / 10000),
    dist_eq_300]

theorem devMoved_persWindowStill : devMoved cosTaylor persWindowStill = false := by
  simp [devMoved, devMovedLoop, persWindowStill, GPS.Track, Distance_self]

theorem devMoved_stillCarWindow : devMoved cosTaylor stillCarWindow = false := by
  simp [devMoved, devMovedLoop, stillCarWindow, GPS.Track, Distance_self]

theorem devMoved_burstCarWindow : devMoved cosTaylor burstCarWindow = true := by
  simp [devMoved, devMovedLoop, burstCarWindow, GPS.Track, dist_p399_p101]

theorem devMoved_twinCarWindow : devMoved cosTaylor twinCarWindow = true := by
  simp [devMoved, devMovedLoop, twinCarWindow, GPS.Track, dist_p399_p101]

theorem devMoved_persWindowNear (t : Int) : devMoved cosTaylor (persWindowNear t) = true := by
  simp [devMoved, devMovedLoop, persWindowNear, GPS.Track, dist_p399_p101]

theorem steady_widening (p1 : GPS) (h : p1.Created = 460000000000) :
    assetSpeed cosTaylor ⟨1, [], 0, 0, 430000000000⟩ ⟨1, [], 0, 27 / 10000, 400000000000⟩
        * timeGap ⟨1, [], 0, 0, 430000000000⟩ p1
      + 6 * timeGap ⟨1, [], 0, 0, 430000000000⟩ p1 = 480 := by
  simp only [assetSpeed, timeGap, seconds, dist_eq_300, h]
  norm_num [abs_of_neg]

theorem dist_eq_237 : Distance cosTaylor 0 0 0 (2135 / 1000000) = 237 := by
  unfold Distance
  exact int64Sqrt_eq (z := 237)
    (by norm_num [distFromEq, distFromGr, cosTaylor, earth_k, earth_r, mathPi])
    (by norm_num [distFromEq, distFromGr, cosTaylor, earth_k, earth_r, mathPi])

theorem dist_eq_1337 : Distance cosTaylor 0 0 0 (12028 / 1000000) = 1337 := by
  unfold Distance
  exact int64Sqrt_eq (z := 1337)
    (by norm_num [distFromEq, distFromGr, cosTaylor, earth_k, earth_r, mathPi])
    (by norm_num [distFromEq, distFromGr, cosTaylor, earth_k, earth_r, mathPi])

theorem devMoved_slowCarWindow : devMoved cosTaylor slowCarWindow = true := by
  simp [devMoved, devMovedLoop, slowCarWindow, GPS.Track, dist_eq_237]

theorem devMoved_persWindow1337 : devMoved cosTaylor persWindow1337 = true := by
  simp [devMoved, devMovedLoop, persWindow1337, GPS.Track,
    Distance_comm cosTaylor 0 (12028 / 1000000), dist_eq_1337]

theorem slow_widening :
    assetSpeed cosTaylor ⟨1, [], 0, 0, 430000000000⟩ ⟨1, [], 0, 2135 / 1000000, 423000000000⟩
        * timeGap ⟨1, [], 0, 0, 430000000000⟩ ⟨2, [], 0, 12028 / 1000000, 451000000000⟩
      + 6 * timeGap ⟨1, [], 0, 0, 430000000000⟩ ⟨2, [], 0, 12028 / 1000000, 451000000000⟩
      = 837 := by
  simp only [assetSpeed, timeGap, seconds, dist_eq_237]
  norm_num [abs_of_neg]

theorem burst_widening :
    assetSpeed cosTaylor ⟨1, [], 359 / 100000, 359 / 100000, 1⟩
          ⟨1, [], 913 / 1000000, 913 / 1000000, 0⟩
        * timeGap ⟨1, [], 359 / 100000, 359 / 100000, 1⟩
          ⟨2, [], 359 / 100000, 359 / 100000, 30000000000000001⟩
      + 6 * timeGap ⟨1, [], 359 / 100000, 359 / 100000, 1⟩
          ⟨2, [], 359 / 100000, 359 / 100000, 30000000000000001⟩
      = 12600000000180000000 := by
  simp only [assetSpeed, timeGap, seconds, dist_p399_p101]
  norm_num [abs_of_neg]

theorem durationSeconds_7 : durationSeconds 7000000000 = 7 := by
  have h := durationSeconds_whole 7 (by exact_mod_cast round64_7)
  simpa using h

theorem durationSeconds_neg_21 : durationSeconds (-21000000000) = -21 := by
  have h := durationSeconds_whole (-21) (by exact_mod_cast round64_neg_21)
  simpa using h

theorem durationSeconds_30 : durationSeconds 30000000000 = 30 := by
  have h := durationSeconds_whole 30 (by exact_mod_cast round64_30)
  simpa using h

theorem durationSeconds_neg_30 : durationSeconds (-30000000000) = -30 := by
  have h := durationSeconds_whole (-30) (by exact_mod_cast round64_neg_30)
  simpa using h

/-- The widening term on `slowCarWindow` and `persWindow1337` in `float64`:
836.9999999999999, while its exact value is 837. -/
theorem wideningTerm_slow :
    wideningTerm cosTaylor ⟨1, [], 0, 0, 430000000000⟩
      ⟨1, [], 0, 2135 / 1000000, 423000000000⟩ ⟨2, [], 0, 12028 / 1000000, 451000000000⟩
      = some (7362329859588095 / 8796093022208) := by
  have hd : Distance cosTaylor 0 (2135 / 1000000) 0 0 = 237 := by
    rw [Distance_comm]; exact dist_eq_237
  have e1 : (430000000000 : Int) - 423000000000 = 7000000000 := by decide
  have e2 : (430000000000 : Int) - 451000000000 = -21000000000 := by decide
  have a : |(-21 : ℚ)| = 21 := by norm_num [abs_of_neg]
  have c : ((237 : Int) : ℚ) = 237 := by norm_num
  have f : floatDiv 237 7 = some (4764969248601819 / 140737488355328) := by
    unfold floatDiv
    rw [if_neg (by norm_num), round64_237_div_7]
  have six : (21 : ℚ) * 6 = 126 := by norm_num
  simp only [wideningTerm, hd, e1, e2, durationSeconds_7, durationSeconds_neg_21, a, c,
    round64_237, f, Option.map_some', six, round64_126, round64_speed_times_21,
    round64_sum_836]

/-- The margin on `slowCarWindow` and `persWindow1337`: 500 + 836. -/
theorem alertMargin_slow :
    alertMargin (sceneEnv slowCarWindow persWindow1337 451000000001) true
      ⟨1, [], 0, 0, 430000000000⟩ ⟨1, [], 0, 2135 / 1000000, 423000000000⟩
      ⟨2, [], 0, 12028 / 1000000, 451000000000⟩ = 1336 := by
  have hf : int64OfFloat (7362329859588095 / 8796093022208) = 836 := by
    apply int64OfFloat_nonneg <;> norm_num
  rw [alertMargin_eq_widening]
  show add64 500 (int64OfFloatOr (-9223372036854775808) (wideningTerm cosTaylor _ _ _)) = 1336
  rw [wideningTerm_slow]
  simp only [int64OfFloatOr, hf]
  decide

/-- The widening term on `steadyCarWindow` and a personal mobile 30 s later in
`float64`: 480, its exact value. -/
theorem wideningTerm_steady (lat lng : ℚ) :
    wideningTerm cosTaylor ⟨1, [], 0, 0, 430000000000⟩
      ⟨1, [], 0, 27 / 10000, 400000000000⟩ ⟨2, [], lat, lng, 460000000000⟩
      = some 480 := by
  have hd : Distance cosTaylor 0 (27 / 10000) 0 0 = 300 := by
    rw [Distance_comm]; exact dist_eq_300
  have e1 : (430000000000 : Int) - 400000000000 = 30000000000 := by decide
  have e2 : (430000000000 : Int) - 460000000000 = -30000000000 := by decide
  have a : |(-30 : ℚ)| = 30 := by norm_num [abs_of_neg]
  have c : ((300 : Int) : ℚ) = 300 := by norm_num
  have f : floatDiv 300 30 = some 10 := by
    unfold floatDiv
    rw [if_neg (by norm_num), show (300 : ℚ) / 30 = 10 by norm_num, round64_10]
  have p : (10 : ℚ) * 30 = 300 := by norm_num
  have six : (30 : ℚ) * 6 = 180 := by norm_num
  have t : (300 : ℚ) + 180 = 480 := by norm_num
  simp only [wideningTerm, hd, e1, e2, durationSeconds_30, durationSeconds_neg_30, a, c,
    round64_300, f, Option.map_some', p, six, round64_180, t, round64_480]

/-- The margin on `steadyCarWindow` and a moving personal mobile 30 s later:
500 + 480. -/
theorem alertMargin_steady (env : Env) (lat lng : ℚ) (h : env.cos = cosTaylor) :
    alertMargin env true ⟨1, [], 0, 0, 430000000000⟩ ⟨1, [], 0, 27 / 10000, 400000000000⟩
      ⟨2, [], lat, lng, 460000000000⟩ = 980 := by
  have hf : int64OfFloat 480 = 480 := by
    apply int64OfFloat_nonneg <;> norm_num
  rw [alertMargin_eq_widening, h, wideningTerm_steady]
  simp only [int64OfFloatOr, hf]
  rw [if_pos ⟨by decide, by decide⟩]
  decide

/-- The margin on `burstCarWindow`: the widening term, about 1.26e19, does not fit
`int64`, and the margin is `500 - 2^63`. -/
theorem alertMargin_burst :
    alertMargin (sceneEnv burstCarWindow (persWindowNear 30000000000000001) 30000000000000002)
      true ⟨1, [], 359 / 100000, 359 / 100000, 1⟩ ⟨1, [], 913 / 1000000, 913 / 1000000, 0⟩
      ⟨2, [], 359 / 100000, 359 / 100000, 30000000000000001⟩ = -9223372036854775308 := by
  obtain ⟨w', hw, hrel⟩ := wideningTerm_rel cosTaylor ⟨1, [], 359 / 100000, 359 / 100000, 1⟩
    ⟨1, [], 913 / 1000000, 913 / 1000000, 0⟩
    ⟨2, [], 359 / 100000, 359 / 100000, 30000000000000001⟩ (by decide)
  rw [burst_widening] at hrel
  obtain ⟨b1, _⟩ := rel_bounds hrel (by norm_num)
  have p0 : (0 : ℚ) ≤ w' := by linarith
  have p1 : (9223372036854775808 : ℚ) ≤ w' := by linarith
  have f1 : int64OfFloat w' = ⌊w'⌋ := by unfold int64OfFloat; rw [if_pos p0]
  have f2 : (9223372036854775808 : Int) ≤ ⌊w'⌋ := by
    rw [Int.le_floor]; push_cast; exact p1
  rw [alertMargin_eq_widening]
  show add64 500 (int64OfFloatOr (-9223372036854775808) (wideningTerm cosTaylor _ _ _)) = _
  rw [hw]
  simp only [int64OfFloatOr, f1]
  rw [if_neg (by omega)]
  decide

theorem mem_effects_of_distance_check (b : Bool) (x y : Int) :
    Effect.sendAlert carMovingWithoutYou ∈
      (if b then (⟨[Effect.fetch x, Effect.fetch y, Effect.sendAlert carMovingWithoutYou],
          false⟩ : Run)
        else ⟨[Effect.fetch x, Effect.fetch y], false⟩).effects ↔ b = true := by
  cases b <;> simp

theorem floor_margin_iff (d : Int) (w : ℚ) : d > 500 + ⌊w⌋ ↔ (d : ℚ) > 500 + w := by
  constructor
  · intro h
    have h1 : (501 : ℚ) + ⌊w⌋ ≤ d := by exact_mod_cast (show 501 + ⌊w⌋ ≤ d by omega)
    have h2 := Int.lt_floor_add_one w
    linarith
  · intro h
    have h2 := Int.floor_le w
    have : ((500 + ⌊w⌋ : Int) : ℚ) < d := by push_cast; linarith
    exact_mod_cast this

theorem checkAlert_burst_alert :
    Effect.sendAlert carMovingWithoutYou ∈
      (checkAlert (sceneEnv burstCarWindow (persWindowNear 30000000000000001)
        30000000000000002) ⟨1, 2⟩).effects := by
  rw [checkAlert_at_distance_check
    (sceneEnv burstCarWindow (persWindowNear 30000000000000001) 30000000000000002) ⟨1, 2⟩
    ⟨1, [-1], 0, 0, 30000000000000001⟩
    [⟨1, [], 359 / 100000, 359 / 100000, 1⟩, ⟨1, [], 913 / 1000000, 913 / 1000000, 0⟩]
    ⟨2, [], 359 / 100000, 359 / 100000, 30000000000000001⟩
    [⟨2, [], 913 / 1000000, 913 / 1000000, 30000000000000001 - 1000000000⟩]
    ⟨2, [], 359 / 100000, 359 / 100000, 30000000000000001⟩
    ⟨1, [], 359 / 100000, 359 / 100000, 1⟩ ⟨1, [], 913 / 1000000, 913 / 1000000, 0⟩
    rfl (by decide) (by decide) devMoved_burstCarWindow rfl (by decide) rfl (by decide) rfl]
  have hm : devMoved
      (sceneEnv burstCarWindow (persWindowNear 30000000000000001) 30000000000000002).cos
      (⟨2, [], 359 / 100000, 359 / 100000, 30000000000000001⟩
        :: [⟨2, [], 913 / 1000000, 913 / 1000000, 30000000000000001 - 1000000000⟩]) = true :=
    devMoved_persWindowNear 30000000000000001
  rw [mem_effects_of_distance_check, distExceedsMargin_eq, hm, alertMargin_burst]
  show decide (Distance cosTaylor (359 / 100000) (359 / 100000) (359 / 100000) (359 / 100000)
    > -9223372036854775308) = true
  rw [Distance_self]
  decide

/-! ## Claims on the distance check and the early exits of checkAlert -/

/-- C21 fails on the code: on `slowCarWindow` (237 m in 7 s) and a moving personal
mobile whose newest track record is 21 s later and 1337 m away, the distance
check is reached with c1.Created > c2.Created and
500 + assetSpeed*timeGap + 6*timeGap is exactly 1337, so the gap 1337 is not
above it; yet `checkAlert` sends "Car is moving without you!", because in
`float64` the widening term is 836.9999999999999 and the margin is 1336. -/
theorem C21_widened_margin_counterexample :
    firstTwoTracks slowCarWindow none
      = (some ⟨1, [], 0, 0, 430000000000⟩,
         some ⟨1, [], 0, 2135 / 1000000, 423000000000⟩) ∧
    persWindow1337.find? (fun r => r.Track)
      = some ⟨2, [], 0, 12028 / 1000000, 451000000000⟩ ∧
    devMoved cosTaylor persWindow1337 = true ∧
    (430000000000 : Int) > 423000000000 ∧
    alertMargin (sceneEnv slowCarWindow persWindow1337 451000000001) true
      ⟨1, [], 0, 0, 430000000000⟩ ⟨1, [], 0, 2135 / 1000000, 423000000000⟩
      ⟨2, [], 0, 12028 / 1000000, 451000000000⟩ = 1336 ∧
    Effect.sendAlert carMovingWithoutYou ∈
      (checkAlert (sceneEnv slowCarWindow persWindow1337 451000000001) ⟨1, 2⟩).effects ∧
    ¬ ((Distance cosTaylor 0 0 0 (12028 / 1000000) : ℚ)
        > 500
          + assetSpeed cosTaylor ⟨1, [], 0, 0, 430000000000⟩
              ⟨1, [], 0, 2135 / 1000000, 423000000000⟩
            * timeGap ⟨1, [], 0, 0, 430000000000⟩
              ⟨2, [], 0, 12028 / 1000000, 451000000000⟩
          + 6 * timeGap ⟨1, [], 0, 0, 430000000000⟩
              ⟨2, [], 0, 12028 / 1000000, 451000000000⟩) := by
  refine ⟨rfl, rfl, devMoved_persWindow1337, by decide, alertMargin_slow, ?_, ?_⟩
  · rw [checkAlert_at_distance_check
      (sceneEnv slowCarWindow persWindow1337 451000000001) ⟨1, 2⟩
      ⟨1, [], 0, 0, 430000000000⟩ [⟨1, [], 0, 2135 / 1000000, 423000000000⟩]
      ⟨2, [], 0, 12028 / 1000000, 451000000000⟩ [⟨2, [], 0, 0, 450000000000⟩]
      ⟨2, [], 0, 12028 / 1000000, 451000000000⟩
      ⟨1, [], 0, 0, 430000000000⟩ ⟨1, [], 0, 2135 / 1000000, 423000000000⟩
      rfl (by decide) (by decide) devMoved_slowCarWindow rfl (by decide) rfl (by decide) rfl]
    have hm : devMoved (sceneEnv slowCarWindow persWindow1337 451000000001).cos
        (⟨2, [], 0, 12028 / 1000000, 451000000000⟩ :: [⟨2, [], 0, 0, 450000000000⟩]) = true :=
      devMoved_persWindow1337
    rw [mem_effects_of_distance_check, distExceedsMargin_eq, hm, alertMargin_slow]
    show decide (Distance cosTaylor 0 0 0 (12028 / 1000000) > 1336) = true
    rw [dist_eq_1337]
    decide
  · rw [add_assoc, slow_widening, dist_eq_1337]
    norm_num

/-- C21 as amended: when `checkAlert` reaches the distance check with the personal
mobile judged moving, c1.Created > c2.Created and the exact widening term
w = assetSpeed*timeGap + 6*timeGap at most 9 * 10^18, the code computes in
`float64` a widening term w' with |w' - w| <= 3 * 2^-50 * w, its margin is
500 + floor(w'), and it sends "Car is moving without you!" if and only if
Distance(c1, p1) > 500 + w': the truncation of w' does not change the decision.
So the alert is sent whenever Distance(c1, p1) > 500 + w * (1 + 3 * 2^-50) and
never when Distance(c1, p1) <= 500 + w * (1 - 3 * 2^-50). -/
theorem C21_widened_margin_decision (env : Env) (a : Alert) (c0 : GPS) (cs : List GPS)
    (p0 : GPS) (ps : List GPS) (pg1 cg1 cg2 : GPS)
    (hq : env.query a.CarDevID = some (c0 :: cs))
    (hlive : env.nowCar - c0.Created ≤ alertDuration)
    (hpers : a.PersMobDevID ≠ 0)
    (hmoved : devMoved env.cos (c0 :: cs) = true)
    (hp : env.query a.PersMobDevID = some (p0 :: ps))
    (hplive : env.nowPersMob - p0.Created ≤ alertDuration)
    (hfind : (p0 :: ps).find? (fun r => r.Track) = some pg1)
    (hfresh : env.nowTrack - pg1.Created ≤ alertDuration)
    (htwo : firstTwoTracks (c0 :: cs) none = (some cg1, some cg2))
    (hpm : devMoved env.cos (p0 :: ps) = true)
    (hord : cg1.Created > cg2.Created)
    (hrange : assetSpeed env.cos cg1 cg2 * timeGap cg1 pg1 + 6 * timeGap cg1 pg1
      ≤ 9000000000000000000) :
    (∃ w' : ℚ, wideningTerm env.cos cg1 cg2 pg1 = some w' ∧
      |w' - (assetSpeed env.cos cg1 cg2 * timeGap cg1 pg1 + 6 * timeGap cg1 pg1)|
        ≤ 3 / 1125899906842624
          * (assetSpeed env.cos cg1 cg2 * timeGap cg1 pg1 + 6 * timeGap cg1 pg1) ∧
      alertMargin env (devMoved env.cos (p0 :: ps)) cg1 cg2 pg1 = 500 + ⌊w'⌋ ∧
      (Effect.sendAlert carMovingWithoutYou ∈ (checkAlert env a).effects ↔
        (Distance env.cos cg1.Lat cg1.Lng pg1.Lat pg1.Lng : ℚ) > 500 + w')) ∧
    ((Distance env.cos cg1.Lat cg1.Lng pg1.Lat pg1.Lng : ℚ)
        > 500 + (assetSpeed env.cos cg1 cg2 * timeGap cg1 pg1 + 6 * timeGap cg1 pg1)
          * (1 + 3 / 1125899906842624) →
      Effect.sendAlert carMovingWithoutYou ∈ (checkAlert env a).effects) ∧
    ((Distance env.cos cg1.Lat cg1.Lng pg1.Lat pg1.Lng : ℚ)
        ≤ 500 + (assetSpeed env.cos cg1 cg2 * timeGap cg1 pg1 + 6 * timeGap cg1 pg1)
          * (1 - 3 / 1125899906842624) →
      Effect.sendAlert carMovingWithoutYou ∉ (checkAlert env a).effects) := by
  obtain ⟨w', hw, hrel, hmargin⟩ := alertMargin_true env cg1 cg2 pg1 hord hrange
  have h0 := widening_nonneg env.cos cg1 cg2 pg1 hord
  have hiff : Effect.sendAlert carMovingWithoutYou ∈ (checkAlert env a).effects ↔
      (Distance env.cos cg1.Lat cg1.Lng pg1.Lat pg1.Lng : ℚ) > 500 + w' := by
    rw [checkAlert_at_distance_check env a c0 cs p0 ps pg1 cg1 cg2 hq hlive hpers hmoved hp
      hplive hfind hfresh htwo, mem_effects_of_distance_check, distExceedsMargin_eq, hpm,
      hmargin, decide_eq_true_eq, floor_margin_iff]
  obtain ⟨b1, b2⟩ := rel_bounds hrel h0
  refine ⟨⟨w', hw, ?_, ?_, hiff⟩, ?_, ?_⟩
  · have := hrel
    unfold Rel at this
    rwa [abs_of_nonneg h0] at this
  · rw [hpm]; exact hmargin
  · intro h
    rw [hiff]
    linarith
  · intro h
    rw [hiff]
    linarith

/-- C21 as amended, at the car of `steadyCarWindow` (10 m/s) and a moving personal
mobile with a time gap of 30 s: the gap 1000 m gives the alert, the gap 900 m
gives none, and the margin is 980 m. -/
theorem C21_widened_margin_decision_witness :
    Effect.sendAlert carMovingWithoutYou ∈
      (checkAlert (sceneEnv steadyCarWindow persWindow1000 460000000001) ⟨1, 2⟩).effects ∧
    Effect.sendAlert carMovingWithoutYou ∉
      (checkAlert (sceneEnv steadyCarWindow persWindow900 460000000001) ⟨1, 2⟩).effects ∧
    alertMargin (sceneEnv steadyCarWindow persWindow1000 460000000001) true
      ⟨1, [], 0, 0, 430000000000⟩ ⟨1, [], 0, 27 / 10000, 400000000000⟩
      ⟨2, [], 0, 9 / 1000, 460000000000⟩ = 980 := by
  refine ⟨?_, ?_, alertMargin_steady _ _ _ rfl⟩
  · refine (C21_widened_margin_decision
      (sceneEnv steadyCarWindow persWindow1000 460000000001) ⟨1, 2⟩
      ⟨1, [], 0, 0, 430000000000⟩ [⟨1, [], 0, 27 / 10000, 400000000000⟩]
      ⟨2, [], 0, 9 / 1000, 460000000000⟩ [⟨2, [], 0, 0, 459000000000⟩]
      ⟨2, [], 0, 9 / 1000, 460000000000⟩
      ⟨1, [], 0, 0, 430000000000⟩ ⟨1, [], 0, 27 / 10000, 400000000000⟩
      rfl (by decide) (by decide) devMoved_steadyCarWindow rfl (by decide) rfl (by decide) rfl
      devMoved_persWindow1000 (by decide) ?_).2.1 ?_
    · show assetSpeed cosTaylor _ _ * timeGap _ _ + 6 * timeGap _ _ ≤ _
      rw [steady_widening _ rfl]; norm_num
    · show ((Distance cosTaylor 0 0 0 (9 / 1000) : Int) : ℚ)
        > 500 + (assetSpeed cosTaylor _ _ * timeGap _ _ + 6 * timeGap _ _) * _
      rw [steady_widening _ rfl, dist_eq_1000]; norm_num
  · refine (C21_widened_margin_decision
      (sceneEnv steadyCarWindow persWindow900 460000000001) ⟨1, 2⟩
      ⟨1, [], 0, 0, 430000000000⟩ [⟨1, [], 0, 27 / 10000, 400000000000⟩]
      ⟨2, [], 0, 81 / 10000, 460000000000⟩ [⟨2, [], 0, 0, 459000000000⟩]
      ⟨2, [], 0, 81 / 10000, 460000000000⟩
      ⟨1, [], 0, 0, 430000000000⟩ ⟨1, [], 0, 27 / 10000, 400000000000⟩
      rfl (by decide) (by decide) devMoved_steadyCarWindow rfl (by decide) rfl (by decide) rfl
      devMoved_persWindow900 (by decide) ?_).2.2 ?_
    · show assetSpeed cosTaylor _ _ * timeGap _ _ + 6 * timeGap _ _ ≤ _
      rw [steady_widening _ rfl]; norm_num
    · show ((Distance cosTaylor 0 0 0 (81 / 10000) : Int) : ℚ)
        ≤ 500 + (assetSpeed cosTaylor _ _ * timeGap _ _ + 6 * timeGap _ _) * _
      rw [steady_widening _ rfl, dist_eq_900]; norm_num

/-- C22: when `checkAlert` reaches the distance check with the personal mobile
judged not moving, the margin is exactly 500 m, whatever the speed of the car
and the time gap are, and "Car is moving without you!" is sent if and only if
Distance(c1, p1) > 500. -/
theorem C22_restrictive_margin (env : Env) (a : Alert) (c0 : GPS) (cs : List GPS)
    (p0 : GPS) (ps : List GPS) (pg1 cg1 cg2 : GPS)
    (hq : env.query a.CarDevID = some (c0 :: cs))
    (hlive : env.nowCar - c0.Created ≤ alertDuration)
    (hpers : a.PersMobDevID ≠ 0)
    (hmoved : devMoved env.cos (c0 :: cs) = true)
    (hp : env.query a.PersMobDevID = some (p0 :: ps))
    (hplive : env.nowPersMob - p0.Created ≤ alertDuration)
    (hfind : (p0 :: ps).find? (fun r => r.Track) = some pg1)
    (hfresh : env.nowTrack - pg1.Created ≤ alertDuration)
    (htwo : firstTwoTracks (c0 :: cs) none = (some cg1, some cg2))
    (hpm : devMoved env.cos (p0 :: ps) = false) :
    alertMargin env (devMoved env.cos (p0 :: ps)) cg1 cg2 pg1 = 500 ∧
    (Effect.sendAlert carMovingWithoutYou ∈ (checkAlert env a).effects ↔
      Distance env.cos cg1.Lat cg1.Lng pg1.Lat pg1.Lng > 500) := by
  rw [checkAlert_at_distance_check env a c0 cs p0 ps pg1 cg1 cg2 hq hlive hpers hmoved hp
    hplive hfind hfresh htwo, mem_effects_of_distance_check, distExceedsMargin_eq, hpm,
    alertMargin_false, decide_eq_true_eq]
  exact ⟨rfl, Iff.rfl⟩

/-- C22 at the car of `steadyCarWindow` and a personal mobile with a single track
record 900 m away: the margin is 500 m and the alert is sent. -/
theorem C22_restrictive_margin_witness :
    Effect.sendAlert carMovingWithoutYou ∈
      (checkAlert (sceneEnv steadyCarWindow persWindowStill 460000000001) ⟨1, 2⟩).effects :=
  (C22_restrictive_margin (sceneEnv steadyCarWindow persWindowStill 460000000001) ⟨1, 2⟩
    ⟨1, [], 0, 0, 430000000000⟩ [⟨1, [], 0, 27 / 10000, 400000000000⟩]
    ⟨2, [], 0, 81 / 10000, 460000000000⟩ []
    ⟨2, [], 0, 81 / 10000, 460000000000⟩
    ⟨1, [], 0, 0, 430000000000⟩ ⟨1, [], 0, 27 / 10000, 400000000000⟩
    rfl (by decide) (by decide) devMoved_steadyCarWindow rfl (by decide) rfl (by decide) rfl
    devMoved_persWindowStill).2.mpr
    (by show Distance cosTaylor 0 0 0 (81 / 10000) > 500
        rw [dist_eq_900]; decide)

/-- C23: for every live window `c0 :: cs` of the car on which `devMoved` is false,
`checkAlert` queries the car only and sends no alert, whatever the personal
mobile device and its records are. -/
theorem C23_stationary_asset_no_alert (env : Env) (a : Alert) (c0 : GPS) (cs : List GPS)
    (hq : env.query a.CarDevID = some (c0 :: cs))
    (hlive : env.nowCar - c0.Created ≤ alertDuration)
    (hstill : devMoved env.cos (c0 :: cs) = false) :
    checkAlert env a = ⟨[Effect.fetch a.CarDevID], false⟩ := by
  unfold checkAlert
  rw [getDevRecords_cons hq]
  simp only []
  rw [if_neg (not_lt.mpr hlive)]
  by_cases hz : a.PersMobDevID = 0
  · rw [if_pos hz]
  · rw [if_neg hz]
    simp [hstill]

/-- C23 at the car of `stillCarWindow` and a personal mobile 900 m away. -/
theorem C23_stationary_asset_no_alert_witness :
    checkAlert (sceneEnv stillCarWindow persWindowStill 460000000001) ⟨1, 2⟩
      = ⟨[Effect.fetch 1], false⟩ :=
  C23_stationary_asset_no_alert (sceneEnv stillCarWindow persWindowStill 460000000001) ⟨1, 2⟩
    ⟨1, [], 0, 0, 430000000000⟩ [] rfl (by decide) devMoved_stillCarWindow

/-- C24 fails on the code: the car of `movingCarWindow` moved and no personal
mobile is specified, yet 6 minutes after its newest record `checkAlert` sends the
alert "Car GPS device gone dark!". -/
theorem C24_no_companion_counterexample :
    devMoved cosTaylor movingCarWindow = true ∧
    (⟨1, 0⟩ : Alert).PersMobDevID = 0 ∧
    (checkAlert (carEnv 760000000000 none) ⟨1, 0⟩).effects
      = [Effect.fetch 1, Effect.sendAlert carGoneDark] := by
  refine ⟨devMoved_movingCarWindow, rfl, ?_⟩
  unfold checkAlert
  rw [getDevRecords_cons (show (carEnv 760000000000 none).query (⟨1, 0⟩ : Alert).CarDevID
    = some (⟨1, [], 359 / 100000, 359 / 100000, 400000000000⟩
      :: [⟨1, [], 913 / 1000000, 913 / 1000000, 399000000000⟩]) from rfl)]
  simp only []
  rw [if_pos (by decide)]

/-- C24 as amended: for every window `c0 :: cs` of the car on which `devMoved` is
true, if no personal mobile is specified then `checkAlert` never sends "Car is
moving without you!", and it sends no alert at all when the newest record of the
car is at most 5 minutes old. -/
theorem C24_no_companion_no_moving_alert (env : Env) (a : Alert) (c0 : GPS) (cs : List GPS)
    (hq : env.query a.CarDevID = some (c0 :: cs))
    (_hmoved : devMoved env.cos (c0 :: cs) = true)
    (hnone : a.PersMobDevID = 0) :
    Effect.sendAlert carMovingWithoutYou ∉ (checkAlert env a).effects ∧
    (env.nowCar - c0.Created ≤ alertDuration →
      checkAlert env a = ⟨[Effect.fetch a.CarDevID], false⟩) := by
  have hne : carMovingWithoutYou ≠ carGoneDark := by decide
  unfold checkAlert
  rw [getDevRecords_cons hq]
  simp only []
  by_cases hs : env.nowCar - c0.Created > alertDuration
  · rw [if_pos hs]
    exact ⟨by simp [hne], fun h => absurd hs (not_lt.mpr h)⟩
  · rw [if_neg hs, if_pos hnone]
    exact ⟨by simp, fun _ => rfl⟩

/-- C24 as amended, at the car of `movingCarWindow`, 1 ns after its newest record. -/
theorem C24_no_companion_no_moving_alert_witness :
    Effect.sendAlert carMovingWithoutYou
      ∉ (checkAlert (carEnv 400000000001 none) ⟨1, 0⟩).effects ∧
    ((400000000001 : Int) - 400000000000 ≤ alertDuration →
      checkAlert (carEnv 400000000001 none) ⟨1, 0⟩ = ⟨[Effect.fetch 1], false⟩) :=
  C24_no_companion_no_moving_alert (carEnv 400000000001 none) ⟨1, 0⟩
    ⟨1, [], 359 / 100000, 359 / 100000, 400000000000⟩
    [⟨1, [], 913 / 1000000, 913 / 1000000, 399000000000⟩] rfl devMoved_movingCarWindow rfl

/-- C25: if the query for the car fails or returns no records, `checkAlert` sends
no alert and ends without a panic: `getDevRecords` makes the empty result an
error, so `carRecords[0]` is never evaluated. -/
theorem C25_no_asset_data_no_verdict (env : Env) (a : Alert)
    (h : env.query a.CarDevID = none ∨ env.query a.CarDevID = some []) :
    getDevRecords env.query a.CarDevID = none ∧
    checkAlert env a = ⟨[Effect.fetch a.CarDevID], false⟩ := by
  have hg : getDevRecords env.query a.CarDevID = none := by
    rcases h with h | h <;> simp [getDevRecords, h]
  refine ⟨hg, ?_⟩
  unfold checkAlert
  rw [hg]

/-- C25 at a record store without records for device 1. -/
theorem C25_no_asset_data_no_verdict_witness :
    getDevRecords (sceneEnv [] [] 1).query 1 = none ∧
    checkAlert (sceneEnv [] [] 1) ⟨1, 2⟩ = ⟨[Effect.fetch 1], false⟩ :=
  C25_no_asset_data_no_verdict (sceneEnv [] [] 1) ⟨1, 2⟩ (Or.inr rfl)

/-- C26, the code at a failing input: on `twinCarWindow` the two track records of
the car have the same timestamp and the personal mobile moves, with a time gap
of 30 s and at the very place of the car.  The code divides by the zero seconds
(the speed is not finite), the margin is not 500 + 6*30 = 680 but 500 - 2^63, and
`checkAlert` sends "Car is moving without you!" at distance 0. -/
theorem C26_zero_time_delta_divides_by_zero :
    firstTwoTracks twinCarWindow none
      = (some ⟨1, [], 359 / 100000, 359 / 100000, 430000000000⟩,
         some ⟨1, [], 913 / 1000000, 913 / 1000000, 430000000000⟩) ∧
    devMoved cosTaylor (persWindowNear 460000000000) = true ∧
    timeGap ⟨1, [], 359 / 100000, 359 / 100000, 430000000000⟩
      ⟨2, [], 359 / 100000, 359 / 100000, 460000000000⟩ = 30 ∧
    floatDiv
      (round64 (Distance cosTaylor (913 / 1000000) (913 / 1000000) (359 / 100000)
        (359 / 100000) : ℚ))
      (durationSeconds (430000000000 - 430000000000)) = none ∧
    alertMargin (sceneEnv twinCarWindow (persWindowNear 460000000000) 460000000001) true
      ⟨1, [], 359 / 100000, 359 / 100000, 430000000000⟩
      ⟨1, [], 913 / 1000000, 913 / 1000000, 430000000000⟩
      ⟨2, [], 359 / 100000, 359 / 100000, 460000000000⟩ = -9223372036854775308 ∧
    Distance cosTaylor (359 / 100000) (359 / 100000) (359 / 100000) (359 / 100000) = 0 ∧
    Effect.sendAlert carMovingWithoutYou ∈
      (checkAlert (sceneEnv twinCarWindow (persWindowNear 460000000000) 460000000001)
        ⟨1, 2⟩).effects := by
  have hm : alertMargin (sceneEnv twinCarWindow (persWindowNear 460000000000) 460000000001)
      true ⟨1, [], 359 / 100000, 359 / 100000, 430000000000⟩
      ⟨1, [], 913 / 1000000, 913 / 1000000, 430000000000⟩
      ⟨2, [], 359 / 100000, 359 / 100000, 460000000000⟩ = -9223372036854775308 := by
    rw [alertMargin_twin
      (sceneEnv twinCarWindow (persWindowNear 460000000000) 460000000001)
      ⟨1, [], 359 / 100000, 359 / 100000, 430000000000⟩
      ⟨1, [], 913 / 1000000, 913 / 1000000, 430000000000⟩
      ⟨2, [], 359 / 100000, 359 / 100000, 460000000000⟩ rfl]
    decide
  refine ⟨rfl, devMoved_persWindowNear _, ?_, ?_, hm, Distance_self _ _ _, ?_⟩
  · norm_num [timeGap, seconds, abs_of_neg]
  · simp [floatDiv, durationSeconds_zero]
  · rw [checkAlert_at_distance_check
      (sceneEnv twinCarWindow (persWindowNear 460000000000) 460000000001) ⟨1, 2⟩
      ⟨1, [], 359 / 100000, 359 / 100000, 430000000000⟩
      [⟨1, [], 913 / 1000000, 913 / 1000000, 430000000000⟩]
      ⟨2, [], 359 / 100000, 359 / 100000, 460000000000⟩
      [⟨2, [], 913 / 1000000, 913 / 1000000, 460000000000 - 1000000000⟩]
      ⟨2, [], 359 / 100000, 359 / 100000, 460000000000⟩
      ⟨1, [], 359 / 100000, 359 / 100000, 430000000000⟩
      ⟨1, [], 913 / 1000000, 913 / 1000000, 430000000000⟩
      rfl (by decide) (by decide) devMoved_twinCarWindow rfl (by decide) rfl (by decide) rfl]
    have hp : devMoved
        (sceneEnv twinCarWindow (persWindowNear 460000000000) 460000000001).cos
        (⟨2, [], 359 / 100000, 359 / 100000, 460000000000⟩
          :: [⟨2, [], 913 / 1000000, 913 / 1000000, 460000000000 - 1000000000⟩]) = true :=
      devMoved_persWindowNear 460000000000
    rw [mem_effects_of_distance_check, distExceedsMargin_eq, hp, hm]
    show decide (Distance cosTaylor (359 / 100000) (359 / 100000) (359 / 100000) (359 / 100000)
      > -9223372036854775308) = true
    rw [Distance_self]
    decide

/-- C27: on every run of `checkAlert` that reaches the distance check (car window
live and moved, personal mobile specified, its window non-empty and live, a
recent track record `pg1` of it found), the scan of the car window finds two
track records `cg1` and `cg2`, and the run ends without a panic. -/
theorem C27_distance_check_records_exist (env : Env) (a : Alert) (c0 : GPS) (cs : List GPS)
    (p0 : GPS) (ps : List GPS) (pg1 : GPS)
    (hq : env.query a.CarDevID = some (c0 :: cs))
    (hlive : env.nowCar - c0.Created ≤ alertDuration)
    (hpers : a.PersMobDevID ≠ 0)
    (hmoved : devMoved env.cos (c0 :: cs) = true)
    (hp : env.query a.PersMobDevID = some (p0 :: ps))
    (hplive : env.nowPersMob - p0.Created ≤ alertDuration)
    (hfind : (p0 :: ps).find? (fun r => r.Track) = some pg1)
    (hfresh : env.nowTrack - pg1.Created ≤ alertDuration) :
    (∃ cg1 cg2, firstTwoTracks (c0 :: cs) none = (some cg1, some cg2) ∧
      cg1.Track = true ∧ cg2.Track = true ∧ pg1.Track = true) ∧
    (checkAlert env a).panicked = false := by
  obtain ⟨t1, t2, ts, ht⟩ := devMoved_two_tracks hmoved
  have htwo : firstTwoTracks (c0 :: cs) none = (some t1, some t2) := by
    rw [firstTwoTracks_none, ht]; rfl
  have m1 : t1 ∈ (c0 :: cs).filter fun r => r.Track := by rw [ht]; simp
  have m2 : t2 ∈ (c0 :: cs).filter fun r => r.Track := by rw [ht]; simp
  refine ⟨⟨t1, t2, htwo, (List.mem_filter.mp m1).2, (List.mem_filter.mp m2).2,
    List.find?_some hfind⟩, ?_⟩
  rw [checkAlert_at_distance_check env a c0 cs p0 ps pg1 t1 t2 hq hlive hpers hmoved hp
    hplive hfind hfresh htwo]
  split_ifs <;> rfl

/-- C27 at the car of `steadyCarWindow` and the personal mobile of `persWindow900`. -/
theorem C27_distance_check_records_exist_witness :
    (checkAlert (sceneEnv steadyCarWindow persWindow900 460000000001) ⟨1, 2⟩).panicked
      = false :=
  (C27_distance_check_records_exist (sceneEnv steadyCarWindow persWindow900 460000000001)
    ⟨1, 2⟩ ⟨1, [], 0, 0, 430000000000⟩ [⟨1, [], 0, 27 / 10000, 400000000000⟩]
    ⟨2, [], 0, 81 / 10000, 460000000000⟩ [⟨2, [], 0, 0, 459000000000⟩]
    ⟨2, [], 0, 81 / 10000, 460000000000⟩
    rfl (by decide) (by decide) devMoved_steadyCarWindow rfl (by decide) rfl (by decide)).2

/-- C29, the code at a failing input: on `burstCarWindow` the distance check is
reached with c1.Created > c2.Created and Distance(c1, p1) = 0, yet the computed
margin is 500 - 2^63, below 500, and `checkAlert` sends "Car is moving without
you!": the widening term, about 1.26e19, does not fit `int64`. -/
theorem C29_margin_below_base_on_overflow :
    firstTwoTracks burstCarWindow none
      = (some ⟨1, [], 359 / 100000, 359 / 100000, 1⟩,
         some ⟨1, [], 913 / 1000000, 913 / 1000000, 0⟩) ∧
    (1 : Int) > 0 ∧
    Distance cosTaylor (359 / 100000) (359 / 100000) (359 / 100000) (359 / 100000) ≤ 500 ∧
    alertMargin (sceneEnv burstCarWindow (persWindowNear 30000000000000001) 30000000000000002)
      true ⟨1, [], 359 / 100000, 359 / 100000, 1⟩ ⟨1, [], 913 / 1000000, 913 / 1000000, 0⟩
      ⟨2, [], 359 / 100000, 359 / 100000, 30000000000000001⟩ < 500 ∧
    Effect.sendAlert carMovingWithoutYou ∈
      (checkAlert (sceneEnv burstCarWindow (persWindowNear 30000000000000001)
        30000000000000002) ⟨1, 2⟩).effects := by
  refine ⟨rfl, by decide, ?_, ?_, checkAlert_burst_alert⟩
  · rw [Distance_self]; decide
  · rw [alertMargin_burst]; decide

/-! ## Claims on the side neighbours and on the scan direction -/

theorem div64_two_pos {S : Int} (hS : 0 < S) (hS' : S < 9223372036854775808) :
    div64 S 2 = S / 2 := by
  unfold div64
  rw [Int.tdiv_eq_ediv (le_of_lt hS) (by decide), wrap64_of_range] <;> omega

/-- C28: for every area size S > 0 and every valid point, with the in-cell
offsets inEq = dEq - cEq*S and inGr = dGr - cGr*S, the second code of
`AreaCodesForGeoPt` is that of area (cEq-1, cGr) if inEq <= S/2 and of
(cEq+1, cGr) otherwise, the third that of (cEq, cGr-1) if inGr <= S/2 and of
(cEq, cGr+1) otherwise; the lower neighbour is selected exactly when the offset
is not larger than the rest S - offset of the area, that is when the lower edge
is the nearer one or the two are equally near. -/
theorem C28_side_neighbours_nearer (cos : ℚ → ℚ) (S : Int) (lat lng : ℚ) (hS : 0 < S)
    (hS' : S < 9223372036854775808) (hv : Valid lat lng)
    (c1 : 0 ≤ cos (lat * mathPi / 180)) (c2 : cos (lat * mathPi / 180) ≤ 1) :
    (AreaCodesForGeoPt cos S lat lng)[1]? = some (packAreaIndices
      (if (areaDistancesAndIndices cos S lat lng).1
            - (areaDistancesAndIndices cos S lat lng).2.2.1 * S ≤ S / 2
        then (areaDistancesAndIndices cos S lat lng).2.2.1 - 1
        else (areaDistancesAndIndices cos S lat lng).2.2.1 + 1)
      (areaDistancesAndIndices cos S lat lng).2.2.2) ∧
    (AreaCodesForGeoPt cos S lat lng)[2]? = some (packAreaIndices
      (areaDistancesAndIndices cos S lat lng).2.2.1
      (if (areaDistancesAndIndices cos S lat lng).2.1
            - (areaDistancesAndIndices cos S lat lng).2.2.2 * S ≤ S / 2
        then (areaDistancesAndIndices cos S lat lng).2.2.2 - 1
        else (areaDistancesAndIndices cos S lat lng).2.2.2 + 1)) ∧
    ((areaDistancesAndIndices cos S lat lng).1
        - (areaDistancesAndIndices cos S lat lng).2.2.1 * S ≤ S / 2 ↔
      (areaDistancesAndIndices cos S lat lng).1
          - (areaDistancesAndIndices cos S lat lng).2.2.1 * S
        ≤ S - ((areaDistancesAndIndices cos S lat lng).1
          - (areaDistancesAndIndices cos S lat lng).2.2.1 * S)) ∧
    ((areaDistancesAndIndices cos S lat lng).2.1
        - (areaDistancesAndIndices cos S lat lng).2.2.2 * S ≤ S / 2 ↔
      (areaDistancesAndIndices cos S lat lng).2.1
          - (areaDistancesAndIndices cos S lat lng).2.2.2 * S
        ≤ S - ((areaDistancesAndIndices cos S lat lng).2.1
          - (areaDistancesAndIndices cos S lat lng).2.2.2 * S)) := by
  obtain ⟨⟨e1, b1, b2⟩, ⟨e2, b3, b4⟩⟩ := point_offsets hS hS' hv c1 c2
  have eh := div64_two_pos hS hS'
  unfold AreaCodesForGeoPt
  simp only []
  rw [e1, e2, eh]
  generalize (areaDistancesAndIndices cos S lat lng).2.2.1 = cEq at b1 b2
  generalize (areaDistancesAndIndices cos S lat lng).2.2.2 = cGr at b3 b4
  generalize (areaDistancesAndIndices cos S lat lng).1 - cEq * S = inEq
  generalize (areaDistancesAndIndices cos S lat lng).2.1 - cGr * S = inGr
  have s1 : sub64 cEq 1 = cEq - 1 := by unfold sub64; rw [wrap64_of_range] <;> omega
  have s2 : add64 cEq 1 = cEq + 1 := by unfold add64; rw [wrap64_of_range] <;> omega
  have s3 : sub64 cGr 1 = cGr - 1 := by unfold sub64; rw [wrap64_of_range] <;> omega
  have s4 : add64 cGr 1 = cGr + 1 := by unfold add64; rw [wrap64_of_range] <;> omega
  simp only [s1, s2, s3, s4]
  refine ⟨?_, ?_, by omega, by omega⟩
  · split_ifs <;> simp
  · split_ifs <;> simp

/-- C28 at area size 200 and the point (0.001713, 0.001713): offsets (190, 190),
so the neighbours are the northern (1, 0) and the eastern (0, 1). -/
theorem C28_side_neighbours_nearer_witness :
    (AreaCodesForGeoPt cosTaylor 200 (1713 / 1000000) (1713 / 1000000))[1]?
      = some (packAreaIndices 1 0) ∧
    (AreaCodesForGeoPt cosTaylor 200 (1713 / 1000000) (1713 / 1000000))[2]?
      = some (packAreaIndices 0 1) := by
  have h := C28_side_neighbours_nearer cosTaylor 200 (1713 / 1000000) (1713 / 1000000)
    (by decide) (by decide) (by unfold Valid; norm_num)
    (by norm_num [cosTaylor, mathPi]) (by norm_num [cosTaylor, mathPi])
  rw [adi_p190] at h
  exact ⟨h.1, h.2.1⟩

theorem devMoved_true_iff (cos : ℚ → ℚ) (rs : List GPS) :
    devMoved cos rs = true ↔
      (∃ l1 a b l2, (rs.filter fun r => r.Track) = l1 ++ a :: b :: l2 ∧
        Distance cos a.Lat a.Lng b.Lat b.Lng > 230) ∨
      (∃ f l, (rs.filter fun r => r.Track).head? = some f ∧
        (rs.filter fun r => r.Track).getLast? = some l ∧
        Distance cos f.Lat f.Lng l.Lat l.Lng > 230) := by
  rw [devMoved_eq]
  generalize (rs.filter fun r => r.Track) = ts
  cases ts with
  | nil => simp
  | cons t ts =>
    simp only [chainMoved_iff, List.head?_cons, Option.some.injEq]
    constructor
    · rintro (h | ⟨x, hx, hd⟩)
      · left; exact h
      · right; exact ⟨t, x, rfl, hx, by rw [Distance_comm]; exact hd⟩
    · rintro (h | ⟨f, l, hf, hl, hd⟩)
      · left; exact h
      · right; subst hf; exact ⟨l, hl, by rw [Distance_comm]; exact hd⟩

theorem devMoved_reverse_of_moved (cos : ℚ → ℚ) (rs : List GPS)
    (h : devMoved cos rs = true) : devMoved cos rs.reverse = true := by
  rw [devMoved_true_iff] at h ⊢
  rw [List.filter_reverse]
  generalize (rs.filter fun r => r.Track) = ts at h
  rcases h with ⟨l1, a, b, l2, he, hd⟩ | ⟨f, l, hf, hl, hd⟩
  · left
    refine ⟨l2.reverse, b, a, l1.reverse, ?_, by rw [Distance_comm]; exact hd⟩
    rw [he]
    simp
  · right
    refine ⟨l, f, ?_, ?_, by rw [Distance_comm]; exact hd⟩
    · rw [List.head?_reverse]; exact hl
    · rw [List.getLast?_reverse]; exact hf

/-- C30: `devMoved` gives the same result on a window and on the window reversed. -/
theorem C30_devMoved_reverse (cos : ℚ → ℚ) (rs : List GPS) :
    devMoved cos rs.reverse = devMoved cos rs := by
  rw [Bool.eq_iff_iff]
  constructor
  · intro h
    have := devMoved_reverse_of_moved cos rs.reverse h
    rwa [List.reverse_reverse] at this
  · exact devMoved_reverse_of_moved cos rs

end Igps
